import Mathlib

/-!
# SPI NOR flash driver (SPIFlash.c / SPIFlash.h)

Shallow embedding of the driver and proofs about it.

Modelling conventions

* `uint32_t` values are natural numbers; every operation that can leave the
  32-bit range is reduced modulo `2 ^ 32 = 4294967296` explicitly.
* The STM32 HAL (`HAL_SPI_TransmitReceive`, `HAL_GPIO_WritePin`,
  `HAL_GetTick`, `HAL_Delay`) is an arbitrary deterministic environment
  `Hal σ` over an environment state `σ`.  `HAL_GetTick` only observes the
  environment; time passes inside the other three calls.
* Every call the driver makes to `HAL_GPIO_WritePin` and
  `HAL_SPI_TransmitReceive` is appended to a ghost trace, in call order, with
  the arguments as the driver passes them.
* Next to the trace, `Sys.lockLog` records the value of the lock flag of the
  handle at each traced call.
* Caller buffers live in `Sys.ram`; a `uint8_t *` argument is an address into it.
* `HAL_SPI_TransmitReceive` takes its size as `uint16_t` (STM32 HAL, `spi.h`):
  the `size_t` the driver passes is reduced modulo `2 ^ 16` (`halSize`), and the
  trace records the bytes that are left.
* `SPIFlashTransmitReceive` is compiled with the blocking HAL branch: its
  guard `SPIFlashPLATFORM == SPIFlashPLATFORM_HAL` compares two identifiers
  that are defined nowhere (the header defines `SPIFLASH_PLATFORM...`), so the
  preprocessor evaluates `0 == 0`.
* Debug output (`dprintf`) is not modelled.  The only bus traffic it causes,
  the three status register reads at the end of `SPIFlashFindChip`, is
  switched by the `debug` argument of that function; the tick reads taken for
  the debug timing have no effect, because `HAL_GetTick` only observes.
* Data-phase transfers are in place (`Tx` and `Rx` are the same buffer), so
  the received bytes replace the caller's buffer, also in a program.  The
  command buffer `tx[5]` is local and its received bytes are dropped.
* The unbounded loops (`SPIFlashLock`, `SPIFlashWaitForWriting`, the VCC wait
  of `SPIFlashInit`) and the chunk loops take a fuel argument; a result `none` means that the loop was still
  running when the fuel ran out.  The state reached so far is returned in
  both cases.
-/

namespace SPIFlash

/-! ## 32-bit arithmetic -/

/-- Addition of two `uint32_t`. -/
def add32 (a b : Nat) : Nat := (a + b) % 4294967296

/-- Subtraction of two `uint32_t` (wraps around below zero). -/
def sub32 (a b : Nat) : Nat := (a % 4294967296 + (4294967296 - b % 4294967296)) % 4294967296

/-- Multiplication of two `uint32_t`. -/
def mul32 (a b : Nat) : Nat := (a * b) % 4294967296

/-- Left shift of a `uint32_t`. -/
def shl32 (a k : Nat) : Nat := (a <<< k) % 4294967296

/-! ## Constants of SPIFlash.c -/

def SPIFLASH_PAGE_SIZE : Nat := 1 <<< 8
def SPIFLASH_SECTOR_SIZE : Nat := 1 <<< 12
def SPIFLASH_BLOCK_SIZE : Nat := 1 <<< 16

def SPIFLASH_SECTOR2PAGE (sectorNumber : Nat) : Nat := shl32 sectorNumber 4
def SPIFLASH_BLOCK2SECTOR (blockNumber : Nat) : Nat := shl32 blockNumber 4
def SPIFLASH_PAGE2ADDRESS (pageNumber : Nat) : Nat := shl32 pageNumber 8
def SPIFLASH_SECTOR2ADDRESS (sectorNumber : Nat) : Nat := shl32 sectorNumber 12
def SPIFLASH_BLOCK2ADDRESS (blockNumber : Nat) : Nat := shl32 blockNumber 16
def SPIFLASH_ADDRESS2PAGE (address : Nat) : Nat := address >>> 8

def SPIFLASH_DUMMY_BYTE : Nat := 0xA5
def SPIFLASH_CMD_JEDECID : Nat := 0x9F
def SPIFLASH_CMD_WRITEDISABLE : Nat := 0x04
def SPIFLASH_CMD_READSTATUS1 : Nat := 0x05
def SPIFLASH_CMD_READSTATUS2 : Nat := 0x35
def SPIFLASH_CMD_READSTATUS3 : Nat := 0x15
def SPIFLASH_CMD_WRITEENABLE : Nat := 0x06
def SPIFLASH_CMD_PAGEPROG3ADD : Nat := 0x02
def SPIFLASH_CMD_PAGEPROG4ADD : Nat := 0x12
def SPIFLASH_CMD_READDATA3ADD : Nat := 0x03
def SPIFLASH_CMD_READDATA4ADD : Nat := 0x13
def SPIFLASH_CMD_SECTORERASE3ADD : Nat := 0x20
def SPIFLASH_CMD_SECTORERASE4ADD : Nat := 0x21
def SPIFLASH_CMD_BLOCKERASE3ADD : Nat := 0xD8
def SPIFLASH_CMD_BLOCKERASE4ADD : Nat := 0xDC
def SPIFLASH_CMD_CHIPERASE1 : Nat := 0x60

def SPIFlashSTATUS1_BUSY : Nat := 1 <<< 0

/-! ## Types of SPIFlash.h -/

/-- Return status of the driver (`SPIFlashStatus_t`). -/
inductive SPIFlashStatus_t
  | SPIFLASH_SUCCESS
  | SPIFLASH_ERROR
  | SPIFLASH_TIMEOUT
deriving DecidableEq, Repr

open SPIFlashStatus_t

/-- Numeric value of the enumerators, used where C tests a status as a truth value. -/
def SPIFlashStatus_t.toNat : SPIFlashStatus_t → Nat
  | SPIFLASH_SUCCESS => 0
  | SPIFLASH_ERROR => 1
  | SPIFLASH_TIMEOUT => 2

/-- The device handle (`SPIFlash_t`); pointers are numbers, `0` is `NULL`. -/
structure SPIFlash_t where
  hSPI : Nat
  GPIO : Nat
  manufacturer : Nat
  size : Nat
  memType : Nat
  lock : Nat
  pin : Nat
  pageNum : Nat
  sectorNum : Nat
  blockNum : Nat
deriving DecidableEq, Repr

/-! ## Environment -/

/-- One call of the driver into the bus side of the HAL. -/
inductive Event
  | cs (level : Nat)
  | xfer (tx : List Nat) (timeout : Nat)
deriving DecidableEq, Repr

/-- What `HAL_SPI_TransmitReceive` hands back: whether it returned `HAL_OK`,
the bytes it stored in the receive buffer, and the new environment. -/
structure XferResult (σ : Type) where
  ok : Bool
  rx : List Nat
  env : σ

/-- The HAL functions the driver calls.  The transfer size is the length of
the transmit list. -/
structure Hal (σ : Type) where
  HAL_SPI_TransmitReceive : σ → Nat → List Nat → Nat → XferResult σ
  HAL_GPIO_WritePin : σ → Nat → Nat → Nat → σ
  HAL_GetTick : σ → Nat
  HAL_Delay : σ → Nat → σ

/-- Handle, environment, caller RAM, the ghost trace of bus calls and, for each
traced call, the value the lock flag of the handle had when it was made. -/
structure Sys (σ : Type) where
  dev : SPIFlash_t
  env : σ
  ram : Nat → Nat
  trace : List Event
  lockLog : List Nat := []

/-- The `size` bytes at address `ptr`. -/
def ramRead (ram : Nat → Nat) (ptr size : Nat) : List Nat :=
  (List.range size).map (fun i => ram (ptr + i))

/-- Store the received bytes at `ptr`; cells the HAL did not fill keep their value. -/
def ramWrite (ram : Nat → Nat) (ptr size : Nat) (rx : List Nat) : Nat → Nat :=
  fun a => if ptr ≤ a ∧ a < ptr + size then rx.getD (a - ptr) (ram a) else ram a

variable {σ : Type}

/-! ## Hardware interface functions -/

def SPIFlashDelay (hal : Hal σ) (s : Sys σ) (x : Nat) : Sys σ :=
  { s with env := hal.HAL_Delay s.env x }

def SPIFlashGetTick (hal : Hal σ) (s : Sys σ) : Nat :=
  hal.HAL_GetTick s.env % 4294967296

def SPIFlashCSPin (hal : Hal σ) (s : Sys σ) (Select : Nat) : Sys σ :=
  { s with
    env := hal.HAL_GPIO_WritePin s.env s.dev.GPIO s.dev.pin Select
    trace := s.trace ++ [Event.cs Select]
    lockLog := s.lockLog ++ [s.dev.lock] }

/-- The transfer size as `HAL_SPI_TransmitReceive` receives it.  The STM32 HAL
(`spi.h`, not part of the driver sources) declares the parameter as
`uint16_t Size`, so the `size_t size` the driver passes is converted to 16
bits. -/
def halSize (size : Nat) : Nat := size % 65536

/-- Blocking transfer: `SPIFLASH_SUCCESS` on `HAL_OK`, `SPIFLASH_TIMEOUT` otherwise.
`Tx` holds the `size` bytes at the transmit pointer; the HAL is handed, and the
trace records, the first `halSize size` of them, and at most that many bytes
come back.  Returns the status, the received bytes and the new state. -/
def SPIFlashTransmitReceive (hal : Hal σ) (s : Sys σ) (Tx : List Nat) (Timeout : Nat) :
    SPIFlashStatus_t × List Nat × Sys σ :=
  let Size := halSize Tx.length
  let r := hal.HAL_SPI_TransmitReceive s.env s.dev.hSPI (Tx.take Size) Timeout
  (if r.ok then SPIFLASH_SUCCESS else SPIFLASH_TIMEOUT, r.rx.take Size,
    { s with
      env := r.env
      trace := s.trace ++ [Event.xfer (Tx.take Size) Timeout]
      lockLog := s.lockLog ++ [s.dev.lock] })

/-! ## Static functions -/

/-- Spin until the lock flag is clear, then take it. -/
def SPIFlashLock (hal : Hal σ) : Nat → Sys σ → Option Unit × Sys σ
  | 0, s => (none, s)
  | fuel + 1, s =>
    if s.dev.lock ≠ 0 then SPIFlashLock hal fuel (SPIFlashDelay hal s 1)
    else (some (), { s with dev := { s.dev with lock := 1 } })

def SPIFlashUnLock (s : Sys σ) : Sys σ :=
  { s with dev := { s.dev with lock := 0 } }

def SPIFlashWriteEnable (hal : Hal σ) (s : Sys σ) : SPIFlashStatus_t × Sys σ :=
  let s1 := SPIFlashCSPin hal s 0
  let r := SPIFlashTransmitReceive hal s1 [SPIFLASH_CMD_WRITEENABLE] 100
  let retVal := if r.1 = SPIFLASH_ERROR then SPIFLASH_ERROR else SPIFLASH_SUCCESS
  (retVal, SPIFlashCSPin hal r.2.2 1)

def SPIFlashWriteDisable (hal : Hal σ) (s : Sys σ) : SPIFlashStatus_t × Sys σ :=
  let s1 := SPIFlashCSPin hal s 0
  let r := SPIFlashTransmitReceive hal s1 [SPIFLASH_CMD_WRITEDISABLE] 100
  let retVal := if r.1 = SPIFLASH_ERROR then SPIFLASH_ERROR else SPIFLASH_SUCCESS
  (retVal, SPIFlashCSPin hal r.2.2 1)

/-- Read STATUS1: the second received byte, or `0` when the transfer did not succeed. -/
def SPIFlashReadReg1 (hal : Hal σ) (s : Sys σ) : Nat × Sys σ :=
  let s1 := SPIFlashCSPin hal s 0
  let r := SPIFlashTransmitReceive hal s1 [SPIFLASH_CMD_READSTATUS1, SPIFLASH_DUMMY_BYTE] 100
  let retVal := if r.1 = SPIFLASH_SUCCESS then r.2.1.getD 1 0 % 256 else 0
  (retVal, SPIFlashCSPin hal r.2.2 1)

/-- The `while (1)` loop of `SPIFlashWaitForWriting`. -/
def SPIFlashWaitForWriting.loop (hal : Hal σ) (startTime Timeout : Nat) :
    Nat → Sys σ → Option SPIFlashStatus_t × Sys σ
  | 0, s => (none, s)
  | fuel + 1, s =>
    if sub32 (SPIFlashGetTick hal s) startTime ≥ Timeout then (some SPIFLASH_TIMEOUT, s)
    else
      let r := SPIFlashReadReg1 hal s
      if r.1 &&& SPIFlashSTATUS1_BUSY = 0 then (some SPIFLASH_SUCCESS, r.2)
      else SPIFlashWaitForWriting.loop hal startTime Timeout fuel (SPIFlashDelay hal r.2 1)

def SPIFlashWaitForWriting (hal : Hal σ) (fuel : Nat) (s : Sys σ) (Timeout : Nat) :
    Option SPIFlashStatus_t × Sys σ :=
  SPIFlashWaitForWriting.loop hal (SPIFlashGetTick hal s) Timeout fuel s

/-- Sequencing: continue with `k` unless the first computation is unfinished. -/
def andThen {α β : Type} (r : Option α × Sys σ) (k : α → Sys σ → Option β × Sys σ) :
    Option β × Sys σ :=
  match r.1 with
  | none => (none, r.2)
  | some a => k a r.2

/-- Address bytes `tx[1..4]` of a 4-byte-address command. -/
def addrBytes4 (address : Nat) : List Nat :=
  [(address &&& 0xFF000000) >>> 24, (address &&& 0x00FF0000) >>> 16,
   (address &&& 0x0000FF00) >>> 8, address &&& 0x000000FF]

/-- Address bytes `tx[1..3]` of a 3-byte-address command. -/
def addrBytes3 (address : Nat) : List Nat :=
  [(address &&& 0x00FF0000) >>> 16, (address &&& 0x0000FF00) >>> 8, address &&& 0x000000FF]

/-- Program at most one page.  `data` is the address of the caller's buffer; the
data phase is an in-place transfer, so the received bytes replace the buffer. -/
def SPIFlashWriteFn (hal : Hal σ) (fuel : Nat) (s : Sys σ)
    (pageNumber data size offset : Nat) : Option SPIFlashStatus_t × Sys σ :=
  let maximum := sub32 SPIFLASH_PAGE_SIZE offset
  let body : Option SPIFlashStatus_t × Sys σ :=
    if pageNumber ≥ s.dev.pageNum then (some SPIFLASH_ERROR, s)
    else if offset ≥ SPIFLASH_PAGE_SIZE then (some SPIFLASH_ERROR, s)
    else
      let size := if size > maximum then maximum else size
      let address := add32 (SPIFLASH_PAGE2ADDRESS pageNumber) offset
      let we := SPIFlashWriteEnable hal s
      if we.1 = SPIFLASH_ERROR then (some SPIFLASH_ERROR, we.2)
      else
        let s1 := SPIFlashCSPin hal we.2 0
        let c :=
          if s1.dev.blockNum ≥ 512 then
            SPIFlashTransmitReceive hal s1 (SPIFLASH_CMD_PAGEPROG4ADD :: addrBytes4 address) 100
          else
            SPIFlashTransmitReceive hal s1 (SPIFLASH_CMD_PAGEPROG3ADD :: addrBytes3 address) 100
        if c.1 = SPIFLASH_ERROR then (some SPIFLASH_ERROR, SPIFlashCSPin hal c.2.2 1)
        else
          let d := SPIFlashTransmitReceive hal c.2.2 (ramRead c.2.2.ram data size) 1000
          let s2 := { d.2.2 with ram := ramWrite d.2.2.ram data size d.2.1 }
          if d.1 = SPIFLASH_ERROR then (some SPIFLASH_ERROR, SPIFlashCSPin hal s2 1)
          else
            andThen (SPIFlashWaitForWriting hal fuel (SPIFlashCSPin hal s2 1) 100) fun w s3 =>
              (some (if w.toNat ≠ 0 then SPIFLASH_SUCCESS else SPIFLASH_ERROR), s3)
  andThen body fun retVal s4 => (some retVal, (SPIFlashWriteDisable hal s4).2)

/-- Read `size` bytes from `address` into the buffer at `data` (in-place transfer:
the old buffer contents are what is clocked out during the data phase). -/
def SPIFlashReadFn (hal : Hal σ) (s : Sys σ) (address data size : Nat) :
    SPIFlashStatus_t × Sys σ :=
  let s1 := SPIFlashCSPin hal s 0
  let c :=
    if s1.dev.blockNum ≥ 512 then
      SPIFlashTransmitReceive hal s1 (SPIFLASH_CMD_READDATA4ADD :: addrBytes4 address) 100
    else
      SPIFlashTransmitReceive hal s1 (SPIFLASH_CMD_READDATA3ADD :: addrBytes3 address) 100
  if c.1 = SPIFLASH_ERROR then (SPIFLASH_ERROR, SPIFlashCSPin hal c.2.2 1)
  else
    let d := SPIFlashTransmitReceive hal c.2.2 (ramRead c.2.2.ram data size) 2000
    let s2 := { d.2.2 with ram := ramWrite d.2.2.ram data size d.2.1 }
    if d.1 = SPIFLASH_ERROR then (SPIFLASH_ERROR, SPIFlashCSPin hal s2 1)
    else (SPIFLASH_SUCCESS, SPIFlashCSPin hal s2 1)

/-! ## Public functions -/

def SPIFlashEraseChip (hal : Hal σ) (fuel : Nat) (s : Sys σ) :
    Option SPIFlashStatus_t × Sys σ :=
  andThen (SPIFlashLock hal fuel s) fun _ s0 =>
    let body : Option SPIFlashStatus_t × Sys σ :=
      let we := SPIFlashWriteEnable hal s0
      if we.1 = SPIFLASH_ERROR then (some SPIFLASH_ERROR, we.2)
      else
        let s1 := SPIFlashCSPin hal we.2 0
        let c := SPIFlashTransmitReceive hal s1 [SPIFLASH_CMD_CHIPERASE1] 100
        if c.1 = SPIFLASH_ERROR then (some SPIFLASH_ERROR, SPIFlashCSPin hal c.2.2 1)
        else
          andThen (SPIFlashWaitForWriting hal fuel (SPIFlashCSPin hal c.2.2 1)
              (mul32 s0.dev.blockNum 1000)) fun w s3 =>
            (some (if w.toNat ≠ 0 then SPIFLASH_SUCCESS else SPIFLASH_ERROR), s3)
    andThen body fun retVal s4 =>
      (some retVal, SPIFlashUnLock (SPIFlashWriteDisable hal s4).2)

def SPIFlashEraseSector (hal : Hal σ) (fuel : Nat) (s : Sys σ) (sector : Nat) :
    Option SPIFlashStatus_t × Sys σ :=
  andThen (SPIFlashLock hal fuel s) fun _ s0 =>
    let address := mul32 sector SPIFLASH_SECTOR_SIZE
    let body : Option SPIFlashStatus_t × Sys σ :=
      if sector ≥ s0.dev.sectorNum then (some SPIFLASH_ERROR, s0)
      else
        let we := SPIFlashWriteEnable hal s0
        if we.1 = SPIFLASH_ERROR then (some SPIFLASH_ERROR, we.2)
        else
          let s1 := SPIFlashCSPin hal we.2 0
          let c :=
            if s1.dev.blockNum ≥ 512 then
              SPIFlashTransmitReceive hal s1 (SPIFLASH_CMD_SECTORERASE4ADD :: addrBytes4 address) 100
            else
              SPIFlashTransmitReceive hal s1 (SPIFLASH_CMD_SECTORERASE3ADD :: addrBytes3 address) 100
          if c.1 = SPIFLASH_ERROR then (some SPIFLASH_ERROR, SPIFlashCSPin hal c.2.2 1)
          else
            andThen (SPIFlashWaitForWriting hal fuel (SPIFlashCSPin hal c.2.2 1) 1000) fun w s3 =>
              (some (if w.toNat ≠ 0 then SPIFLASH_SUCCESS else SPIFLASH_ERROR), s3)
    andThen body fun retVal s4 =>
      (some retVal, SPIFlashUnLock (SPIFlashWriteDisable hal s4).2)

def SPIFlashEraseBlock (hal : Hal σ) (fuel : Nat) (s : Sys σ) (block : Nat) :
    Option SPIFlashStatus_t × Sys σ :=
  andThen (SPIFlashLock hal fuel s) fun _ s0 =>
    let address := mul32 block SPIFLASH_BLOCK_SIZE
    let body : Option SPIFlashStatus_t × Sys σ :=
      if block ≥ s0.dev.blockNum then (some SPIFLASH_ERROR, s0)
      else
        let we := SPIFlashWriteEnable hal s0
        if we.1 = SPIFLASH_ERROR then (some SPIFLASH_ERROR, we.2)
        else
          let s1 := SPIFlashCSPin hal we.2 0
          let c :=
            if s1.dev.blockNum ≥ 512 then
              SPIFlashTransmitReceive hal s1 (SPIFLASH_CMD_BLOCKERASE4ADD :: addrBytes4 address) 100
            else
              SPIFlashTransmitReceive hal s1 (SPIFLASH_CMD_BLOCKERASE3ADD :: addrBytes3 address) 100
          if c.1 = SPIFLASH_ERROR then (some SPIFLASH_ERROR, SPIFlashCSPin hal c.2.2 1)
          else
            andThen (SPIFlashWaitForWriting hal fuel (SPIFlashCSPin hal c.2.2 1) 3000) fun w s3 =>
              (some (if w.toNat ≠ 0 then SPIFLASH_SUCCESS else SPIFLASH_ERROR), s3)
    andThen body fun retVal s4 =>
      (some retVal, SPIFlashUnLock (SPIFlashWriteDisable hal s4).2)

/-- The `do ... while (remaining > 0)` loop of `SPIFlashWriteAddress`. -/
def SPIFlashWriteAddress.loop (hal : Hal σ) (fuel data : Nat) :
    Nat → Sys σ → Nat → Nat → Nat → Option SPIFlashStatus_t × Sys σ
  | 0, s, _, _, _ => (none, s)
  | n + 1, s, add, index, remaining =>
    let page := SPIFLASH_ADDRESS2PAGE add
    let offset := add % SPIFLASH_PAGE_SIZE
    let length :=
      if remaining ≤ SPIFLASH_PAGE_SIZE then remaining else sub32 SPIFLASH_PAGE_SIZE offset
    andThen (SPIFlashWriteFn hal fuel s page (data + index) length offset) fun r s1 =>
      if r = SPIFLASH_ERROR then (some SPIFLASH_ERROR, s1)
      else
        let add1 := add32 add length
        let index1 := add32 index length
        let remaining1 := sub32 remaining length
        if remaining1 = 0 then (some SPIFLASH_SUCCESS, s1)
        else if remaining1 > 0 then SPIFlashWriteAddress.loop hal fuel data n s1 add1 index1 remaining1
        else (some SPIFLASH_ERROR, s1)

def SPIFlashWriteAddress (hal : Hal σ) (fuel : Nat) (s : Sys σ) (address data size : Nat) :
    Option SPIFlashStatus_t × Sys σ :=
  andThen (SPIFlashLock hal fuel s) fun _ s0 =>
    andThen (SPIFlashWriteAddress.loop hal fuel data fuel s0 address 0 size) fun retVal s1 =>
      (some retVal, SPIFlashUnLock s1)

def SPIFlashWritePage (hal : Hal σ) (fuel : Nat) (s : Sys σ)
    (pageNumber data size offset : Nat) : Option SPIFlashStatus_t × Sys σ :=
  andThen (SPIFlashLock hal fuel s) fun _ s0 =>
    andThen (SPIFlashWriteFn hal fuel s0 pageNumber data size offset) fun retVal s1 =>
      (some retVal, SPIFlashUnLock s1)

/-- The `while` loop shared in shape by `SPIFlashWriteSector` and
`SPIFlashWriteBlock`; `limit` is the loop bound `(n + 1) * pages per region`
and `retVal` the status held on entry of the iteration. -/
def SPIFlashWriteRegion.loop (hal : Hal σ) (fuel data limit : Nat) :
    Nat → Sys σ → Nat → Nat → Nat → Nat → Option SPIFlashStatus_t × Sys σ
  | 0, s, _, _, _, _ => (none, s)
  | n + 1, s, bytesWritten, pageNumber, remainingBytes, pageOffset =>
    if remainingBytes > 0 ∧ pageNumber < limit then
      let bytesToWrite :=
        if remainingBytes > SPIFLASH_PAGE_SIZE then SPIFLASH_PAGE_SIZE else remainingBytes
      andThen (SPIFlashWriteFn hal fuel s pageNumber (data + bytesWritten) bytesToWrite pageOffset)
        fun r s1 =>
          if r = SPIFLASH_ERROR then (some SPIFLASH_ERROR, s1)
          else
            SPIFlashWriteRegion.loop hal fuel data limit n s1
              (add32 bytesWritten bytesToWrite) (add32 pageNumber 1)
              (sub32 remainingBytes bytesToWrite) 0
    else (some SPIFLASH_SUCCESS, s)

def SPIFlashWriteSector (hal : Hal σ) (fuel : Nat) (s : Sys σ)
    (sectorNumber data size offset : Nat) : Option SPIFlashStatus_t × Sys σ :=
  andThen (SPIFlashLock hal fuel s) fun _ s0 =>
    let body : Option SPIFlashStatus_t × Sys σ :=
      if offset ≥ SPIFLASH_SECTOR_SIZE then (some SPIFLASH_ERROR, s0)
      else
        let size :=
          if size > sub32 SPIFLASH_SECTOR_SIZE offset then sub32 SPIFLASH_SECTOR_SIZE offset
          else size
        let pageNumber :=
          add32 (mul32 sectorNumber (SPIFLASH_SECTOR_SIZE / SPIFLASH_PAGE_SIZE))
            (offset / SPIFLASH_PAGE_SIZE)
        SPIFlashWriteRegion.loop hal fuel data
          (mul32 (add32 sectorNumber 1) (SPIFLASH_SECTOR_SIZE / SPIFLASH_PAGE_SIZE))
          fuel s0 0 pageNumber size (offset % SPIFLASH_PAGE_SIZE)
    andThen body fun retVal s1 => (some retVal, SPIFlashUnLock s1)

def SPIFlashWriteBlock (hal : Hal σ) (fuel : Nat) (s : Sys σ)
    (blockNumber data size offset : Nat) : Option SPIFlashStatus_t × Sys σ :=
  andThen (SPIFlashLock hal fuel s) fun _ s0 =>
    let body : Option SPIFlashStatus_t × Sys σ :=
      if offset ≥ SPIFLASH_BLOCK_SIZE then (some SPIFLASH_ERROR, s0)
      else
        let size :=
          if size > sub32 SPIFLASH_BLOCK_SIZE offset then sub32 SPIFLASH_BLOCK_SIZE offset
          else size
        let pageNumber :=
          add32 (mul32 blockNumber (SPIFLASH_BLOCK_SIZE / SPIFLASH_PAGE_SIZE))
            (offset / SPIFLASH_PAGE_SIZE)
        SPIFlashWriteRegion.loop hal fuel data
          (mul32 (add32 blockNumber 1) (SPIFLASH_BLOCK_SIZE / SPIFLASH_PAGE_SIZE))
          fuel s0 0 pageNumber size (offset % SPIFLASH_PAGE_SIZE)
    andThen body fun retVal s1 => (some retVal, SPIFlashUnLock s1)

def SPIFlashReadAddress (hal : Hal σ) (fuel : Nat) (s : Sys σ) (address data size : Nat) :
    Option SPIFlashStatus_t × Sys σ :=
  andThen (SPIFlashLock hal fuel s) fun _ s0 =>
    let r := SPIFlashReadFn hal s0 address data size
    (some r.1, SPIFlashUnLock r.2)

def SPIFlashReadPage (hal : Hal σ) (fuel : Nat) (s : Sys σ)
    (pageNumber data size offset : Nat) : Option SPIFlashStatus_t × Sys σ :=
  andThen (SPIFlashLock hal fuel s) fun _ s0 =>
    let address := SPIFLASH_PAGE2ADDRESS pageNumber
    let maximum := sub32 SPIFLASH_PAGE_SIZE offset
    let size := if size > maximum then maximum else size
    let r := SPIFlashReadFn hal s0 address data size
    (some r.1, SPIFlashUnLock r.2)

def SPIFlashReadSector (hal : Hal σ) (fuel : Nat) (s : Sys σ)
    (sectorNumber data size offset : Nat) : Option SPIFlashStatus_t × Sys σ :=
  andThen (SPIFlashLock hal fuel s) fun _ s0 =>
    let address := SPIFLASH_SECTOR2ADDRESS sectorNumber
    let maximum := sub32 SPIFLASH_SECTOR_SIZE offset
    let size := if size > maximum then maximum else size
    let r := SPIFlashReadFn hal s0 address data size
    (some r.1, SPIFlashUnLock r.2)

def SPIFlashReadBlock (hal : Hal σ) (fuel : Nat) (s : Sys σ)
    (blockNumber data size offset : Nat) : Option SPIFlashStatus_t × Sys σ :=
  andThen (SPIFlashLock hal fuel s) fun _ s0 =>
    let address := SPIFLASH_BLOCK2ADDRESS blockNumber
    let maximum := sub32 SPIFLASH_BLOCK_SIZE offset
    let size := if size > maximum then maximum else size
    let r := SPIFlashReadFn hal s0 address data size
    (some r.1, SPIFlashUnLock r.2)

/-! ## Identification -/

def SPIFlashReadReg2 (hal : Hal σ) (s : Sys σ) : Nat × Sys σ :=
  let s1 := SPIFlashCSPin hal s 0
  let r := SPIFlashTransmitReceive hal s1 [SPIFLASH_CMD_READSTATUS2, SPIFLASH_DUMMY_BYTE] 100
  let retVal := if r.1 = SPIFLASH_SUCCESS then r.2.1.getD 1 0 % 256 else 0
  (retVal, SPIFlashCSPin hal r.2.2 1)

def SPIFlashReadReg3 (hal : Hal σ) (s : Sys σ) : Nat × Sys σ :=
  let s1 := SPIFlashCSPin hal s 0
  let r := SPIFlashTransmitReceive hal s1 [SPIFLASH_CMD_READSTATUS3, SPIFLASH_DUMMY_BYTE] 100
  let retVal := if r.1 = SPIFLASH_SUCCESS then r.2.1.getD 1 0 % 256 else 0
  (retVal, SPIFlashCSPin hal r.2.2 1)

/-- The `switch (SPIFlash->manufacturer)` of `SPIFlashFindChip`: the sixteen
`case` labels keep the value, `default` stores `SPIFLASH_MANUFACTURER_ERROR`. -/
def SPIFlashFindChip.manufacturer (d : SPIFlash_t) : SPIFlash_t :=
  if d.manufacturer = 0xEF ∨ d.manufacturer = 0x01 ∨ d.manufacturer = 0x20 ∨
      d.manufacturer = 0xC2 ∨ d.manufacturer = 0xD5 ∨ d.manufacturer = 0xC8 ∨
      d.manufacturer = 0x37 ∨ d.manufacturer = 0xBF ∨ d.manufacturer = 0xAD ∨
      d.manufacturer = 0xA1 ∨ d.manufacturer = 0x8C ∨ d.manufacturer = 0x89 ∨
      d.manufacturer = 0x62 ∨ d.manufacturer = 0x04 ∨ d.manufacturer = 0x1C ∨
      d.manufacturer = 0x85 then d
  else { d with manufacturer := 0 }

/-- The `switch (SPIFlash->size)` of `SPIFlashFindChip`. -/
def SPIFlashFindChip.size (d : SPIFlash_t) : SPIFlash_t :=
  if d.size = 0x11 then { d with blockNum := 2 }
  else if d.size = 0x12 then { d with blockNum := 4 }
  else if d.size = 0x13 then { d with blockNum := 8 }
  else if d.size = 0x14 then { d with blockNum := 16 }
  else if d.size = 0x15 then { d with blockNum := 32 }
  else if d.size = 0x16 then { d with blockNum := 64 }
  else if d.size = 0x17 then { d with blockNum := 128 }
  else if d.size = 0x18 then { d with blockNum := 256 }
  else if d.size = 0x19 then { d with blockNum := 512 }
  else if d.size = 0x20 then { d with blockNum := 1024 }
  else { d with size := 0 }

/-- Identification.  `debug` says whether `SPIFLASH_DEBUG` differs from
`SPIFLASH_DEBUG_DISABLE`: only then do the arguments of the last three `dprintf`
calls, the three status register reads, exist in the compiled code. -/
def SPIFlashFindChip (hal : Hal σ) (debug : Bool) (s : Sys σ) : SPIFlashStatus_t × Sys σ :=
  let s1 := SPIFlashCSPin hal s 0
  let r := SPIFlashTransmitReceive hal s1 [SPIFLASH_CMD_JEDECID, 0xFF, 0xFF, 0xFF] 100
  if r.1 = SPIFLASH_ERROR then (SPIFLASH_ERROR, SPIFlashCSPin hal r.2.2 1)
  else
    let s2 := SPIFlashCSPin hal r.2.2 1
    let d0 := { s2.dev with
      manufacturer := r.2.1.getD 1 0 % 256
      memType := r.2.1.getD 2 0 % 256
      size := r.2.1.getD 3 0 % 256 }
    let d1 := SPIFlashFindChip.size (SPIFlashFindChip.manufacturer d0)
    let d2 := { d1 with sectorNum := SPIFLASH_BLOCK2SECTOR d1.blockNum }
    let d3 := { d2 with pageNum := SPIFLASH_SECTOR2PAGE d2.sectorNum }
    let s3 : Sys σ := { s2 with dev := d3 }
    if debug then
      (SPIFLASH_SUCCESS, (SPIFlashReadReg3 hal (SPIFlashReadReg2 hal (SPIFlashReadReg1 hal s3).2).2).2)
    else (SPIFLASH_SUCCESS, s3)

/-- The handle of a device whose capacity code was recognised by the probe:
the geometry fields are the ones `SPIFlashFindChip` stores for that code. -/
def Probed (d : SPIFlash_t) : Prop :=
  d.size ≠ 0 ∧ SPIFlashFindChip.size d = d ∧
    d.sectorNum = SPIFLASH_BLOCK2SECTOR d.blockNum ∧
    d.pageNum = SPIFLASH_SECTOR2PAGE d.sectorNum

instance (d : SPIFlash_t) : Decidable (Probed d) := by
  unfold Probed; infer_instance

/-! ## Reading the trace -/

/-- A chip-select window: CS low, the transfers, CS high. -/
def window (xs : List Event) : List Event := Event.cs 0 :: (xs ++ [Event.cs 1])

/-- The WREN frame. -/
def wrenFrame : List Event := window [Event.xfer [SPIFLASH_CMD_WRITEENABLE] 100]

/-- The WRDI frame. -/
def wrdiFrame : List Event := window [Event.xfer [SPIFLASH_CMD_WRITEDISABLE] 100]

/-- One STATUS1 read. -/
def pollFrame : List Event :=
  window [Event.xfer [SPIFLASH_CMD_READSTATUS1, SPIFLASH_DUMMY_BYTE] 100]

/-- Consecutive STATUS1 reads, `k` of them. -/
def polls : Nat → List Event
  | 0 => []
  | k + 1 => pollFrame ++ polls k

/-- Bus trace of one write or erase cycle: WREN, the operation frame, `k`
STATUS1 reads, WRDI. -/
def cycle (op : List Event) (k : Nat) : List Event :=
  wrenFrame ++ op ++ polls k ++ wrdiFrame

/-- The events a call appended to the trace. -/
def emitted {α : Type} (s : Sys σ) (r : α × Sys σ) : List Event :=
  r.2.trace.drop s.trace.length

/-- The trace is empty or ends with chip-select high. -/
def EndsHigh (t : List Event) : Prop := t = [] ∨ ∃ u, t = u ++ [Event.cs 1]

/-- A command frame with a data phase: the command bytes and the data bytes. -/
structure DataFrame where
  cmd : List Nat
  payload : List Nat
deriving DecidableEq, Repr

/-- The frame that starts at the head of the trace, if one does: chip-select
low, a command whose opcode satisfies `isOp`, then a data transfer. -/
def frameAt (isOp : Nat → Bool) : List Event → List DataFrame
  | Event.cs 0 :: Event.xfer cmd _ :: Event.xfer payload _ :: _ =>
    if isOp (cmd.headD 0) then [DataFrame.mk cmd payload] else []
  | _ => []

/-- All frames in the trace that open a chip-select window with a command whose
opcode satisfies `isOp` and continue with a data transfer. -/
def dataFrames (isOp : Nat → Bool) : List Event → List DataFrame
  | [] => []
  | e :: rest => frameAt isOp (e :: rest) ++ dataFrames isOp rest

/-- Page-program frames (opcodes 0x02 and 0x12). -/
def programFrames (t : List Event) : List DataFrame :=
  dataFrames (fun op => op == SPIFLASH_CMD_PAGEPROG3ADD || op == SPIFLASH_CMD_PAGEPROG4ADD) t

/-- Read-data frames (opcodes 0x03 and 0x13). -/
def readFrames (t : List Event) : List DataFrame :=
  dataFrames (fun op => op == SPIFLASH_CMD_READDATA3ADD || op == SPIFLASH_CMD_READDATA4ADD) t

/-- The byte address a command frame carries: the bytes after the opcode,
most significant first. -/
def frameAddress (cmd : List Nat) : Nat :=
  cmd.tail.foldl (fun acc b => acc * 256 + b) 0

/-- A frame that stays inside one 256-byte page. -/
def WithinPage (f : DataFrame) : Prop := frameAddress f.cmd % 256 + f.payload.length ≤ 256

/-! ## Commands and frames of the operations -/

/-- The program command of `SPIFlashWriteFn`. -/
def programCmd (blockNum address : Nat) : List Nat :=
  if blockNum ≥ 512 then SPIFLASH_CMD_PAGEPROG4ADD :: addrBytes4 address
  else SPIFLASH_CMD_PAGEPROG3ADD :: addrBytes3 address

/-- The program frame of an accepted `SPIFlashWriteFn`. -/
def programWindow (blockNum address : Nat) (payload : List Nat) : List Event :=
  window [Event.xfer (programCmd blockNum address) 100, Event.xfer payload 1000]

/-- The program frames `SPIFlashWriteFn` puts on the bus. -/
def WriteFn.frames (s : Sys σ) (pageNumber data size offset : Nat) : List DataFrame :=
  if pageNumber < s.dev.pageNum ∧ offset < 256 then
    [DataFrame.mk (programCmd s.dev.blockNum (add32 (SPIFLASH_PAGE2ADDRESS pageNumber) offset))
      (ramRead s.ram data (min size (256 - offset)))]
  else []

/-- The sector erase command of `SPIFlashEraseSector`. -/
def sectorEraseCmd (blockNum sector : Nat) : List Nat :=
  if blockNum ≥ 512 then
    SPIFLASH_CMD_SECTORERASE4ADD :: addrBytes4 (mul32 sector SPIFLASH_SECTOR_SIZE)
  else SPIFLASH_CMD_SECTORERASE3ADD :: addrBytes3 (mul32 sector SPIFLASH_SECTOR_SIZE)

/-- The block erase command of `SPIFlashEraseBlock`. -/
def blockEraseCmd (blockNum block : Nat) : List Nat :=
  if blockNum ≥ 512 then
    SPIFLASH_CMD_BLOCKERASE4ADD :: addrBytes4 (mul32 block SPIFLASH_BLOCK_SIZE)
  else SPIFLASH_CMD_BLOCKERASE3ADD :: addrBytes3 (mul32 block SPIFLASH_BLOCK_SIZE)

/-- The read command of `SPIFlashReadFn`. -/
def readCmd (blockNum address : Nat) : List Nat :=
  if blockNum ≥ 512 then SPIFLASH_CMD_READDATA4ADD :: addrBytes4 address
  else SPIFLASH_CMD_READDATA3ADD :: addrBytes3 address

/-- The chip-select window of `SPIFlashReadFn`. -/
def readWindow (blockNum address : Nat) (dummy : List Nat) : List Event :=
  window [Event.xfer (readCmd blockNum address) 100, Event.xfer dummy 2000]

/-! ## Intermediate states -/

/-- State with the lock flag taken. -/
def locked (s : Sys σ) : Sys σ := { s with dev := { s.dev with lock := 1 } }

/-- State after the WREN frame and a command frame without data phase. -/
def afterCommand (hal : Hal σ) (s : Sys σ) (cmd : List Nat) : Sys σ :=
  SPIFlashCSPin hal
    (SPIFlashTransmitReceive hal (SPIFlashCSPin hal (SPIFlashWriteEnable hal s).2 0) cmd 100).2.2 1

/-- State after the WREN frame and the program frame of an accepted `SPIFlashWriteFn`. -/
def afterProgram (hal : Hal σ) (s : Sys σ) (pageNumber data size offset : Nat) : Sys σ :=
  let address := add32 (SPIFLASH_PAGE2ADDRESS pageNumber) offset
  let s1 := SPIFlashCSPin hal (SPIFlashWriteEnable hal s).2 0
  let c := SPIFlashTransmitReceive hal s1 (programCmd s.dev.blockNum address) 100
  let d := SPIFlashTransmitReceive hal c.2.2 (ramRead s.ram data size) 1000
  SPIFlashCSPin hal { d.2.2 with ram := ramWrite s.ram data size d.2.1 } 1

/-! ## Assumptions on the environment -/

/-- Environment after one round of the busy-wait: STATUS1 read in its own
chip-select window, then `HAL_Delay (1)`. -/
def pollEnv (hal : Hal σ) (d : SPIFlash_t) (e : σ) : σ :=
  hal.HAL_Delay
    (hal.HAL_GPIO_WritePin
      (hal.HAL_SPI_TransmitReceive (hal.HAL_GPIO_WritePin e d.GPIO d.pin 0) d.hSPI
        [SPIFLASH_CMD_READSTATUS1, SPIFLASH_DUMMY_BYTE] 100).env
      d.GPIO d.pin 1) 1

/-- The millisecond counter runs: one round of the busy-wait takes at least
1 ms and at most `2 ^ 31` ms, measured on the 32-bit counter. -/
def ClockRuns (hal : Hal σ) (d : SPIFlash_t) : Prop :=
  ∀ e : σ, 1 ≤ sub32 (hal.HAL_GetTick (pollEnv hal d e)) (hal.HAL_GetTick e) ∧
    sub32 (hal.HAL_GetTick (pollEnv hal d e)) (hal.HAL_GetTick e) ≤ 2147483648

/-- Every STATUS1 read returns `HAL_OK` and a byte with bit 0 (BUSY) set. -/
def AlwaysBusy (hal : Hal σ) : Prop :=
  ∀ (e : σ) (h : Nat),
    (hal.HAL_SPI_TransmitReceive e h [SPIFLASH_CMD_READSTATUS1, SPIFLASH_DUMMY_BYTE] 100).ok = true ∧
    (hal.HAL_SPI_TransmitReceive e h [SPIFLASH_CMD_READSTATUS1, SPIFLASH_DUMMY_BYTE] 100).rx.getD 1 0
      % 2 = 1

/-! ## Test environments -/

/-- A flash that stays busy: every received byte is `0xFF`, every transfer
returns `HAL_OK`.  The environment is the millisecond tick; it advances in
`HAL_Delay` only. -/
def busyHal : Hal Nat where
  HAL_SPI_TransmitReceive := fun t _ tx _ => ⟨true, List.replicate tx.length 0xFF, t⟩
  HAL_GPIO_WritePin := fun t _ _ _ => t
  HAL_GetTick := fun t => t
  HAL_Delay := fun t n => (t + n) % 4294967296

/-- A flash that is never busy: every received byte is `0x00`, every transfer
returns `HAL_OK`. -/
def idleHal : Hal Nat where
  HAL_SPI_TransmitReceive := fun t _ tx _ => ⟨true, List.replicate tx.length 0, t⟩
  HAL_GPIO_WritePin := fun t _ _ _ => t
  HAL_GetTick := fun t => t
  HAL_Delay := fun t n => (t + n) % 4294967296

/-- Handle of a probed 16 Mbit Winbond part (JEDEC EF 40 15). -/
def dev16 : SPIFlash_t :=
  { hSPI := 1, GPIO := 1, manufacturer := 0xEF, size := 0x15, memType := 0x40, lock := 0,
    pin := 16, pageNum := 8192, sectorNum := 512, blockNum := 32 }

/-- Initial state around `dev16`: tick 0, the bytes `buf` at RAM address 0
(zero elsewhere), empty trace. -/
def sys16 (buf : List Nat) : Sys Nat :=
  { dev := dev16, env := 0, ram := fun a => buf.getD a 0, trace := [] }

/-! ## A byte-accurate flash behind the HAL -/

/-- State of the modelled NOR flash: the array, the write-enable latch, whether
chip-select is low, the bytes clocked in since it went low, the tick. -/
structure Nor where
  mem : Nat → Nat
  wel : Bool
  selected : Bool
  frame : List Nat
  tick : Nat

/-- Big-endian value of a list of bytes. -/
def beValue (bytes : List Nat) : Nat := bytes.foldl (fun acc b => acc * 256 + b) 0

/-- Page program: byte `i` of the payload goes to the address whose low eight
bits are `(addr + i) mod 256` inside the page of `addr`; programming can only
clear bits. -/
def Nor.program (mem : Nat → Nat) (addr : Nat) (payload : List Nat) : Nat → Nat :=
  payload.enum.foldl
    (fun m ib => fun a =>
      if a = addr / 256 * 256 + (addr + ib.1) % 256 then m a &&& ib.2 else m a) mem

/-- What the flash does with the frame when chip-select goes high. -/
def Nor.execute (n : Nor) : Nor :=
  match n.frame with
  | [0x06] => { n with wel := true }
  | [0x04] => { n with wel := false }
  | 0x02 :: a2 :: a1 :: a0 :: payload =>
    if n.wel then
      { n with mem := Nor.program n.mem (beValue [a2, a1, a0]) payload, wel := false }
    else n
  | 0x12 :: a3 :: a2 :: a1 :: a0 :: payload =>
    if n.wel then
      { n with mem := Nor.program n.mem (beValue [a3, a2, a1, a0]) payload, wel := false }
    else n
  | _ => n

/-- The byte the flash drives while byte number `pos` of the frame `all` is clocked. -/
def Nor.out (n : Nor) (all : List Nat) (pos : Nat) : Nat :=
  match all with
  | 0x03 :: a2 :: a1 :: a0 :: _ => if 4 ≤ pos then n.mem (beValue [a2, a1, a0] + (pos - 4)) else 0xFF
  | 0x13 :: a3 :: a2 :: a1 :: a0 :: _ =>
    if 5 ≤ pos then n.mem (beValue [a3, a2, a1, a0] + (pos - 5)) else 0xFF
  | 0x05 :: _ => if 1 ≤ pos then (if n.wel then 2 else 0) else 0xFF
  | _ => 0xFF

/-- HAL in front of the modelled flash: transfers always return `HAL_OK`, a
program finishes at once (BUSY reads 0), only `HAL_Delay` lets time pass. -/
def norHal : Hal Nor where
  HAL_SPI_TransmitReceive := fun n _ tx _ =>
    if n.selected then
      ⟨true, (List.range tx.length).map (fun i => Nor.out n (n.frame ++ tx) (n.frame.length + i)),
        { n with frame := n.frame ++ tx }⟩
    else ⟨true, List.replicate tx.length 0xFF, n⟩
  HAL_GPIO_WritePin := fun n _ _ level =>
    if level = 0 then { n with selected := true, frame := [] }
    else if n.selected then { Nor.execute n with selected := false, frame := [] }
    else n
  HAL_GetTick := fun n => n.tick
  HAL_Delay := fun n ms => { n with tick := (n.tick + ms) % 4294967296 }

/-- The 16 Mbit handle in front of an erased flash (all bytes `0xFF`), with the
bytes `buf` at RAM address 0. -/
def norSys (buf : List Nat) : Sys Nor :=
  { dev := dev16
    env := { mem := fun _ => 0xFF, wel := false, selected := false, frame := [], tick := 0 }
    ram := fun a => buf.getD a 0
    trace := [] }

/-! ## Initialisation -/

/-- The `while (SPIFlashGetTick () < 20)` loop of `SPIFlashInit`. -/
def SPIFlashInit.vccWait (hal : Hal σ) : Nat → Sys σ → Option Unit × Sys σ
  | 0, s => (none, s)
  | fuel + 1, s =>
    if SPIFlashGetTick hal s < 20 then SPIFlashInit.vccWait hal fuel (SPIFlashDelay hal s 1)
    else (some (), s)

/-- Initialisation.  `SPIFlash`, `hSPI` and `GPIO` are the pointer arguments
(`0` is `NULL`); the handle `SPIFlash` points to is `s.dev`.  `pin` is a
`uint16_t`.  `memset` clears every field of the handle. -/
def SPIFlashInit (hal : Hal σ) (debug : Bool) (fuel : Nat) (s : Sys σ)
    (SPIFlash hSPI GPIO pin : Nat) : Option SPIFlashStatus_t × Sys σ :=
  if SPIFlash = 0 ∨ hSPI = 0 ∨ GPIO = 0 ∨ s.dev.size ≠ 0 then (some SPIFLASH_ERROR, s)
  else
    let d : SPIFlash_t :=
      { hSPI := hSPI, GPIO := GPIO, manufacturer := 0, size := 0, memType := 0, lock := 0,
        pin := pin % 65536, pageNum := 0, sectorNum := 0, blockNum := 0 }
    let s1 := SPIFlashCSPin hal { s with dev := d } 1
    andThen (SPIFlashInit.vccWait hal fuel s1) fun _ s2 =>
      let wd := SPIFlashWriteDisable hal s2
      if wd.1 = SPIFLASH_ERROR then (some SPIFLASH_ERROR, wd.2)
      else
        let fc := SPIFlashFindChip hal debug wd.2
        if fc.1 = SPIFLASH_ERROR then (some SPIFLASH_ERROR, fc.2)
        else (some SPIFLASH_SUCCESS, fc.2)

/-! ## More ways to read the trace -/

/-- Number of bytes the trace puts on the SPI bus. -/
def busBytes : List Event → Nat
  | [] => 0
  | Event.xfer tx _ :: rest => tx.length + busBytes rest
  | Event.cs _ :: rest => busBytes rest

/-- The bytes `SPIFlashFindChip` receives in answer to the JEDEC ID command
when it is called in state `s`. -/
def jedecRx (hal : Hal σ) (s : Sys σ) : List Nat :=
  (SPIFlashTransmitReceive hal (SPIFlashCSPin hal s 0)
    [SPIFLASH_CMD_JEDECID, 0xFF, 0xFF, 0xFF] 100).2.1

/-! ## More test environments -/

/-- A flash that answers the JEDEC ID command with the bytes `id` (after one
byte that is clocked in during the opcode) and every other transfer with
zeros; every transfer returns `HAL_OK`; the tick advances in `HAL_Delay` only. -/
def jedecHal (id : List Nat) : Hal Nat where
  HAL_SPI_TransmitReceive := fun t _ tx _ =>
    ⟨true, if tx.head? = some SPIFLASH_CMD_JEDECID then 0xFF :: id
      else List.replicate tx.length 0, t⟩
  HAL_GPIO_WritePin := fun t _ _ _ => t
  HAL_GetTick := fun t => t
  HAL_Delay := fun t n => (t + n) % 4294967296

/-- A bus on which every transfer fails: `HAL_SPI_TransmitReceive` never
returns `HAL_OK` and stores nothing in the receive buffer. -/
def deadHal : Hal Nat where
  HAL_SPI_TransmitReceive := fun t _ _ _ => ⟨false, [], t⟩
  HAL_GPIO_WritePin := fun t _ _ _ => t
  HAL_GetTick := fun t => t
  HAL_Delay := fun t n => (t + n) % 4294967296

/-- A handle that was never initialised: every field zero. -/
def devFresh : SPIFlash_t :=
  { hSPI := 0, GPIO := 0, manufacturer := 0, size := 0, memType := 0, lock := 0,
    pin := 0, pageNum := 0, sectorNum := 0, blockNum := 0 }

/-- Initial state around `devFresh`: tick 0, RAM zero, empty trace. -/
def sysFresh : Sys Nat :=
  { dev := devFresh, env := 0, ram := fun _ => 0, trace := [] }

/-- Handle of a probed 256 Mbit Winbond part (JEDEC EF 40 19). -/
def dev256 : SPIFlash_t :=
  { hSPI := 1, GPIO := 1, manufacturer := 0xEF, size := 0x19, memType := 0x40, lock := 0,
    pin := 16, pageNum := 131072, sectorNum := 8192, blockNum := 512 }

/-- Initial state around `dev256`: tick 0, the bytes `buf` at RAM address 0. -/
def sys256 (buf : List Nat) : Sys Nat :=
  { dev := dev256, env := 0, ram := fun a => buf.getD a 0, trace := [] }

/-! ## The lock flag seen by the bus calls -/

/-- The lock-log entries a call appended: the value of the lock flag at each
bus call it made. -/
def lockSeen {α : Type} (s : Sys σ) (r : α × Sys σ) : List Nat :=
  r.2.lockLog.drop s.lockLog.length

/-- From `s` to `t` the handle is untouched and every bus call made in between
saw the lock flag as it is in `s`. -/
def Held (s t : Sys σ) : Prop :=
  t.dev = s.dev ∧ ∃ ext : List Nat, t.lockLog = s.lockLog ++ ext ∧
    (∀ x ∈ ext, x = s.dev.lock) ∧ t.trace.length = s.trace.length + ext.length

/-- A finished or unfinished public operation entered in `s`: every bus call it
made saw the lock flag set, there is one log entry per traced call, and if the
operation has returned the lock flag is clear. -/
def LockOK {α : Type} (s : Sys σ) (r : Option α × Sys σ) : Prop :=
  (∀ x ∈ lockSeen s r, x = 1) ∧ (lockSeen s r).length = (emitted s r).length ∧
    ∀ a, r.1 = some a → r.2.dev.lock = 0

/-- The call finished within its fuel: it has a status. -/
def Returns {α : Type} (r : Option α × Sys σ) : Prop := ∃ a, r.1 = some a

/-- The eleven public operations other than `SPIFlashInit`, each called on the
same handle state: the three erases, the four writes and the four reads.
`num` is the sector, block or page number of the call. -/
def publicOps (hal : Hal σ) (fuel : Nat) (s : Sys σ) (num address data size offset : Nat) :
    List (Option SPIFlashStatus_t × Sys σ) :=
  [SPIFlashEraseChip hal fuel s,
   SPIFlashEraseSector hal fuel s num,
   SPIFlashEraseBlock hal fuel s num,
   SPIFlashWriteAddress hal fuel s address data size,
   SPIFlashWritePage hal fuel s num data size offset,
   SPIFlashWriteSector hal fuel s num data size offset,
   SPIFlashWriteBlock hal fuel s num data size offset,
   SPIFlashReadAddress hal fuel s address data size,
   SPIFlashReadPage hal fuel s num data size offset,
   SPIFlashReadSector hal fuel s num data size offset,
   SPIFlashReadBlock hal fuel s num data size offset]

/-- Handle of a probed 512 Mbit Winbond part (JEDEC EF 40 20). -/
def dev512 : SPIFlash_t :=
  { hSPI := 1, GPIO := 1, manufacturer := 0xEF, size := 0x20, memType := 0x40, lock := 0,
    pin := 16, pageNum := 262144, sectorNum := 16384, blockNum := 1024 }

/-- Initial state around `dev512`: tick 0, the bytes `buf` at RAM address 0. -/
def sys512 (buf : List Nat) : Sys Nat :=
  { dev := dev512, env := 0, ram := fun a => buf.getD a 0, trace := [] }

/-! ## Iterations of the busy-wait -/

/-- State at the head of iteration `k` of the loop of `SPIFlashWaitForWriting`
entered in `s`, when none of the earlier iterations returned: each of them
read STATUS1 and called `SPIFlashDelay (1)`. -/
def waitIter (hal : Hal σ) : Nat → Sys σ → Sys σ
  | 0, s => s
  | k + 1, s => waitIter hal k (SPIFlashDelay hal (SPIFlashReadReg1 hal s).2 1)

/-- The value `SPIFlashGetTick () - startTime` that the timeout check of
iteration `k` computes in `uint32_t`, for a wait entered in `s`. -/
def waitElapsed (hal : Hal σ) (s : Sys σ) (k : Nat) : Nat :=
  sub32 (SPIFlashGetTick hal (waitIter hal k s)) (SPIFlashGetTick hal s)

/-- The STATUS1 value read in iteration `k` has bit 0 (BUSY) set. -/
def waitBusy (hal : Hal σ) (s : Sys σ) (k : Nat) : Prop :=
  (SPIFlashReadReg1 hal (waitIter hal k s)).1 &&& SPIFlashSTATUS1_BUSY ≠ 0

instance (hal : Hal σ) (s : Sys σ) (k : Nat) : Decidable (waitBusy hal s k) := by
  unfold waitBusy; infer_instance

/-- A flash that is busy until the 32-bit tick has wrapped around: STATUS1 reads
`01` while the tick is at least `2 ^ 32 - 5` and `00` otherwise; every transfer
returns `HAL_OK`; the tick advances in `HAL_Delay` only. -/
def wrapHal : Hal Nat where
  HAL_SPI_TransmitReceive := fun t _ tx _ =>
    ⟨true, List.replicate tx.length (if 4294967291 ≤ t then 1 else 0), t⟩
  HAL_GPIO_WritePin := fun t _ _ _ => t
  HAL_GetTick := fun t => t
  HAL_Delay := fun t n => (t + n) % 4294967296

/-- The 16 Mbit handle with the tick five milliseconds before the wrap. -/
def sysWrap : Sys Nat :=
  { dev := dev16, env := 4294967291, ram := fun _ => 0, trace := [] }

/-! ## Chip-select discipline -/

/-- Where the bus is between two traced calls: chip-select high (`idle`),
chip-select low with nothing sent yet (`selected`), after the command transfer
of the window (`command`), after its data-phase transfer (`data`). -/
inductive CsState
  | idle
  | selected
  | command
  | data
deriving DecidableEq, Repr

/-- One traced call seen from a bus state.  Allowed are: chip-select low from
`idle`; a non-empty command transfer (timeout 100 ms) right after chip-select
went low; one data-phase transfer (timeout 1000 or 2000 ms) right after the
command; chip-select high after the command or after the data phase. -/
def csStep (q : CsState) (e : Event) : Option CsState :=
  match q, e with
  | CsState.idle, Event.cs l => if l = 0 then some CsState.selected else none
  | CsState.selected, Event.xfer tx t =>
    if tx ≠ [] ∧ t = 100 then some CsState.command else none
  | CsState.command, Event.xfer _ t =>
    if t = 1000 ∨ t = 2000 then some CsState.data else none
  | CsState.command, Event.cs l => if l = 1 then some CsState.idle else none
  | CsState.data, Event.cs l => if l = 1 then some CsState.idle else none
  | _, _ => none

/-- Run the trace from bus state `q`; `none` if a call is not allowed. -/
def csRun : CsState → List Event → Option CsState
  | q, [] => some q
  | q, e :: rest =>
    match csStep q e with
    | none => none
    | some q1 => csRun q1 rest

/-- The trace is a sequence of closed chip-select windows, each holding one
command transfer, followed or not by one data-phase transfer: assert and
deassert alternate starting with assert, every transfer lies inside a window,
a data phase lies in the window of its command, and chip-select is high at
the end. -/
def Disciplined (t : List Event) : Prop := csRun CsState.idle t = some CsState.idle

instance (t : List Event) : Decidable (Disciplined t) := by
  unfold Disciplined; infer_instance

/-- From `s` to `t` the handle is untouched and the calls traced in between
form closed chip-select windows. -/
def Closed (s t : Sys σ) : Prop :=
  t.dev = s.dev ∧ ∃ ext : List Event, t.trace = s.trace ++ ext ∧ Disciplined ext

/-! ## What a public operation leaves behind -/

/-- The status, if there is one, is `SPIFLASH_SUCCESS` or `SPIFLASH_ERROR`. -/
def NoTimeout (o : Option SPIFlashStatus_t) : Prop :=
  ∀ st, o = some st → st = SPIFLASH_SUCCESS ∨ st = SPIFLASH_ERROR

/-- Handle `e` differs from handle `d` in the lock flag at most. -/
def SameButLock (d e : SPIFlash_t) : Prop :=
  e.hSPI = d.hSPI ∧ e.GPIO = d.GPIO ∧ e.pin = d.pin ∧ e.manufacturer = d.manufacturer ∧
    e.memType = d.memType ∧ e.size = d.size ∧ e.blockNum = d.blockNum ∧
    e.sectorNum = d.sectorNum ∧ e.pageNum = d.pageNum

/-- Frame, bus discipline and status of a public operation entered in `s`,
finished or not: only the lock flag of the handle may differ, the traced calls
form closed chip-select windows, and the status is not `SPIFLASH_TIMEOUT`. -/
def OpInv (s : Sys σ) (r : Option SPIFlashStatus_t × Sys σ) : Prop :=
  SameButLock s.dev r.2.dev ∧ Disciplined (emitted s r) ∧ NoTimeout r.1

/-! ## Geometry and reachable states -/

/-- The geometry relation of a handle: 16 sectors per block, 16 pages per
sector, 256 pages per block. -/
def Geometry (d : SPIFlash_t) : Prop :=
  d.sectorNum = d.blockNum * 16 ∧ d.pageNum = d.blockNum * 256 ∧ d.pageNum = d.sectorNum * 16

instance (d : SPIFlash_t) : Decidable (Geometry d) := by
  unfold Geometry; infer_instance

/-- While the tick is below 20, `HAL_Delay (1)` moves it forward. -/
def TickAdvances (hal : Hal σ) : Prop :=
  ∀ e : σ, hal.HAL_GetTick e % 4294967296 < 20 →
    hal.HAL_GetTick e % 4294967296 < hal.HAL_GetTick (hal.HAL_Delay e 1) % 4294967296

/-- States reachable from `s` through calls of the public functions, finished
or not: the eleven operations of `publicOps` and `SPIFlashInit`, with any
arguments. -/
inductive Reach (hal : Hal σ) : Sys σ → Sys σ → Prop
  | refl (s : Sys σ) : Reach hal s s
  | op {s t : Sys σ} (fuel num address data size offset : Nat)
      (r : Option SPIFlashStatus_t × Sys σ) :
      Reach hal s t → r ∈ publicOps hal fuel t num address data size offset → Reach hal s r.2
  | init {s t : Sys σ} (debug : Bool) (fuel SPIFlash hSPI GPIO pin : Nat) :
      Reach hal s t → Reach hal s (SPIFlashInit hal debug fuel t SPIFlash hSPI GPIO pin).2

/-- The bus trace of `SPIFlashFindChip`: the JEDEC ID window and, with debug
output, the three status register reads. -/
def probeFrames (debug : Bool) : List Event :=
  window [Event.xfer [SPIFLASH_CMD_JEDECID, 0xFF, 0xFF, 0xFF] 100] ++
    (if debug then
      pollFrame ++ window [Event.xfer [SPIFLASH_CMD_READSTATUS2, SPIFLASH_DUMMY_BYTE] 100] ++
        window [Event.xfer [SPIFLASH_CMD_READSTATUS3, SPIFLASH_DUMMY_BYTE] 100]
    else [])

/-! # Theorems -/

/-! ## Basic facts about the primitives -/

theorem TransmitReceive_ne_ERROR (hal : Hal σ) (s : Sys σ) (tx : List Nat) (t : Nat) :
    (SPIFlashTransmitReceive hal s tx t).1 ≠ SPIFLASH_ERROR := by
  unfold SPIFlashTransmitReceive
  dsimp only
  split <;> simp

@[simp] theorem TransmitReceive_eq_ERROR (hal : Hal σ) (s : Sys σ) (tx : List Nat) (t : Nat) :
    ((SPIFlashTransmitReceive hal s tx t).1 = SPIFLASH_ERROR) = False :=
  eq_false (TransmitReceive_ne_ERROR hal s tx t)

@[simp] theorem TransmitReceive_trace (hal : Hal σ) (s : Sys σ) (tx : List Nat) (t : Nat) :
    (SPIFlashTransmitReceive hal s tx t).2.2.trace =
      s.trace ++ [Event.xfer (tx.take (halSize tx.length)) t] := rfl

theorem take_halSize (tx : List Nat) (h : tx.length < 65536) :
    tx.take (halSize tx.length) = tx := by
  rw [halSize, Nat.mod_eq_of_lt h, List.take_length]

@[simp] theorem halSize_of_lt {n : Nat} (h : n < 65536) : halSize n = n :=
  Nat.mod_eq_of_lt h

theorem halSize_le (n : Nat) : halSize n ≤ n := Nat.mod_le n 65536

theorem halSize_lt (n : Nat) : halSize n < 65536 := Nat.mod_lt n (by decide)

@[simp] theorem halSize_min (size offset : Nat) :
    halSize (min size (256 - offset)) = min size (256 - offset) :=
  Nat.mod_eq_of_lt (by omega)

theorem getD_take (l : List Nat) (i n d : Nat) (h : i < n) :
    (l.take n).getD i d = l.getD i d := by
  simp [List.getD_eq_getElem?_getD, List.getElem?_take, h]

@[simp] theorem take_halSize_one (a : Nat) : [a].take (halSize [a].length) = [a] := rfl

@[simp] theorem take_halSize_two (a b : Nat) :
    [a, b].take (halSize [a, b].length) = [a, b] := rfl

@[simp] theorem take_halSize_four (a b c d : Nat) :
    [a, b, c, d].take (halSize [a, b, c, d].length) = [a, b, c, d] := rfl

@[simp] theorem take_halSize_five (a b c d e : Nat) :
    [a, b, c, d, e].take (halSize [a, b, c, d, e].length) = [a, b, c, d, e] := rfl

@[simp] theorem TransmitReceive_dev (hal : Hal σ) (s : Sys σ) (tx : List Nat) (t : Nat) :
    (SPIFlashTransmitReceive hal s tx t).2.2.dev = s.dev := rfl

@[simp] theorem TransmitReceive_ram (hal : Hal σ) (s : Sys σ) (tx : List Nat) (t : Nat) :
    (SPIFlashTransmitReceive hal s tx t).2.2.ram = s.ram := rfl

@[simp] theorem CSPin_trace (hal : Hal σ) (s : Sys σ) (l : Nat) :
    (SPIFlashCSPin hal s l).trace = s.trace ++ [Event.cs l] := rfl

@[simp] theorem CSPin_dev (hal : Hal σ) (s : Sys σ) (l : Nat) :
    (SPIFlashCSPin hal s l).dev = s.dev := rfl

@[simp] theorem CSPin_ram (hal : Hal σ) (s : Sys σ) (l : Nat) :
    (SPIFlashCSPin hal s l).ram = s.ram := rfl

@[simp] theorem Delay_trace (hal : Hal σ) (s : Sys σ) (x : Nat) :
    (SPIFlashDelay hal s x).trace = s.trace := rfl

@[simp] theorem Delay_dev (hal : Hal σ) (s : Sys σ) (x : Nat) :
    (SPIFlashDelay hal s x).dev = s.dev := rfl

@[simp] theorem Delay_ram (hal : Hal σ) (s : Sys σ) (x : Nat) :
    (SPIFlashDelay hal s x).ram = s.ram := rfl

@[simp] theorem WriteEnable_status (hal : Hal σ) (s : Sys σ) :
    (SPIFlashWriteEnable hal s).1 = SPIFLASH_SUCCESS := by
  simp [SPIFlashWriteEnable]

@[simp] theorem WriteEnable_trace (hal : Hal σ) (s : Sys σ) :
    (SPIFlashWriteEnable hal s).2.trace = s.trace ++ wrenFrame := by
  simp [SPIFlashWriteEnable, wrenFrame, window]

@[simp] theorem WriteEnable_dev (hal : Hal σ) (s : Sys σ) :
    (SPIFlashWriteEnable hal s).2.dev = s.dev := rfl

@[simp] theorem WriteEnable_ram (hal : Hal σ) (s : Sys σ) :
    (SPIFlashWriteEnable hal s).2.ram = s.ram := rfl

@[simp] theorem WriteDisable_trace (hal : Hal σ) (s : Sys σ) :
    (SPIFlashWriteDisable hal s).2.trace = s.trace ++ wrdiFrame := by
  simp [SPIFlashWriteDisable, wrdiFrame, window]

@[simp] theorem WriteDisable_dev (hal : Hal σ) (s : Sys σ) :
    (SPIFlashWriteDisable hal s).2.dev = s.dev := rfl

@[simp] theorem WriteDisable_ram (hal : Hal σ) (s : Sys σ) :
    (SPIFlashWriteDisable hal s).2.ram = s.ram := rfl

@[simp] theorem ReadReg1_trace (hal : Hal σ) (s : Sys σ) :
    (SPIFlashReadReg1 hal s).2.trace = s.trace ++ pollFrame := by
  simp [SPIFlashReadReg1, pollFrame, window]

@[simp] theorem ReadReg1_dev (hal : Hal σ) (s : Sys σ) :
    (SPIFlashReadReg1 hal s).2.dev = s.dev := rfl

@[simp] theorem ReadReg1_ram (hal : Hal σ) (s : Sys σ) :
    (SPIFlashReadReg1 hal s).2.ram = s.ram := rfl

@[simp] theorem UnLock_trace (s : Sys σ) : (SPIFlashUnLock s).trace = s.trace := rfl

@[simp] theorem UnLock_ram (s : Sys σ) : (SPIFlashUnLock s).ram = s.ram := rfl

@[simp] theorem andThen_none {α β : Type} (s : Sys σ) (k : α → Sys σ → Option β × Sys σ) :
    andThen (none, s) k = (none, s) := rfl

@[simp] theorem andThen_some {α β : Type} (a : α) (s : Sys σ) (k : α → Sys σ → Option β × Sys σ) :
    andThen (some a, s) k = k a s := rfl

theorem polls_append (j k : Nat) : polls (j + k) = polls j ++ polls k := by
  induction j with
  | zero => simp [polls]
  | succ j ih => rw [Nat.succ_add]; simp [polls, ih]

/-- The busy-wait only appends STATUS1 reads and leaves handle and RAM alone. -/
theorem WaitForWriting_loop_frame (hal : Hal σ) (t0 T : Nat) (fuel : Nat) (s : Sys σ) :
    ∃ k, k ≤ fuel ∧
      (SPIFlashWaitForWriting.loop hal t0 T fuel s).2.trace = s.trace ++ polls k ∧
      (SPIFlashWaitForWriting.loop hal t0 T fuel s).2.dev = s.dev ∧
      (SPIFlashWaitForWriting.loop hal t0 T fuel s).2.ram = s.ram := by
  induction fuel generalizing s with
  | zero => exact ⟨0, le_refl _, by simp [SPIFlashWaitForWriting.loop, polls], rfl, rfl⟩
  | succ n ih =>
    unfold SPIFlashWaitForWriting.loop
    split
    · exact ⟨0, Nat.zero_le _, by simp [polls], rfl, rfl⟩
    · dsimp only
      split
      · exact ⟨1, by omega, by simp [polls], rfl, rfl⟩
      · obtain ⟨k, hk, h1, h2, h3⟩ := ih (SPIFlashDelay hal (SPIFlashReadReg1 hal s).2 1)
        refine ⟨k + 1, by omega, ?_, ?_, ?_⟩
        · rw [h1, Nat.add_comm k 1, polls_append]; simp [polls]
        · rw [h2]; rfl
        · rw [h3]; rfl

theorem WaitForWriting_frame (hal : Hal σ) (fuel : Nat) (s : Sys σ) (T : Nat) :
    ∃ k, k ≤ fuel ∧
      (SPIFlashWaitForWriting hal fuel s T).2.trace = s.trace ++ polls k ∧
      (SPIFlashWaitForWriting hal fuel s T).2.dev = s.dev ∧
      (SPIFlashWaitForWriting hal fuel s T).2.ram = s.ram :=
  WaitForWriting_loop_frame hal _ T fuel s

theorem Lock_free (hal : Hal σ) (fuel : Nat) (s : Sys σ) (h : s.dev.lock = 0) :
    SPIFlashLock hal (fuel + 1) s = (some (), { s with dev := { s.dev with lock := 1 } }) := by
  simp [SPIFlashLock, h]

/-- Spinning on the lock changes neither the trace nor the RAM, and only the
lock flag of the handle. -/
theorem Lock_frame (hal : Hal σ) (fuel : Nat) (s : Sys σ) :
    (SPIFlashLock hal fuel s).2.trace = s.trace ∧
      (SPIFlashLock hal fuel s).2.ram = s.ram ∧
      { (SPIFlashLock hal fuel s).2.dev with lock := 0 } = { s.dev with lock := 0 } := by
  induction fuel generalizing s with
  | zero => exact ⟨rfl, rfl, rfl⟩
  | succ n ih =>
    unfold SPIFlashLock
    split
    · obtain ⟨h1, h2, h3⟩ := ih (SPIFlashDelay hal s 1)
      exact ⟨h1, h2, h3⟩
    · exact ⟨rfl, rfl, rfl⟩

theorem andThen_assoc {α β γ : Type} (r : Option α × Sys σ)
    (f : α → Sys σ → Option β × Sys σ) (g : β → Sys σ → Option γ × Sys σ) :
    andThen (andThen r f) g = andThen r (fun a s => andThen (f a s) g) := by
  obtain ⟨o, s⟩ := r
  cases o <;> rfl

theorem WriteFn_rejected (hal : Hal σ) (fuel : Nat) (s : Sys σ) (pageNumber data size offset : Nat)
    (h : s.dev.pageNum ≤ pageNumber ∨ 256 ≤ offset) :
    SPIFlashWriteFn hal fuel s pageNumber data size offset =
      (some SPIFLASH_ERROR, (SPIFlashWriteDisable hal s).2) := by
  unfold SPIFlashWriteFn
  rcases h with h | h
  · simp [h]
  · by_cases h1 : s.dev.pageNum ≤ pageNumber
    · simp [h1]
    · simp [h1, SPIFLASH_PAGE_SIZE, h]

theorem WriteFn_accepted (hal : Hal σ) (fuel : Nat) (s : Sys σ) (pageNumber data size offset : Nat)
    (h1 : pageNumber < s.dev.pageNum) (h2 : offset < 256) :
    SPIFlashWriteFn hal fuel s pageNumber data size offset =
      andThen (SPIFlashWaitForWriting hal fuel
          (afterProgram hal s pageNumber data (min size (256 - offset)) offset) 100)
        fun w s3 => (some (if w.toNat ≠ 0 then SPIFLASH_SUCCESS else SPIFLASH_ERROR),
          (SPIFlashWriteDisable hal s3).2) := by
  have hmax : sub32 SPIFLASH_PAGE_SIZE offset = 256 - offset := by
    simp only [sub32, SPIFLASH_PAGE_SIZE]; norm_num; omega
  have hsz : (if size > 256 - offset then 256 - offset else size) = min size (256 - offset) := by
    split <;> omega
  unfold SPIFlashWriteFn
  simp only [hmax, hsz]
  by_cases hb : 512 ≤ s.dev.blockNum <;>
    simp [Nat.not_le.mpr h1, SPIFLASH_PAGE_SIZE, Nat.not_le.mpr h2, afterProgram, programCmd, hb, andThen_assoc]

/-- Of the `size` bytes at the buffer, the HAL is handed the first `halSize size`. -/
@[simp] theorem ramRead_take_halSize (ram : Nat → Nat) (ptr size : Nat) :
    (ramRead ram ptr size).take (halSize (ramRead ram ptr size).length) =
      ramRead ram ptr (halSize size) := by
  simp only [ramRead, List.length_map, List.length_range]
  rw [← List.map_take, List.take_range, Nat.min_eq_left (halSize_le size)]

@[simp] theorem take_halSize_programCmd (b a : Nat) :
    (programCmd b a).take (halSize (programCmd b a).length) = programCmd b a := by
  unfold programCmd; split <;> rfl

@[simp] theorem take_halSize_readCmd (b a : Nat) :
    (readCmd b a).take (halSize (readCmd b a).length) = readCmd b a := by
  unfold readCmd; split <;> rfl

@[simp] theorem take_halSize_sectorEraseCmd (b n : Nat) :
    (sectorEraseCmd b n).take (halSize (sectorEraseCmd b n).length) = sectorEraseCmd b n := by
  unfold sectorEraseCmd; split <;> rfl

@[simp] theorem take_halSize_blockEraseCmd (b n : Nat) :
    (blockEraseCmd b n).take (halSize (blockEraseCmd b n).length) = blockEraseCmd b n := by
  unfold blockEraseCmd; split <;> rfl

@[simp] theorem afterProgram_trace (hal : Hal σ) (s : Sys σ) (pageNumber data size offset : Nat) :
    (afterProgram hal s pageNumber data size offset).trace =
      s.trace ++ (wrenFrame ++ programWindow s.dev.blockNum
        (add32 (SPIFLASH_PAGE2ADDRESS pageNumber) offset)
        (ramRead s.ram data (halSize size))) := by
  simp [afterProgram, programWindow, window]

@[simp] theorem afterProgram_dev (hal : Hal σ) (s : Sys σ) (pageNumber data size offset : Nat) :
    (afterProgram hal s pageNumber data size offset).dev = s.dev := rfl

/-! ## Frames of a trace built from closed windows -/

theorem EndsHigh_nil : EndsHigh [] := Or.inl rfl

theorem EndsHigh_window (xs : List Event) : EndsHigh (window xs) :=
  Or.inr ⟨Event.cs 0 :: xs, by simp [window]⟩

theorem EndsHigh_append {a b : List Event} (ha : EndsHigh a) (hb : EndsHigh b) :
    EndsHigh (a ++ b) := by
  rcases hb with rfl | ⟨u, rfl⟩
  · simpa using ha
  · exact Or.inr ⟨a ++ u, by simp⟩

theorem EndsHigh_polls (k : Nat) : EndsHigh (polls k) := by
  induction k with
  | zero => exact EndsHigh_nil
  | succ k ih => exact EndsHigh_append (EndsHigh_window _) ih

theorem frameAt_append (isOp : Nat → Bool) (e : Event) (a b : List Event)
    (ha : EndsHigh (e :: a)) : frameAt isOp (e :: a ++ b) = frameAt isOp (e :: a) := by
  rcases ha with h | ⟨u, hu⟩
  · cases h
  · match a, u, hu with
    | [], u, hu =>
      have : e = Event.cs 1 := by
        cases u with
        | nil => simpa using hu
        | cons x u => simp at hu
      subst this
      simp [frameAt]
    | [e2], u, hu =>
      have : e2 = Event.cs 1 := by
        cases u with
        | nil => simp at hu
        | cons x u =>
          cases u with
          | nil => simp at hu; exact hu.2
          | cons y u => simp at hu
      subst this
      cases e with
      | cs l => rcases l with _ | l <;> simp [frameAt]
      | xfer tx t => simp [frameAt]
    | e2 :: e3 :: r, u, hu =>
      cases e with
      | xfer tx t => simp [frameAt]
      | cs l =>
        rcases l with _ | l
        · cases e2 with
          | cs l2 => simp [frameAt]
          | xfer tx t =>
            cases e3 with
            | cs l3 => simp [frameAt]
            | xfer tx3 t3 => simp [frameAt]
        · simp [frameAt]

theorem EndsHigh_tail {e : Event} {a : List Event} (ha : EndsHigh (e :: a)) : EndsHigh a := by
  rcases ha with h | ⟨u, hu⟩
  · cases h
  · cases u with
    | nil => simp at hu; exact Or.inl hu.2
    | cons x u => simp at hu; exact Or.inr ⟨u, hu.2⟩

theorem dataFrames_append (isOp : Nat → Bool) (a b : List Event) (ha : EndsHigh a) :
    dataFrames isOp (a ++ b) = dataFrames isOp a ++ dataFrames isOp b := by
  induction a with
  | nil => simp [dataFrames]
  | cons e a ih =>
    rw [List.cons_append, dataFrames, dataFrames, ih (EndsHigh_tail ha), List.append_assoc,
      ← List.cons_append, frameAt_append isOp e a b ha]

theorem dataFrames_polls (isOp : Nat → Bool) (k : Nat) : dataFrames isOp (polls k) = [] := by
  induction k with
  | zero => rfl
  | succ k ih =>
    have h : EndsHigh pollFrame := EndsHigh_window _
    rw [polls, dataFrames_append _ _ _ h, ih]
    simp [pollFrame, window, dataFrames, frameAt]

theorem dataFrames_wren (isOp : Nat → Bool) : dataFrames isOp wrenFrame = [] := by
  simp [wrenFrame, window, dataFrames, frameAt]

theorem dataFrames_wrdi (isOp : Nat → Bool) : dataFrames isOp wrdiFrame = [] := by
  simp [wrdiFrame, window, dataFrames, frameAt]

theorem programFrames_programWindow (blockNum address : Nat) (payload : List Nat) :
    programFrames (programWindow blockNum address payload) =
      [DataFrame.mk (programCmd blockNum address) payload] := by
  unfold programFrames programWindow window programCmd
  split <;> simp [dataFrames, frameAt, SPIFLASH_CMD_PAGEPROG4ADD, SPIFLASH_CMD_PAGEPROG3ADD]

theorem emitted_eq {α : Type} (s : Sys σ) (r : α × Sys σ) (ext : List Event)
    (h : r.2.trace = s.trace ++ ext) : emitted s r = ext := by
  simp [emitted, h]

theorem EndsHigh_wren : EndsHigh wrenFrame := EndsHigh_window _

theorem EndsHigh_wrdi : EndsHigh wrdiFrame := EndsHigh_window _

theorem EndsHigh_programWindow (b a : Nat) (p : List Nat) : EndsHigh (programWindow b a p) :=
  EndsHigh_window _

/-- Effect of `SPIFlashWriteFn` on handle and trace, whatever the environment
does and whether or not the busy-wait has finished. -/
theorem WriteFn_emitted (hal : Hal σ) (fuel : Nat) (s : Sys σ)
    (pageNumber data size offset : Nat) :
    (SPIFlashWriteFn hal fuel s pageNumber data size offset).2.dev = s.dev ∧
    ∃ ext, (SPIFlashWriteFn hal fuel s pageNumber data size offset).2.trace = s.trace ++ ext ∧
      EndsHigh ext ∧ programFrames ext = WriteFn.frames s pageNumber data size offset := by
  by_cases hacc : pageNumber < s.dev.pageNum ∧ offset < 256
  · obtain ⟨h1, h2⟩ := hacc
    rw [WriteFn_accepted hal fuel s pageNumber data size offset h1 h2]
    obtain ⟨k, -, ht, hd, -⟩ := WaitForWriting_frame hal fuel
      (afterProgram hal s pageNumber data (min size (256 - offset)) offset) 100
    generalize SPIFlashWaitForWriting hal fuel
      (afterProgram hal s pageNumber data (min size (256 - offset)) offset) 100 = r at ht hd
    obtain ⟨o, s3⟩ := r
    simp only [afterProgram_trace, afterProgram_dev, halSize_min] at ht hd
    have hw : EndsHigh (wrenFrame ++ programWindow s.dev.blockNum
        (add32 (SPIFLASH_PAGE2ADDRESS pageNumber) offset)
        (ramRead s.ram data (min size (256 - offset)))) :=
      EndsHigh_append EndsHigh_wren (EndsHigh_programWindow _ _ _)
    have hf : programFrames ((wrenFrame ++ programWindow s.dev.blockNum
        (add32 (SPIFLASH_PAGE2ADDRESS pageNumber) offset)
        (ramRead s.ram data (min size (256 - offset)))) ++ polls k) =
        WriteFn.frames s pageNumber data size offset := by
      have hp := programFrames_programWindow s.dev.blockNum
        (add32 (SPIFLASH_PAGE2ADDRESS pageNumber) offset)
        (ramRead s.ram data (min size (256 - offset)))
      unfold programFrames at hp ⊢
      rw [dataFrames_append _ _ _ hw, dataFrames_append _ _ _ EndsHigh_wren,
        dataFrames_polls, dataFrames_wren, hp]
      simp [WriteFn.frames, h1, h2]
    cases o with
    | none =>
      refine ⟨hd, _, ?_, EndsHigh_append hw (EndsHigh_polls k), hf⟩
      simp only [andThen_none, ht, List.append_assoc]
    | some w =>
      refine ⟨hd, _, ?_, EndsHigh_append (EndsHigh_append hw (EndsHigh_polls k))
        EndsHigh_wrdi, ?_⟩
      · simp only [andThen_some, WriteDisable_trace, ht, List.append_assoc]
      · unfold programFrames at hf ⊢
        rw [dataFrames_append _ _ _ (EndsHigh_append hw (EndsHigh_polls k)), hf,
          dataFrames_wrdi, List.append_nil]
  · have hrej : s.dev.pageNum ≤ pageNumber ∨ 256 ≤ offset := by omega
    rw [WriteFn_rejected hal fuel s pageNumber data size offset hrej]
    refine ⟨rfl, wrdiFrame, by simp, EndsHigh_wrdi, ?_⟩
    unfold programFrames
    rw [dataFrames_wrdi]
    simp [WriteFn.frames, hacc]

/-! ## Address bytes -/

theorem byte_extract (a k : Nat) : (a &&& (255 <<< k)) >>> k = a / 2 ^ k % 256 := by
  have h255 : (255 : Nat) = 2 ^ 8 - 1 := by norm_num
  have h256 : (256 : Nat) = 2 ^ 8 := by norm_num
  rw [h255, h256, ← Nat.shiftRight_eq_div_pow]
  apply Nat.eq_of_testBit_eq
  intro j
  simp only [Nat.testBit_shiftRight, Nat.testBit_and, Nat.testBit_shiftLeft,
    Nat.testBit_two_pow_sub_one, Nat.testBit_mod_two_pow]
  have : k + j ≥ k := by omega
  simp [this, Bool.and_comm]

theorem addrBytes3_eq (a : Nat) :
    addrBytes3 a = [a / 65536 % 256, a / 256 % 256, a % 256] := by
  have h1 := byte_extract a 16
  have h2 := byte_extract a 8
  have h3 := byte_extract a 0
  have e1 : (255 : Nat) <<< 16 = 0x00FF0000 := by decide
  have e2 : (255 : Nat) <<< 8 = 0x0000FF00 := by decide
  have e3 : (255 : Nat) <<< 0 = 0x000000FF := by decide
  rw [e1] at h1
  rw [e2] at h2
  rw [e3] at h3
  simp only [Nat.shiftRight_zero, pow_zero, Nat.div_one] at h3
  simp only [addrBytes3, h1, h2, h3]
  norm_num

theorem addrBytes4_eq (a : Nat) :
    addrBytes4 a = [a / 16777216 % 256, a / 65536 % 256, a / 256 % 256, a % 256] := by
  have h0 := byte_extract a 24
  have h1 := byte_extract a 16
  have h2 := byte_extract a 8
  have h3 := byte_extract a 0
  have e0 : (255 : Nat) <<< 24 = 0xFF000000 := by decide
  have e1 : (255 : Nat) <<< 16 = 0x00FF0000 := by decide
  have e2 : (255 : Nat) <<< 8 = 0x0000FF00 := by decide
  have e3 : (255 : Nat) <<< 0 = 0x000000FF := by decide
  rw [e0] at h0
  rw [e1] at h1
  rw [e2] at h2
  rw [e3] at h3
  simp only [Nat.shiftRight_zero, pow_zero, Nat.div_one] at h3
  simp only [addrBytes4, h0, h1, h2, h3]
  norm_num

theorem frameAddress_programCmd_mod (b a : Nat) : frameAddress (programCmd b a) % 256 = a % 256 := by
  unfold programCmd
  split
  · simp only [frameAddress, addrBytes4_eq, List.tail_cons, List.foldl_cons, List.foldl_nil]
    omega
  · simp only [frameAddress, addrBytes3_eq, List.tail_cons, List.foldl_cons, List.foldl_nil]
    omega

/-- The address bytes of a program command are the address itself when it fits
the address width: 32 bits if `blockNum ≥ 512`, else 24 bits. -/
theorem frameAddress_programCmd (b a : Nat) (h4 : a < 4294967296)
    (h3 : b < 512 → a < 16777216) : frameAddress (programCmd b a) = a := by
  unfold programCmd
  split
  · simp only [frameAddress, addrBytes4_eq, List.tail_cons, List.foldl_cons, List.foldl_nil]
    omega
  · have := h3 (by omega)
    simp only [frameAddress, addrBytes3_eq, List.tail_cons, List.foldl_cons, List.foldl_nil]
    omega

/-! ## Program frames of the write operations -/

theorem ramRead_length (ram : Nat → Nat) (ptr size : Nat) : (ramRead ram ptr size).length = size := by
  simp [ramRead]

theorem WriteFn_frames_withinPage (s : Sys σ) (pageNumber data size offset : Nat) (f : DataFrame)
    (hf : f ∈ WriteFn.frames s pageNumber data size offset) : WithinPage f := by
  unfold WriteFn.frames at hf
  split at hf
  · rename_i h
    simp only [List.mem_singleton] at hf
    subst hf
    simp only [WithinPage, frameAddress_programCmd_mod, ramRead_length, add32,
      SPIFLASH_PAGE2ADDRESS, shl32, Nat.shiftLeft_eq]
    omega
  · simp at hf

/-- Frames of the loop of `SPIFlashWriteAddress`: every program frame it emits
is a frame of one of its `SPIFlashWriteFn` calls. -/
theorem WriteAddress_loop_frames (hal : Hal σ) (fuel data : Nat) (P : DataFrame → Prop)
    (hP : ∀ (s : Sys σ) (p d sz o : Nat) (f : DataFrame), f ∈ WriteFn.frames s p d sz o → P f)
    (n : Nat) (s : Sys σ) (add index remaining : Nat) :
    (SPIFlashWriteAddress.loop hal fuel data n s add index remaining).2.dev = s.dev ∧
    ∃ ext, (SPIFlashWriteAddress.loop hal fuel data n s add index remaining).2.trace
        = s.trace ++ ext ∧ EndsHigh ext ∧ ∀ f ∈ programFrames ext, P f := by
  induction n generalizing s add index remaining with
  | zero => exact ⟨rfl, [], by simp [SPIFlashWriteAddress.loop], EndsHigh_nil, by simp [programFrames, dataFrames]⟩
  | succ n ih =>
    unfold SPIFlashWriteAddress.loop
    dsimp only
    generalize hlen : (if remaining ≤ SPIFLASH_PAGE_SIZE then remaining
      else sub32 SPIFLASH_PAGE_SIZE (add % SPIFLASH_PAGE_SIZE)) = length
    obtain ⟨hd, ext, ht, he, hf⟩ := WriteFn_emitted hal fuel s (SPIFLASH_ADDRESS2PAGE add)
      (data + index) length (add % SPIFLASH_PAGE_SIZE)
    have hfP : ∀ f ∈ programFrames ext, P f := by
      intro f hmem
      rw [hf] at hmem
      exact hP _ _ _ _ _ f hmem
    generalize SPIFlashWriteFn hal fuel s (SPIFLASH_ADDRESS2PAGE add)
      (data + index) length (add % SPIFLASH_PAGE_SIZE) = r at hd ht
    obtain ⟨o, s1⟩ := r
    cases o with
    | none => exact ⟨hd, ext, ht, he, hfP⟩
    | some st =>
      simp only [andThen_some]
      split
      · exact ⟨hd, ext, ht, he, hfP⟩
      · split
        · exact ⟨hd, ext, ht, he, hfP⟩
        · split
          · obtain ⟨hd2, ext2, ht2, he2, hf2⟩ := ih s1 (add32 add length) (add32 index length)
              (sub32 remaining length)
            refine ⟨hd2.trans hd, ext ++ ext2, ?_, EndsHigh_append he he2, ?_⟩
            · rw [ht2]; simp only [] at ht; rw [ht, List.append_assoc]
            · intro f hmem
              unfold programFrames at hmem hfP hf2
              rw [dataFrames_append _ _ _ he, List.mem_append] at hmem
              rcases hmem with h | h
              · exact hfP f h
              · exact hf2 f h
          · exact ⟨hd, ext, ht, he, hfP⟩

/-- Frames of the loop of `SPIFlashWriteSector` and `SPIFlashWriteBlock`: every
program frame it emits is a frame of a `SPIFlashWriteFn` call for a page between
the page the loop starts at and `limit`. -/
theorem WriteRegion_loop_frames (hal : Hal σ) (fuel data limit lo : Nat) (dev0 : SPIFlash_t)
    (P : DataFrame → Prop) (hlim : limit ≤ 4294967295)
    (hP : ∀ (s : Sys σ) (p d sz o : Nat) (f : DataFrame), s.dev = dev0 → lo ≤ p → p < limit →
      f ∈ WriteFn.frames s p d sz o → P f)
    (n : Nat) (s : Sys σ) (bytesWritten pageNumber remainingBytes pageOffset : Nat)
    (hs : s.dev = dev0) (hlo : lo ≤ pageNumber) :
    (SPIFlashWriteRegion.loop hal fuel data limit n s bytesWritten pageNumber remainingBytes
        pageOffset).2.dev = s.dev ∧
    ∃ ext, (SPIFlashWriteRegion.loop hal fuel data limit n s bytesWritten pageNumber
        remainingBytes pageOffset).2.trace = s.trace ++ ext ∧
      EndsHigh ext ∧ ∀ f ∈ programFrames ext, P f := by
  induction n generalizing s bytesWritten pageNumber remainingBytes pageOffset with
  | zero =>
    exact ⟨rfl, [], by simp [SPIFlashWriteRegion.loop], EndsHigh_nil,
      by simp [programFrames, dataFrames]⟩
  | succ n ih =>
    unfold SPIFlashWriteRegion.loop
    split
    · rename_i hc
      dsimp only
      generalize (if remainingBytes > SPIFLASH_PAGE_SIZE then SPIFLASH_PAGE_SIZE
        else remainingBytes) = bytesToWrite
      obtain ⟨hd, ext, ht, he, hf⟩ := WriteFn_emitted hal fuel s pageNumber
        (data + bytesWritten) bytesToWrite pageOffset
      have hfP : ∀ f ∈ programFrames ext, P f := by
        intro f hmem
        rw [hf] at hmem
        exact hP _ _ _ _ _ f hs hlo hc.2 hmem
      generalize SPIFlashWriteFn hal fuel s pageNumber (data + bytesWritten) bytesToWrite
        pageOffset = r at hd ht
      obtain ⟨o, s1⟩ := r
      cases o with
      | none => exact ⟨hd, ext, ht, he, hfP⟩
      | some st =>
        simp only [andThen_some]
        split
        · exact ⟨hd, ext, ht, he, hfP⟩
        · have hlo2 : lo ≤ add32 pageNumber 1 := by
            have := hc.2
            unfold add32
            omega
          obtain ⟨hd2, ext2, ht2, he2, hf2⟩ := ih s1 (add32 bytesWritten bytesToWrite)
            (add32 pageNumber 1) (sub32 remainingBytes bytesToWrite) 0 (hd.trans hs) hlo2
          refine ⟨hd2.trans hd, ext ++ ext2, ?_, EndsHigh_append he he2, ?_⟩
          · rw [ht2]; simp only [] at ht; rw [ht, List.append_assoc]
          · intro f hmem
            unfold programFrames at hmem hfP hf2
            rw [dataFrames_append _ _ _ he, List.mem_append] at hmem
            rcases hmem with h | h
            · exact hfP f h
            · exact hf2 f h
    · exact ⟨rfl, [], by simp, EndsHigh_nil, by simp [programFrames, dataFrames]⟩

theorem mul32_lt (a b : Nat) : mul32 a b ≤ 4294967295 := by
  unfold mul32; omega

/-- Frames of a whole public call, from the frames of its body after the lock. -/
theorem emitted_locked {α : Type} (hal : Hal σ) (fuel : Nat) (s : Sys σ)
    (body : Sys σ → Option α × Sys σ) (P : DataFrame → Prop)
    (hbody : ∀ s0 : Sys σ, { s0.dev with lock := 0 } = { s.dev with lock := 0 } →
      ∃ ext, (body s0).2.trace = s0.trace ++ ext ∧ ∀ f ∈ programFrames ext, P f) :
    ∀ f ∈ programFrames (emitted s (andThen (SPIFlashLock hal fuel s) fun _ s0 =>
      andThen (body s0) fun retVal s1 => (some retVal, SPIFlashUnLock s1))), P f := by
  obtain ⟨h1, -, h3⟩ := Lock_frame hal fuel s
  generalize SPIFlashLock hal fuel s = r at h1 h3
  obtain ⟨o, s0⟩ := r
  cases o with
  | none =>
    simp only [andThen_none]
    rw [emitted_eq s _ [] (by simpa using h1)]
    simp [programFrames, dataFrames]
  | some u =>
    simp only [andThen_some]
    obtain ⟨ext, ht, hf⟩ := hbody s0 h3
    generalize body s0 = b at ht
    obtain ⟨o, s1⟩ := b
    simp only [] at h1 ht
    rw [h1] at ht
    cases o with
    | none =>
      rw [andThen_none, emitted_eq s _ ext ht]
      exact hf
    | some st =>
      rw [andThen_some, emitted_eq s _ ext (by simpa using ht)]
      exact hf

/-- C5: for every environment, handle state, fuel and arguments, every
page-program frame emitted by `SPIFlashWriteAddress`, `SPIFlashWritePage`,
`SPIFlashWriteSector` or `SPIFlashWriteBlock`, with byte address `A` (the address
bytes of the frame) and payload length `L`, satisfies `A mod 256 + L ≤ 256`: no
program frame crosses a 256-byte page boundary. -/
theorem C5_program_frame_within_page (hal : Hal σ) (fuel : Nat) (s : Sys σ)
    (a data size offset : Nat) :
    (∀ f ∈ programFrames (emitted s (SPIFlashWriteAddress hal fuel s a data size)),
      frameAddress f.cmd % 256 + f.payload.length ≤ 256) ∧
    (∀ f ∈ programFrames (emitted s (SPIFlashWritePage hal fuel s a data size offset)),
      frameAddress f.cmd % 256 + f.payload.length ≤ 256) ∧
    (∀ f ∈ programFrames (emitted s (SPIFlashWriteSector hal fuel s a data size offset)),
      frameAddress f.cmd % 256 + f.payload.length ≤ 256) ∧
    (∀ f ∈ programFrames (emitted s (SPIFlashWriteBlock hal fuel s a data size offset)),
      frameAddress f.cmd % 256 + f.payload.length ≤ 256) := by
  have hP : ∀ (s : Sys σ) (p d sz o : Nat) (f : DataFrame),
      f ∈ WriteFn.frames s p d sz o → WithinPage f :=
    fun s p d sz o f hf => WriteFn_frames_withinPage s p d sz o f hf
  refine ⟨?_, ?_, ?_, ?_⟩
  · refine emitted_locked hal fuel s
      (fun s0 => SPIFlashWriteAddress.loop hal fuel data fuel s0 a 0 size) WithinPage ?_
    intro s0 _
    obtain ⟨-, ext, ht, -, hf⟩ := WriteAddress_loop_frames hal fuel data WithinPage hP fuel s0 a 0 size
    exact ⟨ext, ht, hf⟩
  · refine emitted_locked hal fuel s
      (fun s0 => SPIFlashWriteFn hal fuel s0 a data size offset) WithinPage ?_
    intro s0 _
    obtain ⟨-, ext, ht, -, hf⟩ := WriteFn_emitted hal fuel s0 a data size offset
    exact ⟨ext, ht, fun f hmem => hP s0 _ _ _ _ f (hf ▸ hmem)⟩
  · refine emitted_locked hal fuel s (fun s0 =>
      if offset ≥ SPIFLASH_SECTOR_SIZE then (some SPIFLASH_ERROR, s0)
      else SPIFlashWriteRegion.loop hal fuel data
        (mul32 (add32 a 1) (SPIFLASH_SECTOR_SIZE / SPIFLASH_PAGE_SIZE)) fuel s0 0
        (add32 (mul32 a (SPIFLASH_SECTOR_SIZE / SPIFLASH_PAGE_SIZE)) (offset / SPIFLASH_PAGE_SIZE))
        (if size > sub32 SPIFLASH_SECTOR_SIZE offset then sub32 SPIFLASH_SECTOR_SIZE offset
          else size) (offset % SPIFLASH_PAGE_SIZE)) WithinPage ?_
    intro s0 _
    dsimp only
    split
    · exact ⟨[], by simp, by simp [programFrames, dataFrames]⟩
    · obtain ⟨-, ext, ht, -, hf⟩ := WriteRegion_loop_frames hal fuel data _ 0 s0.dev WithinPage
        (mul32_lt _ _) (fun s p d sz o f _ _ _ hm => hP s p d sz o f hm) fuel s0 0 _ _ _ rfl
        (Nat.zero_le _)
      exact ⟨ext, ht, hf⟩
  · refine emitted_locked hal fuel s (fun s0 =>
      if offset ≥ SPIFLASH_BLOCK_SIZE then (some SPIFLASH_ERROR, s0)
      else SPIFlashWriteRegion.loop hal fuel data
        (mul32 (add32 a 1) (SPIFLASH_BLOCK_SIZE / SPIFLASH_PAGE_SIZE)) fuel s0 0
        (add32 (mul32 a (SPIFLASH_BLOCK_SIZE / SPIFLASH_PAGE_SIZE)) (offset / SPIFLASH_PAGE_SIZE))
        (if size > sub32 SPIFLASH_BLOCK_SIZE offset then sub32 SPIFLASH_BLOCK_SIZE offset
          else size) (offset % SPIFLASH_PAGE_SIZE)) WithinPage ?_
    intro s0 _
    dsimp only
    split
    · exact ⟨[], by simp, by simp [programFrames, dataFrames]⟩
    · obtain ⟨-, ext, ht, -, hf⟩ := WriteRegion_loop_frames hal fuel data _ 0 s0.dev WithinPage
        (mul32_lt _ _) (fun s p d sz o f _ _ _ hm => hP s p d sz o f hm) fuel s0 0 _ _ _ rfl
        (Nat.zero_le _)
      exact ⟨ext, ht, hf⟩

/-! ## Geometry of a probed handle -/

theorem Probed_geometry (d : SPIFlash_t) (h : Probed d) :
    (d.blockNum = 2 ∨ d.blockNum = 4 ∨ d.blockNum = 8 ∨ d.blockNum = 16 ∨ d.blockNum = 32 ∨
      d.blockNum = 64 ∨ d.blockNum = 128 ∨ d.blockNum = 256 ∨ d.blockNum = 512 ∨
      d.blockNum = 1024) ∧
    d.sectorNum = d.blockNum * 16 ∧ d.pageNum = d.blockNum * 256 := by
  obtain ⟨h0, h1, h2, h3⟩ := h
  have hb : d.blockNum = 2 ∨ d.blockNum = 4 ∨ d.blockNum = 8 ∨ d.blockNum = 16 ∨
      d.blockNum = 32 ∨ d.blockNum = 64 ∨ d.blockNum = 128 ∨ d.blockNum = 256 ∨
      d.blockNum = 512 ∨ d.blockNum = 1024 := by
    unfold SPIFlashFindChip.size at h1
    repeat' split at h1
    all_goals
      have h4 := congrArg SPIFlash_t.blockNum h1
      have h5 := congrArg SPIFlash_t.size h1
      dsimp only at h4 h5
      omega
  refine ⟨hb, ?_, ?_⟩
  · rw [h2]; simp only [SPIFLASH_BLOCK2SECTOR, shl32, Nat.shiftLeft_eq]; omega
  · rw [h3, h2]
    simp only [SPIFLASH_SECTOR2PAGE, SPIFLASH_BLOCK2SECTOR, shl32, Nat.shiftLeft_eq]; omega

/-- Handle geometry that survives taking or releasing the lock. -/
theorem geometry_of_lock_eq (d0 d : SPIFlash_t)
    (h : { d0 with lock := 0 } = { d with lock := 0 }) :
    d0.blockNum = d.blockNum ∧ d0.sectorNum = d.sectorNum ∧ d0.pageNum = d.pageNum := by
  have h1 := congrArg SPIFlash_t.blockNum h
  have h2 := congrArg SPIFlash_t.sectorNum h
  have h3 := congrArg SPIFlash_t.pageNum h
  exact ⟨h1, h2, h3⟩

/-- A program frame of `SPIFlashWriteFn` for a page of region `n` (regions of
`pages` pages) lies inside that region. -/
theorem WriteFn_frames_region (s : Sys σ) (pages n p d sz o : Nat) (f : DataFrame)
    (hb : s.dev.blockNum = 2 ∨ s.dev.blockNum = 4 ∨ s.dev.blockNum = 8 ∨ s.dev.blockNum = 16 ∨
      s.dev.blockNum = 32 ∨ s.dev.blockNum = 64 ∨ s.dev.blockNum = 128 ∨ s.dev.blockNum = 256 ∨
      s.dev.blockNum = 512 ∨ s.dev.blockNum = 1024)
    (hpn : s.dev.pageNum = s.dev.blockNum * 256)
    (hlo : n * pages ≤ p) (hhi : p < (n + 1) * pages)
    (hf : f ∈ WriteFn.frames s p d sz o) :
    n * (pages * 256) ≤ frameAddress f.cmd ∧
      frameAddress f.cmd + f.payload.length ≤ (n + 1) * (pages * 256) := by
  unfold WriteFn.frames at hf
  split at hf
  · rename_i h
    obtain ⟨h1, h2⟩ := h
    simp only [List.mem_singleton] at hf
    subst hf
    have haddr : add32 (SPIFLASH_PAGE2ADDRESS p) o = p * 256 + o := by
      simp only [add32, SPIFLASH_PAGE2ADDRESS, shl32, Nat.shiftLeft_eq]
      omega
    have hfa : frameAddress (programCmd s.dev.blockNum (p * 256 + o)) = p * 256 + o := by
      apply frameAddress_programCmd <;> omega
    simp only [haddr, hfa, ramRead_length]
    have e1 : n * (pages * 256) = (n * pages) * 256 := by ring
    have e2 : (n + 1) * (pages * 256) = ((n + 1) * pages) * 256 := by ring
    rw [e1, e2]
    omega
  · simp at hf

/-- Frames of the body of a region write (after the lock) for region `n` of a
probed handle, with `pages` pages per region. -/
theorem WriteRegion_body_frames (hal : Hal σ) (fuel data : Nat) (s s0 : Sys σ)
    (pages n size pageOffset offset : Nat) (hpages : 0 < pages) (hpages2 : pages ≤ 256) (hp : Probed s.dev)
    (hlock : { s0.dev with lock := 0 } = { s.dev with lock := 0 })
    (hn : n * pages < s.dev.pageNum) (hoff : offset / 256 < pages) :
    ∃ ext, (SPIFlashWriteRegion.loop hal fuel data (mul32 (add32 n 1) pages) fuel s0 0
        (add32 (mul32 n pages) (offset / 256)) size pageOffset).2.trace = s0.trace ++ ext ∧
      ∀ f ∈ programFrames ext, n * (pages * 256) ≤ frameAddress f.cmd ∧
        frameAddress f.cmd + f.payload.length ≤ (n + 1) * (pages * 256) := by
  obtain ⟨hb, -, hpn⟩ := Probed_geometry s.dev hp
  obtain ⟨g1, -, g3⟩ := geometry_of_lock_eq s0.dev s.dev hlock
  have hnp : n * pages < 262144 := by omega
  have hn1 : n < 262144 := by
    rcases Nat.lt_or_ge n 262144 with h | h
    · exact h
    · have : 262144 * 1 ≤ n * pages := Nat.mul_le_mul h hpages
      omega
  have hn2 : (n + 1) * pages = n * pages + pages := by ring
  have hlimit : mul32 (add32 n 1) pages = (n + 1) * pages := by
    have : add32 n 1 = n + 1 := by unfold add32; omega
    rw [this]; unfold mul32; omega
  have hstart : add32 (mul32 n pages) (offset / 256) = n * pages + offset / 256 := by
    unfold add32 mul32; omega
  rw [hlimit, hstart]
  obtain ⟨-, ext, ht, -, hf⟩ := WriteRegion_loop_frames hal fuel data ((n + 1) * pages)
    (n * pages) s0.dev
    (fun f => n * (pages * 256) ≤ frameAddress f.cmd ∧
      frameAddress f.cmd + f.payload.length ≤ (n + 1) * (pages * 256))
    (by omega)
    (fun s1 p d sz o f hs1 hlo hhi hm =>
      WriteFn_frames_region s1 pages n p d sz o f (by rw [hs1, g1]; exact hb)
        (by rw [hs1, g1, g3]; exact hpn) hlo hhi hm)
    fuel s0 0 (n * pages + offset / 256) size pageOffset rfl (by omega)
  exact ⟨ext, ht, hf⟩

/-- C8: on a probed handle, `SPIFlashWriteSector` on sector `n < sectorNum` and
`SPIFlashWriteBlock` on block `m < blockNum`, for every offset, size, buffer,
environment and fuel, emit only page-program frames whose byte address `A` and
payload length `L` satisfy `n * 4096 ≤ A` and `A + L ≤ (n + 1) * 4096`
(respectively `m * 65536 ≤ A` and `A + L ≤ (m + 1) * 65536`): the write never
touches the next sector or block. -/
theorem C8_region_write_stays_in_region (hal : Hal σ) (fuel : Nat) (s : Sys σ)
    (n m data size offset : Nat) (hp : Probed s.dev)
    (hn : n < s.dev.sectorNum) (hm : m < s.dev.blockNum) :
    (∀ f ∈ programFrames (emitted s (SPIFlashWriteSector hal fuel s n data size offset)),
      n * 4096 ≤ frameAddress f.cmd ∧ frameAddress f.cmd + f.payload.length ≤ (n + 1) * 4096) ∧
    (∀ f ∈ programFrames (emitted s (SPIFlashWriteBlock hal fuel s m data size offset)),
      m * 65536 ≤ frameAddress f.cmd ∧
        frameAddress f.cmd + f.payload.length ≤ (m + 1) * 65536) := by
  obtain ⟨-, hsn, hpn⟩ := Probed_geometry s.dev hp
  constructor
  · refine emitted_locked hal fuel s (fun s0 =>
      if offset ≥ SPIFLASH_SECTOR_SIZE then (some SPIFLASH_ERROR, s0)
      else SPIFlashWriteRegion.loop hal fuel data
        (mul32 (add32 n 1) (SPIFLASH_SECTOR_SIZE / SPIFLASH_PAGE_SIZE)) fuel s0 0
        (add32 (mul32 n (SPIFLASH_SECTOR_SIZE / SPIFLASH_PAGE_SIZE)) (offset / SPIFLASH_PAGE_SIZE))
        (if size > sub32 SPIFLASH_SECTOR_SIZE offset then sub32 SPIFLASH_SECTOR_SIZE offset
          else size) (offset % SPIFLASH_PAGE_SIZE))
      (fun f => n * 4096 ≤ frameAddress f.cmd ∧
        frameAddress f.cmd + f.payload.length ≤ (n + 1) * 4096) ?_
    intro s0 hlock
    dsimp only
    split
    · exact ⟨[], by simp, by simp [programFrames, dataFrames]⟩
    · rename_i hoff
      have hoff2 : offset < 4096 := by
        simp only [SPIFLASH_SECTOR_SIZE, ge_iff_le, not_le] at hoff
        exact hoff
      exact WriteRegion_body_frames hal fuel data s s0 16 n _ _ offset (by omega) (by omega) hp
        hlock (by omega) (by omega)
  · refine emitted_locked hal fuel s (fun s0 =>
      if offset ≥ SPIFLASH_BLOCK_SIZE then (some SPIFLASH_ERROR, s0)
      else SPIFlashWriteRegion.loop hal fuel data
        (mul32 (add32 m 1) (SPIFLASH_BLOCK_SIZE / SPIFLASH_PAGE_SIZE)) fuel s0 0
        (add32 (mul32 m (SPIFLASH_BLOCK_SIZE / SPIFLASH_PAGE_SIZE)) (offset / SPIFLASH_PAGE_SIZE))
        (if size > sub32 SPIFLASH_BLOCK_SIZE offset then sub32 SPIFLASH_BLOCK_SIZE offset
          else size) (offset % SPIFLASH_PAGE_SIZE))
      (fun f => m * 65536 ≤ frameAddress f.cmd ∧
        frameAddress f.cmd + f.payload.length ≤ (m + 1) * 65536) ?_
    intro s0 hlock
    dsimp only
    split
    · exact ⟨[], by simp, by simp [programFrames, dataFrames]⟩
    · rename_i hoff
      have hoff2 : offset < 65536 := by
        simp only [SPIFLASH_BLOCK_SIZE, ge_iff_le, not_le] at hoff
        exact hoff
      exact WriteRegion_body_frames hal fuel data s s0 256 m _ _ offset (by omega) (by omega) hp
        hlock (by omega) (by omega)

/-- Instance of C8: sector 3 and block 1 of the 16 Mbit handle, four bytes at offset 0xFE. -/
theorem C8_region_write_stays_in_region_witness :
    Probed dev16 ∧ 3 < dev16.sectorNum ∧ 1 < dev16.blockNum ∧
    (∀ f ∈ programFrames (emitted (sys16 [1, 2, 3, 4])
        (SPIFlashWriteSector busyHal 200 (sys16 [1, 2, 3, 4]) 3 0 4 0xFE)),
      3 * 4096 ≤ frameAddress f.cmd ∧ frameAddress f.cmd + f.payload.length ≤ (3 + 1) * 4096) ∧
    (∀ f ∈ programFrames (emitted (sys16 [1, 2, 3, 4])
        (SPIFlashWriteBlock busyHal 200 (sys16 [1, 2, 3, 4]) 1 0 4 0xFE)),
      1 * 65536 ≤ frameAddress f.cmd ∧
        frameAddress f.cmd + f.payload.length ≤ (1 + 1) * 65536) :=
  ⟨by decide, by decide, by decide,
    C8_region_write_stays_in_region busyHal 200 (sys16 [1, 2, 3, 4]) 3 1 0 4 0xFE
      (by decide) (by decide) (by decide)⟩

/-! ## The busy-wait result is tested the wrong way round -/

/-- C1 (failing input): on the probed 16 Mbit handle, with every transfer
returning `HAL_OK` and STATUS1 read as `0x00` (BUSY clear) at the first poll,
`SPIFlashEraseSector (0)`, `SPIFlashEraseBlock (0)`, `SPIFlashEraseChip` and
`SPIFlashWritePage (page 0, 3 bytes, offset 0)` all put the complete frame
sequence on the bus and then return `SPIFLASH_ERROR`, not `SPIFLASH_SUCCESS`. -/
theorem C1_ready_flash_returns_error :
    Probed dev16 ∧
    SPIFlashWaitForWriting idleHal 10 (sys16 []) 1000 =
      (some SPIFLASH_SUCCESS, (SPIFlashReadReg1 idleHal (sys16 [])).2) ∧
    (SPIFlashEraseSector idleHal 10 (sys16 []) 0).1 = some SPIFLASH_ERROR ∧
    emitted (sys16 []) (SPIFlashEraseSector idleHal 10 (sys16 []) 0) =
      wrenFrame ++ window [Event.xfer [0x20, 0, 0, 0] 100] ++ pollFrame ++ wrdiFrame ∧
    (SPIFlashEraseBlock idleHal 10 (sys16 []) 0).1 = some SPIFLASH_ERROR ∧
    (SPIFlashEraseChip idleHal 10 (sys16 [])).1 = some SPIFLASH_ERROR ∧
    (SPIFlashWritePage idleHal 10 (sys16 [1, 2, 3]) 0 0 3 0).1 = some SPIFLASH_ERROR ∧
    emitted (sys16 [1, 2, 3]) (SPIFlashWritePage idleHal 10 (sys16 [1, 2, 3]) 0 0 3 0) =
      wrenFrame ++ window [Event.xfer [0x02, 0, 0, 0] 100, Event.xfer [1, 2, 3] 1000] ++
        pollFrame ++ wrdiFrame := by
  refine ⟨by decide, rfl, by decide, by decide, by decide, by decide, by decide, by decide⟩

set_option maxRecDepth 100000 in
/-- C2 (failing input): a flash that reports BUSY on every status read, with a
clock that advances 1 ms per `HAL_Delay (1)`, on the probed 16 Mbit handle.  The
busy-wait inside `SPIFlashEraseSector (0)` ends with `SPIFLASH_TIMEOUT` after
1000 ms and the one inside `SPIFlashWritePage (page 0, 3 bytes, offset 0)` after
100 ms, and both operations then return `SPIFLASH_SUCCESS`. -/
theorem C2_busy_flash_returns_success :
    Probed dev16 ∧
    (SPIFlashWaitForWriting busyHal 1001
      (afterCommand busyHal (locked (sys16 [])) (sectorEraseCmd 32 0)) 1000).1
        = some SPIFLASH_TIMEOUT ∧
    (SPIFlashEraseSector busyHal 1001 (sys16 []) 0).1 = some SPIFLASH_SUCCESS ∧
    (SPIFlashEraseSector busyHal 1001 (sys16 []) 0).1 ≠ some SPIFLASH_TIMEOUT ∧
    (SPIFlashWaitForWriting busyHal 101
      (afterProgram busyHal (locked (sys16 [1, 2, 3])) 0 0 3 0) 100).1
        = some SPIFLASH_TIMEOUT ∧
    (SPIFlashWritePage busyHal 101 (sys16 [1, 2, 3]) 0 0 3 0).1 = some SPIFLASH_SUCCESS ∧
    (SPIFlashWritePage busyHal 101 (sys16 [1, 2, 3]) 0 0 3 0).1 ≠ some SPIFLASH_TIMEOUT := by
  decide

set_option maxRecDepth 100000 in
/-- C3 (failing input): `SPIFlashWriteAddress (0xFE, [0xA, 0xB, 0xC, 0xD])` on the
probed 16 Mbit handle, with the single-page program reporting success, emits
exactly one program frame, `[0xA, 0xB]` at address `0x0000FE`, and returns
`SPIFLASH_SUCCESS`; the bytes `0xC, 0xD` are never sent. -/
theorem C3_write_address_drops_bytes :
    (SPIFlashWriteAddress busyHal 101 (sys16 [0xA, 0xB, 0xC, 0xD]) 0xFE 0 4).1
      = some SPIFLASH_SUCCESS ∧
    programFrames (emitted (sys16 [0xA, 0xB, 0xC, 0xD])
      (SPIFlashWriteAddress busyHal 101 (sys16 [0xA, 0xB, 0xC, 0xD]) 0xFE 0 4))
      = [DataFrame.mk [0x02, 0x00, 0x00, 0xFE] [0xA, 0xB]] := by
  decide

set_option maxRecDepth 100000 in
/-- C7 (failing input): `SPIFlashWriteSector (sector 0, [1, 2, 3, 4], offset 0xFE)`
on the probed 16 Mbit handle, with the single-page program reporting success,
emits one program frame `[1, 2]` at address `0x0000FE` and returns
`SPIFLASH_SUCCESS`: the payloads do not add up to the four bytes of data.  With
300 bytes at offset `0x80` the second frame starts with byte 256 of the data:
bytes 128 to 255 are skipped. -/
theorem C7_write_sector_skips_bytes :
    (SPIFlashWriteSector busyHal 101 (sys16 [1, 2, 3, 4]) 0 0 4 0xFE).1
      = some SPIFLASH_SUCCESS ∧
    programFrames (emitted (sys16 [1, 2, 3, 4])
      (SPIFlashWriteSector busyHal 101 (sys16 [1, 2, 3, 4]) 0 0 4 0xFE))
      = [DataFrame.mk [0x02, 0x00, 0x00, 0xFE] [1, 2]] ∧
    (programFrames (emitted (sys16 (List.range 300))
      (SPIFlashWriteSector busyHal 101 (sys16 (List.range 300)) 0 0 300 0x80))).map
        (fun f => (f.cmd, f.payload.length, f.payload.head?))
      = [([0x02, 0x00, 0x00, 0x80], 128, some 0), ([0x02, 0x00, 0x01, 0x00], 44, some 256)] := by
  decide

/-- C9 (failing input): `SPIFlashReadPage (page 1, 4 bytes, offset 0x10)`,
`SPIFlashReadSector (sector 1, offset 0x10)` and `SPIFlashReadBlock (block 1,
offset 0x10)` on the probed 16 Mbit handle emit READ DATA frames with the
addresses `0x000100`, `0x001000` and `0x010000`: the offset is not part of
the address. -/
theorem C9_read_ignores_offset :
    (readFrames (emitted (sys16 [])
      (SPIFlashReadPage idleHal 1 (sys16 []) 1 0 4 0x10))).map (fun f => f.cmd)
      = [[0x03, 0x00, 0x01, 0x00]] ∧
    (readFrames (emitted (sys16 [])
      (SPIFlashReadSector idleHal 1 (sys16 []) 1 0 4 0x10))).map (fun f => f.cmd)
      = [[0x03, 0x00, 0x10, 0x00]] ∧
    (readFrames (emitted (sys16 [])
      (SPIFlashReadBlock idleHal 1 (sys16 []) 1 0 4 0x10))).map (fun f => f.cmd)
      = [[0x03, 0x01, 0x00, 0x00]] ∧
    (readFrames (emitted (sys16 [])
      (SPIFlashReadPage idleHal 1 (sys16 []) 1 0 4 0x10))).map (fun f => frameAddress f.cmd)
      ≠ [1 * 256 + 0x10] := by
  decide

/-! ## Termination of the busy-wait -/

theorem poll_env (hal : Hal σ) (s : Sys σ) :
    (SPIFlashDelay hal (SPIFlashReadReg1 hal s).2 1).env = pollEnv hal s.dev s.env := rfl

theorem poll_elapsed (hal : Hal σ) (s : Sys σ) (t0 T : Nat) (hc : ClockRuns hal s.dev)
    (hT : T ≤ 2147483648) (hlt : sub32 (SPIFlashGetTick hal s) t0 < T) :
    sub32 (SPIFlashGetTick hal s) t0 + 1 ≤
      sub32 (SPIFlashGetTick hal (SPIFlashDelay hal (SPIFlashReadReg1 hal s).2 1)) t0 := by
  obtain ⟨h1, h2⟩ := hc s.env
  unfold SPIFlashGetTick at hlt ⊢
  rw [poll_env]
  unfold sub32 at h1 h2 hlt ⊢
  omega

/-- With a running clock the busy-wait returns once the fuel exceeds the timeout. -/
theorem WaitForWriting_loop_returns (hal : Hal σ) (d : SPIFlash_t) (t0 T : Nat)
    (hc : ClockRuns hal d) (hT : T ≤ 2147483648) (fuel : Nat) (s : Sys σ) (hs : s.dev = d)
    (hf : T < sub32 (SPIFlashGetTick hal s) t0 + fuel) (hf1 : 1 ≤ fuel) :
    ∃ st, (SPIFlashWaitForWriting.loop hal t0 T fuel s).1 = some st := by
  induction fuel generalizing s with
  | zero => omega
  | succ n ih =>
    unfold SPIFlashWaitForWriting.loop
    split
    · exact ⟨_, rfl⟩
    · rename_i hlt
      dsimp only
      split
      · exact ⟨_, rfl⟩
      · have hel := poll_elapsed hal s t0 T (hs ▸ hc) hT (by omega)
        exact ih (SPIFlashDelay hal (SPIFlashReadReg1 hal s).2 1) hs (by omega) (by omega)

theorem ReadReg1_busy (hal : Hal σ) (hb : AlwaysBusy hal) (s : Sys σ) :
    (SPIFlashReadReg1 hal s).1 &&& SPIFlashSTATUS1_BUSY ≠ 0 := by
  obtain ⟨h1, h2⟩ := hb (hal.HAL_GPIO_WritePin s.env s.dev.GPIO s.dev.pin 0) s.dev.hSPI
  have hone : SPIFlashSTATUS1_BUSY = 1 := rfl
  rw [hone, Nat.and_one_is_mod]
  have h3 : ([SPIFLASH_CMD_READSTATUS1, SPIFLASH_DUMMY_BYTE] : List Nat).take
      (halSize ([SPIFLASH_CMD_READSTATUS1, SPIFLASH_DUMMY_BYTE] : List Nat).length) =
      [SPIFLASH_CMD_READSTATUS1, SPIFLASH_DUMMY_BYTE] := rfl
  have h4 : halSize ([SPIFLASH_CMD_READSTATUS1, SPIFLASH_DUMMY_BYTE] : List Nat).length = 2 := rfl
  simp only [SPIFlashReadReg1, SPIFlashTransmitReceive, SPIFlashCSPin, h3, h1, if_true]
  rw [h4, getD_take _ 1 2 0 (by decide)]
  omega

/-- With a running clock and a flash that stays busy, the busy-wait returns
`SPIFLASH_TIMEOUT`. -/
theorem WaitForWriting_loop_busy (hal : Hal σ) (d : SPIFlash_t) (t0 T : Nat)
    (hc : ClockRuns hal d) (hb : AlwaysBusy hal) (hT : T ≤ 2147483648) (fuel : Nat) (s : Sys σ)
    (hs : s.dev = d) (hf : T < sub32 (SPIFlashGetTick hal s) t0 + fuel) (hf1 : 1 ≤ fuel) :
    (SPIFlashWaitForWriting.loop hal t0 T fuel s).1 = some SPIFLASH_TIMEOUT := by
  induction fuel generalizing s with
  | zero => omega
  | succ n ih =>
    unfold SPIFlashWaitForWriting.loop
    split
    · rfl
    · rename_i hlt
      dsimp only
      rw [if_neg (ReadReg1_busy hal hb s)]
      have hel := poll_elapsed hal s t0 T (hs ▸ hc) hT (by omega)
      exact ih (SPIFlashDelay hal (SPIFlashReadReg1 hal s).2 1) hs (by omega) (by omega)

theorem sub32_self (hal : Hal σ) (s : Sys σ) :
    sub32 (SPIFlashGetTick hal s) (SPIFlashGetTick hal s) = 0 := by
  unfold sub32 SPIFlashGetTick; omega

theorem WaitForWriting_returns (hal : Hal σ) (fuel : Nat) (s : Sys σ) (T : Nat)
    (hc : ClockRuns hal s.dev) (hT : T ≤ 2147483648) (hf : T < fuel) :
    ∃ st, (SPIFlashWaitForWriting hal fuel s T).1 = some st :=
  WaitForWriting_loop_returns hal s.dev _ T hc hT fuel s rfl
    (by rw [sub32_self]; omega) (by omega)

theorem WaitForWriting_busy (hal : Hal σ) (fuel : Nat) (s : Sys σ) (T : Nat)
    (hc : ClockRuns hal s.dev) (hb : AlwaysBusy hal) (hT : T ≤ 2147483648) (hf : T < fuel) :
    (SPIFlashWaitForWriting hal fuel s T).1 = some SPIFLASH_TIMEOUT :=
  WaitForWriting_loop_busy hal s.dev _ T hc hb hT fuel s rfl
    (by rw [sub32_self]; omega) (by omega)

/-! ## The write/erase cycle -/

@[simp] theorem afterCommand_trace (hal : Hal σ) (s : Sys σ) (cmd : List Nat) :
    (afterCommand hal s cmd).trace =
      s.trace ++ (wrenFrame ++ window [Event.xfer (cmd.take (halSize cmd.length)) 100]) := by
  simp [afterCommand, window]

@[simp] theorem afterCommand_dev (hal : Hal σ) (s : Sys σ) (cmd : List Nat) :
    (afterCommand hal s cmd).dev = s.dev := rfl

@[simp] theorem locked_trace (s : Sys σ) : (locked s).trace = s.trace := rfl

theorem Lock_locked (hal : Hal σ) (fuel : Nat) (s : Sys σ) (h : s.dev.lock = 0) :
    SPIFlashLock hal (fuel + 1) s = (some (), locked s) := Lock_free hal fuel s h

theorem EraseChip_eq (hal : Hal σ) (fuel : Nat) (s : Sys σ) (hl : s.dev.lock = 0) :
    SPIFlashEraseChip hal (fuel + 1) s =
      andThen (SPIFlashWaitForWriting hal (fuel + 1)
          (afterCommand hal (locked s) [SPIFLASH_CMD_CHIPERASE1]) (mul32 s.dev.blockNum 1000))
        fun w s3 => (some (if w.toNat ≠ 0 then SPIFLASH_SUCCESS else SPIFLASH_ERROR),
          SPIFlashUnLock (SPIFlashWriteDisable hal s3).2) := by
  unfold SPIFlashEraseChip
  rw [Lock_free hal fuel s hl]
  simp [afterCommand, locked, andThen_assoc]

theorem EraseSector_eq (hal : Hal σ) (fuel : Nat) (s : Sys σ) (sector : Nat)
    (hl : s.dev.lock = 0) (hs : sector < s.dev.sectorNum) :
    SPIFlashEraseSector hal (fuel + 1) s sector =
      andThen (SPIFlashWaitForWriting hal (fuel + 1)
          (afterCommand hal (locked s) (sectorEraseCmd s.dev.blockNum sector)) 1000)
        fun w s3 => (some (if w.toNat ≠ 0 then SPIFLASH_SUCCESS else SPIFLASH_ERROR),
          SPIFlashUnLock (SPIFlashWriteDisable hal s3).2) := by
  unfold SPIFlashEraseSector
  rw [Lock_free hal fuel s hl]
  by_cases hb : 512 ≤ s.dev.blockNum <;>
    simp [afterCommand, locked, andThen_assoc, sectorEraseCmd, hb, Nat.not_le.mpr hs]

theorem EraseBlock_eq (hal : Hal σ) (fuel : Nat) (s : Sys σ) (block : Nat)
    (hl : s.dev.lock = 0) (hs : block < s.dev.blockNum) :
    SPIFlashEraseBlock hal (fuel + 1) s block =
      andThen (SPIFlashWaitForWriting hal (fuel + 1)
          (afterCommand hal (locked s) (blockEraseCmd s.dev.blockNum block)) 3000)
        fun w s3 => (some (if w.toNat ≠ 0 then SPIFLASH_SUCCESS else SPIFLASH_ERROR),
          SPIFlashUnLock (SPIFlashWriteDisable hal s3).2) := by
  unfold SPIFlashEraseBlock
  rw [Lock_free hal fuel s hl]
  by_cases hb : 512 ≤ s.dev.blockNum <;>
    simp [afterCommand, locked, andThen_assoc, blockEraseCmd, hb, Nat.not_le.mpr hs]

theorem WritePage_eq (hal : Hal σ) (fuel : Nat) (s : Sys σ) (pageNumber data size offset : Nat)
    (hl : s.dev.lock = 0) (h1 : pageNumber < s.dev.pageNum) (h2 : offset < 256) :
    SPIFlashWritePage hal (fuel + 1) s pageNumber data size offset =
      andThen (SPIFlashWaitForWriting hal (fuel + 1)
          (afterProgram hal (locked s) pageNumber data (min size (256 - offset)) offset) 100)
        fun w s3 => (some (if w.toNat ≠ 0 then SPIFLASH_SUCCESS else SPIFLASH_ERROR),
          SPIFlashUnLock (SPIFlashWriteDisable hal s3).2) := by
  unfold SPIFlashWritePage
  rw [Lock_locked hal fuel s hl]
  simp only [andThen_some]
  rw [WriteFn_accepted hal (fuel + 1) (locked s) pageNumber data size offset h1 h2, andThen_assoc]
  rfl

/-- A finished busy-wait followed by WRDI and unlock: result and trace. -/
theorem finish_cycle (hal : Hal σ) (fuel : Nat) (s s0 : Sys σ) (T : Nat) (op : List Event)
    (hc : ClockRuns hal s0.dev) (hT : T ≤ 2147483648) (hf : T < fuel)
    (ht : s0.trace = s.trace ++ (wrenFrame ++ op))
    (fin : Sys σ → Sys σ) (hfin : ∀ x : Sys σ, (fin x).trace = x.trace) :
    ∃ st k, (andThen (SPIFlashWaitForWriting hal fuel s0 T) fun w s3 =>
        (some (if w.toNat ≠ 0 then SPIFLASH_SUCCESS else SPIFLASH_ERROR),
          fin (SPIFlashWriteDisable hal s3).2)).1 = some st ∧
      emitted s (andThen (SPIFlashWaitForWriting hal fuel s0 T) fun w s3 =>
        (some (if w.toNat ≠ 0 then SPIFLASH_SUCCESS else SPIFLASH_ERROR),
          fin (SPIFlashWriteDisable hal s3).2)) = cycle op k := by
  obtain ⟨w, hw⟩ := WaitForWriting_returns hal fuel s0 T hc hT hf
  obtain ⟨k, -, hk, -, -⟩ := WaitForWriting_frame hal fuel s0 T
  generalize SPIFlashWaitForWriting hal fuel s0 T = r at hw hk
  obtain ⟨o, s3⟩ := r
  simp only [] at hw
  subst hw
  refine ⟨_, k, rfl, ?_⟩
  apply emitted_eq
  simp only [andThen_some, hfin, WriteDisable_trace]
  simp only [] at hk
  rw [hk, ht]
  simp [cycle]

theorem busyHal_alwaysBusy : AlwaysBusy busyHal := by
  intro e h
  exact ⟨rfl, by simp [busyHal, SPIFLASH_CMD_READSTATUS1, SPIFLASH_DUMMY_BYTE, List.getD]⟩

theorem busyHal_clockRuns (d : SPIFlash_t) : ClockRuns busyHal d := by
  intro e
  show 1 ≤ sub32 ((e + 1) % 4294967296) e ∧ sub32 ((e + 1) % 4294967296) e ≤ 2147483648
  unfold sub32
  omega

theorem idleHal_clockRuns (d : SPIFlash_t) : ClockRuns idleHal d := by
  intro e
  show 1 ≤ sub32 ((e + 1) % 4294967296) e ∧ sub32 ((e + 1) % 4294967296) e ≤ 2147483648
  unfold sub32
  omega

theorem status_of_wait (w : SPIFlashStatus_t) :
    (if w.toNat ≠ 0 then SPIFLASH_SUCCESS else SPIFLASH_ERROR) = SPIFLASH_SUCCESS ∨
      (if w.toNat ≠ 0 then SPIFLASH_SUCCESS else SPIFLASH_ERROR) = SPIFLASH_ERROR := by
  split
  · exact Or.inl rfl
  · exact Or.inr rfl

/-- Let the flash report BUSY on every STATUS1 read and let the clock run.  On a
handle with the lock clear, for a sector below `sectorNum`, a page below
`pageNum`, an offset below 256 and fuel above the timeouts, the busy-wait inside
`SPIFlashEraseSector` (1000 ms) and inside `SPIFlashWritePage` (100 ms) ends with
`SPIFLASH_TIMEOUT`, and both operations return `SPIFLASH_SUCCESS`. -/
theorem busy_flash_returns_success (hal : Hal σ) (fuel : Nat) (s : Sys σ)
    (sector page data size offset : Nat)
    (hb : AlwaysBusy hal) (hc : ClockRuns hal s.dev) (hl : s.dev.lock = 0)
    (hs : sector < s.dev.sectorNum) (hp : page < s.dev.pageNum) (ho : offset < 256)
    (hf : 1000 < fuel) :
    (SPIFlashWaitForWriting hal fuel
      (afterCommand hal (locked s) (sectorEraseCmd s.dev.blockNum sector)) 1000).1
        = some SPIFLASH_TIMEOUT ∧
    (SPIFlashEraseSector hal fuel s sector).1 = some SPIFLASH_SUCCESS ∧
    (SPIFlashWaitForWriting hal fuel
      (afterProgram hal (locked s) page data (min size (256 - offset)) offset) 100).1
        = some SPIFLASH_TIMEOUT ∧
    (SPIFlashWritePage hal fuel s page data size offset).1 = some SPIFLASH_SUCCESS := by
  obtain ⟨f, rfl⟩ : ∃ f, fuel = f + 1 := ⟨fuel - 1, by omega⟩
  have h1 := WaitForWriting_busy hal (f + 1)
    (afterCommand hal (locked s) (sectorEraseCmd s.dev.blockNum sector)) 1000 hc hb
    (by omega) (by omega)
  have h2 := WaitForWriting_busy hal (f + 1)
    (afterProgram hal (locked s) page data (min size (256 - offset)) offset) 100 hc hb
    (by omega) (by omega)
  refine ⟨h1, ?_, h2, ?_⟩
  · rw [EraseSector_eq hal f s sector hl hs]
    generalize SPIFlashWaitForWriting hal (f + 1)
      (afterCommand hal (locked s) (sectorEraseCmd s.dev.blockNum sector)) 1000 = r at h1
    obtain ⟨o, s3⟩ := r
    simp only [] at h1
    subst h1
    rfl
  · rw [WritePage_eq hal f s page data size offset hl hp ho]
    generalize SPIFlashWaitForWriting hal (f + 1)
      (afterProgram hal (locked s) page data (min size (256 - offset)) offset) 100 = r at h2
    obtain ⟨o, s3⟩ := r
    simp only [] at h2
    subst h2
    rfl

theorem PAGE_SIZE_eq : SPIFLASH_PAGE_SIZE = 256 := rfl

theorem SECTOR_SIZE_eq : SPIFLASH_SECTOR_SIZE = 4096 := rfl

theorem BLOCK_SIZE_eq : SPIFLASH_BLOCK_SIZE = 65536 := rfl

/-- An accepted `SPIFlashWriteFn` call with a running clock returns, and what it
appends to the trace is one program cycle. -/
theorem WriteFn_cycle (hal : Hal σ) (fuel : Nat) (s : Sys σ) (pageNumber data size offset : Nat)
    (hc : ClockRuns hal s.dev) (hf : 100 < fuel)
    (h1 : pageNumber < s.dev.pageNum) (h2 : offset < 256) :
    ∃ st k, (SPIFlashWriteFn hal fuel s pageNumber data size offset).1 = some st ∧
      (SPIFlashWriteFn hal fuel s pageNumber data size offset).2.trace =
        s.trace ++ cycle (programWindow s.dev.blockNum
          (add32 (SPIFLASH_PAGE2ADDRESS pageNumber) offset)
          (ramRead s.ram data (min size (256 - offset)))) k := by
  rw [WriteFn_accepted hal fuel s pageNumber data size offset h1 h2]
  have hc2 : ClockRuns hal
      (afterProgram hal s pageNumber data (min size (256 - offset)) offset).dev := hc
  obtain ⟨w, hw⟩ := WaitForWriting_returns hal fuel
    (afterProgram hal s pageNumber data (min size (256 - offset)) offset) 100 hc2
    (by omega) hf
  obtain ⟨k, -, hk, -, -⟩ := WaitForWriting_frame hal fuel
    (afterProgram hal s pageNumber data (min size (256 - offset)) offset) 100
  generalize SPIFlashWaitForWriting hal fuel
    (afterProgram hal s pageNumber data (min size (256 - offset)) offset) 100 = r at hw hk
  obtain ⟨o, s3⟩ := r
  simp only [] at hw hk
  subst hw
  refine ⟨_, k, rfl, ?_⟩
  simp only [andThen_some, WriteDisable_trace, hk, afterProgram_trace, halSize_min]
  simp [cycle]

/-- The loop of `SPIFlashWriteAddress` on an in-range request with a running
clock returns, and what it appends to the trace is a non-empty sequence of
program cycles. -/
theorem WriteAddress_loop_cycles (hal : Hal σ) (fuel data : Nat) (d : SPIFlash_t)
    (hc : ClockRuns hal d) (hf : 100 < fuel) (hcap : d.pageNum * 256 ≤ 4294967296)
    (n : Nat) (s : Sys σ) (add index remaining : Nat) (hs : s.dev = d)
    (hn : remaining < n) (ha : add < d.pageNum * 256) (har : add + remaining ≤ d.pageNum * 256) :
    ∃ st cycles, (SPIFlashWriteAddress.loop hal fuel data n s add index remaining).1 = some st ∧
      (SPIFlashWriteAddress.loop hal fuel data n s add index remaining).2.trace =
        s.trace ++ cycles.flatten ∧ cycles ≠ [] ∧
      ∀ c ∈ cycles, ∃ addr payload k, c = cycle (programWindow d.blockNum addr payload) k := by
  induction n generalizing s add index remaining with
  | zero => omega
  | succ n ih =>
    unfold SPIFlashWriteAddress.loop
    dsimp only
    generalize hlen : (if remaining ≤ SPIFLASH_PAGE_SIZE then remaining
      else sub32 SPIFLASH_PAGE_SIZE (add % SPIFLASH_PAGE_SIZE)) = length
    have hpage : SPIFLASH_ADDRESS2PAGE add < s.dev.pageNum := by
      rw [hs]; simp only [SPIFLASH_ADDRESS2PAGE, Nat.shiftRight_eq_div_pow]; omega
    have hoff : add % SPIFLASH_PAGE_SIZE < 256 := by
      rw [PAGE_SIZE_eq]; omega
    obtain ⟨st, k, h1, h2⟩ := WriteFn_cycle hal fuel s (SPIFLASH_ADDRESS2PAGE add)
      (data + index) length (add % SPIFLASH_PAGE_SIZE) (hs ▸ hc) hf hpage hoff
    obtain ⟨hd, -⟩ := WriteFn_emitted hal fuel s (SPIFLASH_ADDRESS2PAGE add)
      (data + index) length (add % SPIFLASH_PAGE_SIZE)
    generalize SPIFlashWriteFn hal fuel s (SPIFLASH_ADDRESS2PAGE add)
      (data + index) length (add % SPIFLASH_PAGE_SIZE) = r at h1 h2 hd
    obtain ⟨o, s1⟩ := r
    simp only [] at h1 h2 hd
    subst h1
    simp only [andThen_some]
    obtain ⟨c1, h2, hc1⟩ : ∃ c1, s1.trace = s.trace ++ c1 ∧
        ∃ addr payload k, c1 = cycle (programWindow d.blockNum addr payload) k :=
      ⟨_, h2, _, _, k, by rw [hs]⟩
    have hone : ∀ c ∈ [c1], ∃ addr payload k,
        c = cycle (programWindow d.blockNum addr payload) k := by
      intro c hcm
      simp only [List.mem_singleton] at hcm
      rw [hcm]; exact hc1
    split
    · exact ⟨_, [c1], rfl, by simpa using h2, by simp, hone⟩
    · split
      · exact ⟨_, [c1], rfl, by simpa using h2, by simp, hone⟩
      · rename_i hne
        split
        · have hlen2 : remaining > 256 ∧ length = 256 - add % 256 := by
            clear ih hone h2 hc1
            rw [PAGE_SIZE_eq] at hlen
            unfold sub32 at hlen hne
            split at hlen <;> constructor <;> omega
          obtain ⟨hr, hl⟩ := hlen2
          have hcap2 : add + remaining ≤ 4294967296 := by omega
          have hrem1 : sub32 remaining length = remaining - length := by
            clear hlen hne hone h2 ih hc1
            unfold sub32; omega
          have hadd1 : add32 add length = add + length := by
            clear hlen hne hone h2 ih hc1
            unfold add32; omega
          rw [hrem1, hadd1]
          obtain ⟨st2, cycles, i1, i2, -, i4⟩ := ih s1 (add + length) (add32 index length)
            (remaining - length) (hd.trans hs) (by omega) (by omega) (by omega)
          refine ⟨st2, c1 :: cycles, i1, ?_, by simp, ?_⟩
          · rw [i2, h2]; simp
          · intro c hcm
            rcases List.mem_cons.mp hcm with h | h
            · exact hone c (by simp [h])
            · exact i4 c h
        · exact ⟨_, [c1], rfl, by simpa using h2, by simp, hone⟩

/-- One write or erase cycle on the bus.  On a probed handle with the lock
clear, with a running clock and fuel above the longest busy-wait, each of `SPIFlashEraseChip`, `SPIFlashEraseBlock`
(block below `blockNum`), `SPIFlashEraseSector` (sector below `sectorNum`) and
`SPIFlashWritePage` (page below `pageNum`, offset below 256) returns, and the bus
trace of the call is exactly one cycle: the WREN frame `06`, the operation frame
(`60`; the block or sector erase command; the program command followed by the
payload in the same chip-select window), `k ≥ 0` STATUS1 reads `05`, the WRDI
frame `04`.  `SPIFlashWriteAddress` on a request inside the device returns, and
its trace is a non-empty concatenation of such program cycles, one for each
single-page program it issues. -/
theorem write_erase_bus_trace (hal : Hal σ) (fuel : Nat) (s : Sys σ)
    (block sector page data size offset address : Nat)
    (hp : Probed s.dev) (hc : ClockRuns hal s.dev) (hl : s.dev.lock = 0)
    (hfuel : 1024000 < fuel) (hsize : size < fuel)
    (hblock : block < s.dev.blockNum) (hsector : sector < s.dev.sectorNum)
    (hpage : page < s.dev.pageNum) (hoffset : offset < 256)
    (haddr : address < s.dev.pageNum * 256) (hend : address + size ≤ s.dev.pageNum * 256) :
    (∃ st k, (SPIFlashEraseChip hal fuel s).1 = some st ∧
      emitted s (SPIFlashEraseChip hal fuel s) =
        cycle (window [Event.xfer [SPIFLASH_CMD_CHIPERASE1] 100]) k) ∧
    (∃ st k, (SPIFlashEraseBlock hal fuel s block).1 = some st ∧
      emitted s (SPIFlashEraseBlock hal fuel s block) =
        cycle (window [Event.xfer (blockEraseCmd s.dev.blockNum block) 100]) k) ∧
    (∃ st k, (SPIFlashEraseSector hal fuel s sector).1 = some st ∧
      emitted s (SPIFlashEraseSector hal fuel s sector) =
        cycle (window [Event.xfer (sectorEraseCmd s.dev.blockNum sector) 100]) k) ∧
    (∃ st k, (SPIFlashWritePage hal fuel s page data size offset).1 = some st ∧
      emitted s (SPIFlashWritePage hal fuel s page data size offset) =
        cycle (programWindow s.dev.blockNum (add32 (SPIFLASH_PAGE2ADDRESS page) offset)
          (ramRead s.ram data (min size (256 - offset)))) k) ∧
    (∃ st cycles, (SPIFlashWriteAddress hal fuel s address data size).1 = some st ∧
      emitted s (SPIFlashWriteAddress hal fuel s address data size) = cycles.flatten ∧
      cycles ≠ [] ∧
      ∀ c ∈ cycles, ∃ addr payload k,
        c = cycle (programWindow s.dev.blockNum addr payload) k) := by
  obtain ⟨f, rfl⟩ : ∃ f, fuel = f + 1 := ⟨fuel - 1, by omega⟩
  obtain ⟨hb, -, hpn⟩ := Probed_geometry s.dev hp
  refine ⟨?_, ?_, ?_, ?_, ?_⟩
  · rw [EraseChip_eq hal f s hl]
    exact finish_cycle hal (f + 1) s (afterCommand hal (locked s) [SPIFLASH_CMD_CHIPERASE1])
      (mul32 s.dev.blockNum 1000) (window [Event.xfer [SPIFLASH_CMD_CHIPERASE1] 100]) hc
      (by unfold mul32; omega) (by unfold mul32; omega) (by simp) SPIFlashUnLock (fun _ => rfl)
  · rw [EraseBlock_eq hal f s block hl hblock]
    exact finish_cycle hal (f + 1) s
      (afterCommand hal (locked s) (blockEraseCmd s.dev.blockNum block)) 3000
      (window [Event.xfer (blockEraseCmd s.dev.blockNum block) 100]) hc
      (by omega) (by omega) (by simp) SPIFlashUnLock (fun _ => rfl)
  · rw [EraseSector_eq hal f s sector hl hsector]
    exact finish_cycle hal (f + 1) s
      (afterCommand hal (locked s) (sectorEraseCmd s.dev.blockNum sector)) 1000
      (window [Event.xfer (sectorEraseCmd s.dev.blockNum sector) 100]) hc
      (by omega) (by omega) (by simp) SPIFlashUnLock (fun _ => rfl)
  · rw [WritePage_eq hal f s page data size offset hl hpage hoffset]
    exact finish_cycle hal (f + 1) s
      (afterProgram hal (locked s) page data (min size (256 - offset)) offset) 100
      (programWindow s.dev.blockNum (add32 (SPIFLASH_PAGE2ADDRESS page) offset)
          (ramRead s.ram data (min size (256 - offset)))) hc
      (by omega) (by omega) (by simp [locked]) SPIFlashUnLock (fun _ => rfl)
  · unfold SPIFlashWriteAddress
    rw [Lock_locked hal f s hl]
    simp only [andThen_some]
    obtain ⟨st, cycles, h1, h2, h3, h4⟩ := WriteAddress_loop_cycles hal (f + 1) data
      (locked s).dev hc (by omega) (by show s.dev.pageNum * 256 ≤ 4294967296; omega)
      (f + 1) (locked s) address 0 size rfl hsize haddr hend
    generalize SPIFlashWriteAddress.loop hal (f + 1) data (f + 1) (locked s) address 0 size
      = r at h1 h2
    obtain ⟨o, s1⟩ := r
    simp only [] at h1 h2
    subst h1
    refine ⟨st, cycles, rfl, ?_, h3, h4⟩
    apply emitted_eq
    simpa using h2

/-- The cycles of the never-busy flash: block 0, sector 0, page 0 and a
four-byte write at address 0xFE on the 16 Mbit handle. -/
theorem write_erase_bus_trace_instance :
    Probed (sys16 [1, 2, 3, 4]).dev ∧ ClockRuns idleHal (sys16 [1, 2, 3, 4]).dev ∧
    (sys16 [1, 2, 3, 4]).dev.lock = 0 ∧ 1024000 < 1024001 ∧ 4 < 1024001 ∧
    0 < (sys16 [1, 2, 3, 4]).dev.blockNum ∧ 0 < (sys16 [1, 2, 3, 4]).dev.sectorNum ∧
    0 < (sys16 [1, 2, 3, 4]).dev.pageNum ∧ 0 < 256 ∧
    0xFE < (sys16 [1, 2, 3, 4]).dev.pageNum * 256 ∧
    0xFE + 4 ≤ (sys16 [1, 2, 3, 4]).dev.pageNum * 256 ∧
    ((∃ st k, (SPIFlashEraseChip idleHal 1024001 (sys16 [1, 2, 3, 4])).1 = some st ∧
      emitted (sys16 [1, 2, 3, 4]) (SPIFlashEraseChip idleHal 1024001 (sys16 [1, 2, 3, 4])) =
        cycle (window [Event.xfer [SPIFLASH_CMD_CHIPERASE1] 100]) k) ∧
    (∃ st k, (SPIFlashEraseBlock idleHal 1024001 (sys16 [1, 2, 3, 4]) 0).1 = some st ∧
      emitted (sys16 [1, 2, 3, 4]) (SPIFlashEraseBlock idleHal 1024001 (sys16 [1, 2, 3, 4]) 0) =
        cycle (window [Event.xfer (blockEraseCmd (sys16 [1, 2, 3, 4]).dev.blockNum 0) 100]) k) ∧
    (∃ st k, (SPIFlashEraseSector idleHal 1024001 (sys16 [1, 2, 3, 4]) 0).1 = some st ∧
      emitted (sys16 [1, 2, 3, 4]) (SPIFlashEraseSector idleHal 1024001 (sys16 [1, 2, 3, 4]) 0) =
        cycle (window [Event.xfer (sectorEraseCmd (sys16 [1, 2, 3, 4]).dev.blockNum 0) 100]) k) ∧
    (∃ st k, (SPIFlashWritePage idleHal 1024001 (sys16 [1, 2, 3, 4]) 0 0 4 0).1 = some st ∧
      emitted (sys16 [1, 2, 3, 4]) (SPIFlashWritePage idleHal 1024001 (sys16 [1, 2, 3, 4]) 0 0 4 0) =
        cycle (programWindow (sys16 [1, 2, 3, 4]).dev.blockNum
          (add32 (SPIFLASH_PAGE2ADDRESS 0) 0)
          (ramRead (sys16 [1, 2, 3, 4]).ram 0 (min 4 (256 - 0)))) k) ∧
    (∃ st cycles,
      (SPIFlashWriteAddress idleHal 1024001 (sys16 [1, 2, 3, 4]) 0xFE 0 4).1 = some st ∧
      emitted (sys16 [1, 2, 3, 4])
        (SPIFlashWriteAddress idleHal 1024001 (sys16 [1, 2, 3, 4]) 0xFE 0 4) = cycles.flatten ∧
      cycles ≠ [] ∧
      ∀ c ∈ cycles, ∃ addr payload k,
        c = cycle (programWindow (sys16 [1, 2, 3, 4]).dev.blockNum addr payload) k)) :=
  ⟨by decide, idleHal_clockRuns _, by decide, by decide, by decide, by decide, by decide,
    by decide, by decide, by decide, by decide,
    write_erase_bus_trace idleHal 1024001 (sys16 [1, 2, 3, 4]) 0 0 0 0 4 0 0xFE
      (by decide) (idleHal_clockRuns _) (by decide) (by decide) (by decide) (by decide)
      (by decide) (by decide) (by decide) (by decide) (by decide)⟩

set_option maxRecDepth 100000 in
/-- C6 (failing input): `SPIFlashWriteAddress (0x10, 600 bytes)` on the probed
16 Mbit handle, every transfer returning `HAL_OK` and the flash ready at the
first STATUS1 read.  The request has three chunks (240 bytes at `0x000010`, 256
bytes at `0x000100`, 104 bytes at `0x000200`), but the trace is one cycle only:
WREN, the program frame with the first 240 bytes, one STATUS1 read, WRDI; then
the call returns `SPIFLASH_ERROR`. -/
theorem C6_write_address_stops_after_first_chunk :
    Probed dev16 ∧
    (SPIFlashWriteAddress idleHal 10 (sys16 (List.replicate 600 0x5A)) 0x10 0 600).1
      = some SPIFLASH_ERROR ∧
    emitted (sys16 (List.replicate 600 0x5A))
        (SPIFlashWriteAddress idleHal 10 (sys16 (List.replicate 600 0x5A)) 0x10 0 600) =
      cycle (window [Event.xfer [0x02, 0x00, 0x00, 0x10] 100,
        Event.xfer (List.replicate 240 0x5A) 1000]) 1 ∧
    (programFrames (emitted (sys16 (List.replicate 600 0x5A))
        (SPIFlashWriteAddress idleHal 10 (sys16 (List.replicate 600 0x5A)) 0x10 0 600))).map
        (fun f => (frameAddress f.cmd, f.payload.length)) = [(0x10, 240)] := by
  refine ⟨by decide, by decide, by decide, by decide⟩

/-! ## Reads and size clamping -/

/-- Whatever the transfers report, `SPIFlashReadFn` returns `SPIFLASH_SUCCESS`
after one window with the command and the data phase. -/
theorem ReadFn_spec (hal : Hal σ) (s : Sys σ) (address data size : Nat) :
    (SPIFlashReadFn hal s address data size).1 = SPIFLASH_SUCCESS ∧
    (SPIFlashReadFn hal s address data size).2.trace =
      s.trace ++ readWindow s.dev.blockNum address (ramRead s.ram data (halSize size)) ∧
    (SPIFlashReadFn hal s address data size).2.dev = s.dev := by
  have h4 : ∀ a : Nat, (SPIFLASH_CMD_READDATA4ADD :: addrBytes4 a).take
      (halSize (SPIFLASH_CMD_READDATA4ADD :: addrBytes4 a).length) =
      SPIFLASH_CMD_READDATA4ADD :: addrBytes4 a := fun _ => rfl
  have h3 : ∀ a : Nat, (SPIFLASH_CMD_READDATA3ADD :: addrBytes3 a).take
      (halSize (SPIFLASH_CMD_READDATA3ADD :: addrBytes3 a).length) =
      SPIFLASH_CMD_READDATA3ADD :: addrBytes3 a := fun _ => rfl
  unfold SPIFlashReadFn
  by_cases hb : 512 ≤ s.dev.blockNum <;>
    simp [hb, readWindow, readCmd, window, -List.length_cons, h4, h3]

theorem readFrames_readWindow (blockNum address : Nat) (dummy : List Nat) :
    readFrames (readWindow blockNum address dummy) =
      [DataFrame.mk (readCmd blockNum address) dummy] := by
  unfold readFrames readWindow window readCmd
  split <;> simp [dataFrames, frameAt, SPIFLASH_CMD_READDATA4ADD, SPIFLASH_CMD_READDATA3ADD]

/-- A public read: lock, clamp, `SPIFlashReadFn`, unlock. -/
theorem read_spec (hal : Hal σ) (fuel : Nat) (s : Sys σ) (address data size : Nat)
    (hl : s.dev.lock = 0) :
    (andThen (SPIFlashLock hal (fuel + 1) s) fun _ s0 =>
      (some (SPIFlashReadFn hal s0 address data size).1,
        SPIFlashUnLock (SPIFlashReadFn hal s0 address data size).2)).1 = some SPIFLASH_SUCCESS ∧
    emitted s (andThen (SPIFlashLock hal (fuel + 1) s) fun _ s0 =>
      (some (SPIFlashReadFn hal s0 address data size).1,
        SPIFlashUnLock (SPIFlashReadFn hal s0 address data size).2)) =
      readWindow s.dev.blockNum address (ramRead s.ram data (halSize size)) := by
  rw [Lock_locked hal fuel s hl]
  obtain ⟨h1, h2, -⟩ := ReadFn_spec hal (locked s) address data size
  refine ⟨by simp only [andThen_some, h1], ?_⟩
  apply emitted_eq
  simp only [andThen_some, UnLock_trace, h2]
  rfl

theorem clamp_eq (size region offset : Nat) (h : offset < region) (hr : region ≤ 65536) :
    (if size > sub32 region offset then sub32 region offset else size) =
      min size (region - offset) := by
  have : sub32 region offset = region - offset := by unfold sub32; omega
  rw [this]
  split <;> omega

/-- Program frames of a `SPIFlashWritePage` call that got the lock. -/
theorem WritePage_frames (hal : Hal σ) (fuel : Nat) (s : Sys σ) (page data size offset : Nat)
    (hl : s.dev.lock = 0) :
    programFrames (emitted s (SPIFlashWritePage hal (fuel + 1) s page data size offset)) =
      WriteFn.frames s page data size offset := by
  unfold SPIFlashWritePage
  rw [Lock_locked hal fuel s hl]
  simp only [andThen_some]
  obtain ⟨-, ext, ht, -, hf⟩ := WriteFn_emitted hal (fuel + 1) (locked s) page data size offset
  generalize SPIFlashWriteFn hal (fuel + 1) (locked s) page data size offset = r at ht
  obtain ⟨o, s1⟩ := r
  have he : emitted s (andThen (o, s1) fun retVal s1 => (some retVal, SPIFlashUnLock s1)) = ext := by
    apply emitted_eq
    cases o <;> simpa using ht
  rw [he, hf]
  rfl

/-- Sizes of the data phases.  On a handle with the lock clear,
`SPIFlashWritePage` with page below `pageNum` and offset below 256 streams
exactly `min size (256 - offset)` payload bytes and behaves in every respect like
the call with the clamped size; `SPIFlashReadPage` and `SPIFlashReadSector` with
offset below the region size (256, 4096) transfer exactly
`min size (region size - offset)` bytes in the data phase; `SPIFlashReadBlock`
with offset below 65536 hands `min size (65536 - offset)` to the transfer, which
the 16-bit size of the HAL turns into `halSize (min size (65536 - offset))`
bytes.  The reads return `SPIFLASH_SUCCESS`. -/
theorem transfer_size_clamped (hal : Hal σ) (fuel : Nat) (s : Sys σ)
    (page rpage sector block data size offP offS offB : Nat)
    (hl : s.dev.lock = 0) (hfuel : 0 < fuel) (hpage : page < s.dev.pageNum)
    (hoffP : offP < 256) (hoffS : offS < 4096) (hoffB : offB < 65536) :
    ((programFrames (emitted s (SPIFlashWritePage hal fuel s page data size offP))).map
        (fun f => f.payload.length) = [min size (256 - offP)] ∧
      SPIFlashWritePage hal fuel s page data size offP =
        SPIFlashWritePage hal fuel s page data (min size (256 - offP)) offP) ∧
    ((readFrames (emitted s (SPIFlashReadPage hal fuel s rpage data size offP))).map
        (fun f => f.payload.length) = [min size (256 - offP)] ∧
      (SPIFlashReadPage hal fuel s rpage data size offP).1 = some SPIFLASH_SUCCESS) ∧
    ((readFrames (emitted s (SPIFlashReadSector hal fuel s sector data size offS))).map
        (fun f => f.payload.length) = [min size (4096 - offS)] ∧
      (SPIFlashReadSector hal fuel s sector data size offS).1 = some SPIFLASH_SUCCESS) ∧
    ((readFrames (emitted s (SPIFlashReadBlock hal fuel s block data size offB))).map
        (fun f => f.payload.length) = [halSize (min size (65536 - offB))] ∧
      (SPIFlashReadBlock hal fuel s block data size offB).1 = some SPIFLASH_SUCCESS) := by
  obtain ⟨f, rfl⟩ : ∃ f, fuel = f + 1 := ⟨fuel - 1, by omega⟩
  refine ⟨⟨?_, ?_⟩, ?_, ?_, ?_⟩
  · rw [WritePage_frames hal f s page data size offP hl]
    simp [WriteFn.frames, hpage, hoffP, ramRead_length]
  · rw [WritePage_eq hal f s page data size offP hl hpage hoffP,
      WritePage_eq hal f s page data (min size (256 - offP)) offP hl hpage hoffP]
    simp
  · unfold SPIFlashReadPage
    dsimp only
    rw [PAGE_SIZE_eq, clamp_eq size 256 offP hoffP (by omega)]
    obtain ⟨h1, h2⟩ := read_spec hal f s (SPIFLASH_PAGE2ADDRESS rpage) data
      (min size (256 - offP)) hl
    rw [h2, readFrames_readWindow]
    exact ⟨by simp [ramRead_length], h1⟩
  · unfold SPIFlashReadSector
    dsimp only
    rw [SECTOR_SIZE_eq, clamp_eq size 4096 offS hoffS (by omega)]
    obtain ⟨h1, h2⟩ := read_spec hal f s (SPIFLASH_SECTOR2ADDRESS sector) data
      (min size (4096 - offS)) hl
    have hs : halSize (min size (4096 - offS)) = min size (4096 - offS) :=
      halSize_of_lt (by omega)
    rw [h2, readFrames_readWindow, hs]
    exact ⟨by simp [ramRead_length], h1⟩
  · unfold SPIFlashReadBlock
    dsimp only
    rw [BLOCK_SIZE_eq, clamp_eq size 65536 offB hoffB (by omega)]
    obtain ⟨h1, h2⟩ := read_spec hal f s (SPIFLASH_BLOCK2ADDRESS block) data
      (min size (65536 - offB)) hl
    rw [h2, readFrames_readWindow]
    exact ⟨by simp [ramRead_length], h1⟩

/-- C10 (failing input): `SPIFlashReadBlock (block 0, size 65536, offset 0)` on
the probed 16 Mbit handle, every transfer returning `HAL_OK`.  The size is not
above `65536 - 0`, so it is handed on unchanged; converted to the `uint16_t`
size of `HAL_SPI_TransmitReceive` it is 0, the data phase transfers no byte at
all, and the call returns `SPIFLASH_SUCCESS`, also on a bus where every
transfer fails.  With size 65535 the data phase has 65535 bytes. -/
theorem C10_full_block_read_transfers_nothing :
    min 65536 (65536 - 0) = 65536 ∧ halSize 65536 = 0 ∧
    emitted (sys16 []) (SPIFlashReadBlock idleHal 5 (sys16 []) 0 0 65536 0) =
      [Event.cs 0, Event.xfer [0x03, 0, 0, 0] 100, Event.xfer [] 2000, Event.cs 1] ∧
    (readFrames (emitted (sys16 []) (SPIFlashReadBlock idleHal 5 (sys16 []) 0 0 65536 0))).map
        (fun f => f.payload.length) = [0] ∧
    (SPIFlashReadBlock idleHal 5 (sys16 []) 0 0 65536 0).1 = some SPIFLASH_SUCCESS ∧
    (SPIFlashReadBlock deadHal 5 (sys16 []) 0 0 65536 0).1 = some SPIFLASH_SUCCESS ∧
    (readFrames (emitted (sys16 []) (SPIFlashReadBlock idleHal 5 (sys16 []) 0 0 65535 0))).map
        (fun f => f.payload.length) = [65535] := by
  have hd := (transfer_size_clamped deadHal 5 (sys16 []) 0 0 0 0 0 65536 0 0 0
    (by decide) (by decide) (by decide) (by decide) (by decide) (by decide)).2.2.2.2
  have h := (transfer_size_clamped idleHal 5 (sys16 []) 0 0 0 0 0 65536 0 0 0
    (by decide) (by decide) (by decide) (by decide) (by decide) (by decide)).2.2.2
  have h5 := (transfer_size_clamped idleHal 5 (sys16 []) 0 0 0 0 0 65535 0 0 0
    (by decide) (by decide) (by decide) (by decide) (by decide) (by decide)).2.2.2.1
  have he : emitted (sys16 []) (SPIFlashReadBlock idleHal 5 (sys16 []) 0 0 65536 0) =
      [Event.cs 0, Event.xfer [0x03, 0, 0, 0] 100, Event.xfer [] 2000, Event.cs 1] := by
    unfold SPIFlashReadBlock
    dsimp only
    rw [BLOCK_SIZE_eq, clamp_eq 65536 65536 0 (by decide) (by decide)]
    rw [(read_spec idleHal 4 (sys16 []) (SPIFLASH_BLOCK2ADDRESS 0) 0 (min 65536 (65536 - 0))
      (by decide)).2]
    decide
  exact ⟨by decide, by decide, he, h.1, h.2, hd, h5⟩

/-! ## Round trip on the flash model -/

/-- C4 (failing input): erased flash behind a byte-accurate model, the bytes
`[1, 2, 3, 4]` written with `SPIFlashWriteAddress` at address `0xFE` of the
probed 16 Mbit handle.  The call programs `[1, 2]` at `0xFE`, returns
`SPIFLASH_ERROR` and stops; `SPIFlashReadAddress (0xFE, 4)` then yields
`[1, 2, 0xFF, 0xFF]`, not the bytes written.  (A write inside one page,
`[0xDE, 0xAD, 0xBE, 0xEF]` at address 0, is read back intact, although the
write call returns `SPIFLASH_ERROR` as well.) -/
theorem C4_round_trip_fails_across_pages :
    0xFE + [1, 2, 3, 4].length ≤ dev16.pageNum * 256 ∧
    (SPIFlashWriteAddress norHal 10 (norSys [1, 2, 3, 4]) 0xFE 0 4).1 = some SPIFLASH_ERROR ∧
    programFrames (SPIFlashWriteAddress norHal 10 (norSys [1, 2, 3, 4]) 0xFE 0 4).2.trace
      = [DataFrame.mk [0x02, 0x00, 0x00, 0xFE] [1, 2]] ∧
    (SPIFlashReadAddress norHal 10
      (SPIFlashWriteAddress norHal 10 (norSys [1, 2, 3, 4]) 0xFE 0 4).2 0xFE 16 4).1
      = some SPIFLASH_SUCCESS ∧
    ramRead (SPIFlashReadAddress norHal 10
      (SPIFlashWriteAddress norHal 10 (norSys [1, 2, 3, 4]) 0xFE 0 4).2 0xFE 16 4).2.ram 16 4
      = [1, 2, 0xFF, 0xFF] ∧
    (SPIFlashWriteAddress norHal 10 (norSys [0xDE, 0xAD, 0xBE, 0xEF]) 0 0 4).1
      = some SPIFLASH_ERROR ∧
    ramRead (SPIFlashReadAddress norHal 10
      (SPIFlashWriteAddress norHal 10 (norSys [0xDE, 0xAD, 0xBE, 0xEF]) 0 0 4).2 0 16 4).2.ram 16 4
      = [0xDE, 0xAD, 0xBE, 0xEF] := by
  decide

/-! ## Rejected arguments -/

theorem EraseSector_rejected (hal : Hal σ) (fuel : Nat) (s : Sys σ) (sector : Nat)
    (hl : s.dev.lock = 0) (hs : s.dev.sectorNum ≤ sector) :
    SPIFlashEraseSector hal (fuel + 1) s sector =
      (some SPIFLASH_ERROR, SPIFlashUnLock (SPIFlashWriteDisable hal (locked s)).2) := by
  unfold SPIFlashEraseSector
  rw [Lock_locked hal fuel s hl]
  have h : s.dev.sectorNum ≤ sector := hs
  simp [locked, h]

theorem EraseBlock_rejected (hal : Hal σ) (fuel : Nat) (s : Sys σ) (block : Nat)
    (hl : s.dev.lock = 0) (hs : s.dev.blockNum ≤ block) :
    SPIFlashEraseBlock hal (fuel + 1) s block =
      (some SPIFLASH_ERROR, SPIFlashUnLock (SPIFlashWriteDisable hal (locked s)).2) := by
  unfold SPIFlashEraseBlock
  rw [Lock_locked hal fuel s hl]
  have h : s.dev.blockNum ≤ block := hs
  simp [locked, h]

theorem WritePage_rejected (hal : Hal σ) (fuel : Nat) (s : Sys σ)
    (pageNumber data size offset : Nat) (hl : s.dev.lock = 0)
    (h : s.dev.pageNum ≤ pageNumber ∨ 256 ≤ offset) :
    SPIFlashWritePage hal (fuel + 1) s pageNumber data size offset =
      (some SPIFLASH_ERROR, SPIFlashUnLock (SPIFlashWriteDisable hal (locked s)).2) := by
  unfold SPIFlashWritePage
  rw [Lock_locked hal fuel s hl]
  simp only [andThen_some]
  rw [WriteFn_rejected hal (fuel + 1) (locked s) pageNumber data size offset h]
  rfl

theorem busBytes_wrdi : busBytes wrdiFrame = 1 := rfl

/-- C11 (counterexample): on the probed 16 Mbit handle (512 sectors, 32 blocks,
8192 pages) `SPIFlashEraseSector (512)`, `SPIFlashEraseBlock (32)`,
`SPIFlashWritePage (page 8192)` and `SPIFlashWritePage (page 0, offset 256)`
return `SPIFLASH_ERROR` but each puts one byte on the bus: the WRDI frame. -/
theorem C11_rejected_call_sends_wrdi :
    Probed dev16 ∧
    (SPIFlashEraseSector idleHal 1 (sys16 []) 512).1 = some SPIFLASH_ERROR ∧
    emitted (sys16 []) (SPIFlashEraseSector idleHal 1 (sys16 []) 512) =
      [Event.cs 0, Event.xfer [0x04] 100, Event.cs 1] ∧
    busBytes (emitted (sys16 []) (SPIFlashEraseSector idleHal 1 (sys16 []) 512)) = 1 ∧
    busBytes (emitted (sys16 []) (SPIFlashEraseBlock idleHal 1 (sys16 []) 32)) = 1 ∧
    busBytes (emitted (sys16 []) (SPIFlashWritePage idleHal 1 (sys16 []) 8192 0 4 0)) = 1 ∧
    busBytes (emitted (sys16 []) (SPIFlashWritePage idleHal 1 (sys16 []) 0 0 4 256)) = 1 := by
  decide

/-- C11 (amended): on a handle with the lock clear, `SPIFlashEraseSector` with
sector at or above `sectorNum`, `SPIFlashEraseBlock` with block at or above
`blockNum` and `SPIFlashWritePage` with page at or above `pageNum` or offset at
or above 256 each return `SPIFLASH_ERROR` and emit no WREN, erase or program
frame: the only bus traffic of the call is the one-byte WRDI frame `04` that
these operations send on every exit path. -/
theorem C11_rejected_call_returns_error (hal : Hal σ) (fuel : Nat) (s : Sys σ)
    (sector block page data size offset : Nat)
    (hl : s.dev.lock = 0) (hf : 0 < fuel)
    (hs : s.dev.sectorNum ≤ sector) (hb : s.dev.blockNum ≤ block)
    (hp : s.dev.pageNum ≤ page ∨ 256 ≤ offset) :
    ((SPIFlashEraseSector hal fuel s sector).1 = some SPIFLASH_ERROR ∧
      emitted s (SPIFlashEraseSector hal fuel s sector) = wrdiFrame) ∧
    ((SPIFlashEraseBlock hal fuel s block).1 = some SPIFLASH_ERROR ∧
      emitted s (SPIFlashEraseBlock hal fuel s block) = wrdiFrame) ∧
    ((SPIFlashWritePage hal fuel s page data size offset).1 = some SPIFLASH_ERROR ∧
      emitted s (SPIFlashWritePage hal fuel s page data size offset) = wrdiFrame) ∧
    busBytes wrdiFrame = 1 := by
  obtain ⟨f, rfl⟩ : ∃ f, fuel = f + 1 := ⟨fuel - 1, by omega⟩
  rw [EraseSector_rejected hal f s sector hl hs, EraseBlock_rejected hal f s block hl hb,
    WritePage_rejected hal f s page data size offset hl hp]
  have he : emitted s ((some SPIFLASH_ERROR,
      SPIFlashUnLock (SPIFlashWriteDisable hal (locked s)).2) :
        Option SPIFlashStatus_t × Sys σ) = wrdiFrame :=
    emitted_eq s _ wrdiFrame (by simp)
  exact ⟨⟨rfl, he⟩, ⟨rfl, he⟩, ⟨rfl, he⟩, rfl⟩

/-- Instance of C11 (amended): sector 512, block 32 and page 8192 of the 16 Mbit handle. -/
theorem C11_rejected_call_returns_error_witness :
    (sys16 []).dev.lock = 0 ∧ 0 < 1 ∧ (sys16 []).dev.sectorNum ≤ 512 ∧
    (sys16 []).dev.blockNum ≤ 32 ∧ ((sys16 []).dev.pageNum ≤ 8192 ∨ 256 ≤ 0) ∧
    (((SPIFlashEraseSector idleHal 1 (sys16 []) 512).1 = some SPIFLASH_ERROR ∧
      emitted (sys16 []) (SPIFlashEraseSector idleHal 1 (sys16 []) 512) = wrdiFrame) ∧
    ((SPIFlashEraseBlock idleHal 1 (sys16 []) 32).1 = some SPIFLASH_ERROR ∧
      emitted (sys16 []) (SPIFlashEraseBlock idleHal 1 (sys16 []) 32) = wrdiFrame) ∧
    ((SPIFlashWritePage idleHal 1 (sys16 []) 8192 0 4 0).1 = some SPIFLASH_ERROR ∧
      emitted (sys16 []) (SPIFlashWritePage idleHal 1 (sys16 []) 8192 0 4 0) = wrdiFrame) ∧
    busBytes wrdiFrame = 1) :=
  ⟨by decide, by decide, by decide, by decide, by decide,
    C11_rejected_call_returns_error idleHal 1 (sys16 []) 512 32 8192 0 4 0
      (by decide) (by decide) (by decide) (by decide) (by decide)⟩

theorem WriteSector_rejected (hal : Hal σ) (fuel : Nat) (s : Sys σ)
    (sectorNumber data size offset : Nat) (hl : s.dev.lock = 0) (ho : 4096 ≤ offset) :
    SPIFlashWriteSector hal (fuel + 1) s sectorNumber data size offset =
      (some SPIFLASH_ERROR, SPIFlashUnLock (locked s)) := by
  unfold SPIFlashWriteSector
  rw [Lock_locked hal fuel s hl]
  simp [SECTOR_SIZE_eq, ho]

theorem WriteBlock_rejected (hal : Hal σ) (fuel : Nat) (s : Sys σ)
    (blockNumber data size offset : Nat) (hl : s.dev.lock = 0) (ho : 65536 ≤ offset) :
    SPIFlashWriteBlock hal (fuel + 1) s blockNumber data size offset =
      (some SPIFLASH_ERROR, SPIFlashUnLock (locked s)) := by
  unfold SPIFlashWriteBlock
  rw [Lock_locked hal fuel s hl]
  simp [BLOCK_SIZE_eq, ho]

/-- C12: on a handle with the lock clear, for every sector or block number,
buffer and size, `SPIFlashWriteSector` with offset at or above 4096 and
`SPIFlashWriteBlock` with offset at or above 65536 return `SPIFLASH_ERROR`, make
no bus call at all (zero SPI bytes, no chip-select change) and return with the
lock flag clear. -/
theorem C12_region_write_rejects_offset (hal : Hal σ) (fuel : Nat) (s : Sys σ)
    (sectorNumber blockNumber data size offS offB : Nat)
    (hl : s.dev.lock = 0) (hf : 0 < fuel) (hoS : 4096 ≤ offS) (hoB : 65536 ≤ offB) :
    ((SPIFlashWriteSector hal fuel s sectorNumber data size offS).1 = some SPIFLASH_ERROR ∧
      emitted s (SPIFlashWriteSector hal fuel s sectorNumber data size offS) = [] ∧
      busBytes (emitted s (SPIFlashWriteSector hal fuel s sectorNumber data size offS)) = 0 ∧
      (SPIFlashWriteSector hal fuel s sectorNumber data size offS).2.dev.lock = 0) ∧
    ((SPIFlashWriteBlock hal fuel s blockNumber data size offB).1 = some SPIFLASH_ERROR ∧
      emitted s (SPIFlashWriteBlock hal fuel s blockNumber data size offB) = [] ∧
      busBytes (emitted s (SPIFlashWriteBlock hal fuel s blockNumber data size offB)) = 0 ∧
      (SPIFlashWriteBlock hal fuel s blockNumber data size offB).2.dev.lock = 0) := by
  obtain ⟨f, rfl⟩ : ∃ f, fuel = f + 1 := ⟨fuel - 1, by omega⟩
  rw [WriteSector_rejected hal f s sectorNumber data size offS hl hoS,
    WriteBlock_rejected hal f s blockNumber data size offB hl hoB]
  have he : emitted s ((some SPIFLASH_ERROR, SPIFlashUnLock (locked s)) :
      Option SPIFlashStatus_t × Sys σ) = [] :=
    emitted_eq s _ [] (by simp)
  rw [he]
  exact ⟨⟨rfl, rfl, rfl, rfl⟩, ⟨rfl, rfl, rfl, rfl⟩⟩

/-- Instance of C12: offsets 4096 and 65536 on the 16 Mbit handle. -/
theorem C12_region_write_rejects_offset_witness :
    (sys16 [1, 2]).dev.lock = 0 ∧ 0 < 1 ∧ 4096 ≤ 4096 ∧ 65536 ≤ 65536 ∧
    (((SPIFlashWriteSector idleHal 1 (sys16 [1, 2]) 3 0 2 4096).1 = some SPIFLASH_ERROR ∧
      emitted (sys16 [1, 2]) (SPIFlashWriteSector idleHal 1 (sys16 [1, 2]) 3 0 2 4096) = [] ∧
      busBytes (emitted (sys16 [1, 2])
        (SPIFlashWriteSector idleHal 1 (sys16 [1, 2]) 3 0 2 4096)) = 0 ∧
      (SPIFlashWriteSector idleHal 1 (sys16 [1, 2]) 3 0 2 4096).2.dev.lock = 0) ∧
    ((SPIFlashWriteBlock idleHal 1 (sys16 [1, 2]) 1 0 2 65536).1 = some SPIFLASH_ERROR ∧
      emitted (sys16 [1, 2]) (SPIFlashWriteBlock idleHal 1 (sys16 [1, 2]) 1 0 2 65536) = [] ∧
      busBytes (emitted (sys16 [1, 2])
        (SPIFlashWriteBlock idleHal 1 (sys16 [1, 2]) 1 0 2 65536)) = 0 ∧
      (SPIFlashWriteBlock idleHal 1 (sys16 [1, 2]) 1 0 2 65536).2.dev.lock = 0)) :=
  ⟨by decide, by decide, by decide, by decide,
    C12_region_write_rejects_offset idleHal 1 (sys16 [1, 2]) 3 1 0 2 4096 65536
      (by decide) (by decide) (by decide) (by decide)⟩

/-- C13 (failing input): on the probed 16 Mbit handle (8192 pages, 512 sectors,
32 blocks) the region reads check neither the offset nor the region number:
`SPIFlashReadPage (page 0, 4 bytes, offset 300)`, `SPIFlashReadSector (sector 0,
4 bytes, offset 4096)`, `SPIFlashReadBlock (block 0, 4 bytes, offset 65537)`,
`SPIFlashReadPage (page 8192)`, `SPIFlashReadSector (sector 512)` and
`SPIFlashReadBlock (block 32)` all send a READ DATA frame and return
`SPIFLASH_SUCCESS`. -/
theorem C13_read_out_of_range_is_sent :
    Probed dev16 ∧
    (SPIFlashReadPage idleHal 1 (sys16 []) 0 0 4 300).1 = some SPIFLASH_SUCCESS ∧
    emitted (sys16 []) (SPIFlashReadPage idleHal 1 (sys16 []) 0 0 4 300) =
      [Event.cs 0, Event.xfer [0x03, 0, 0, 0] 100, Event.xfer [0, 0, 0, 0] 2000, Event.cs 1] ∧
    (SPIFlashReadSector idleHal 1 (sys16 []) 0 0 4 4096).1 = some SPIFLASH_SUCCESS ∧
    emitted (sys16 []) (SPIFlashReadSector idleHal 1 (sys16 []) 0 0 4 4096) =
      [Event.cs 0, Event.xfer [0x03, 0, 0, 0] 100, Event.xfer [] 2000, Event.cs 1] ∧
    (SPIFlashReadBlock idleHal 1 (sys16 []) 0 0 4 65537).1 = some SPIFLASH_SUCCESS ∧
    busBytes (emitted (sys16 []) (SPIFlashReadBlock idleHal 1 (sys16 []) 0 0 4 65537)) = 8 ∧
    (SPIFlashReadPage idleHal 1 (sys16 []) 8192 0 4 0).1 = some SPIFLASH_SUCCESS ∧
    emitted (sys16 []) (SPIFlashReadPage idleHal 1 (sys16 []) 8192 0 4 0) =
      [Event.cs 0, Event.xfer [0x03, 0x20, 0, 0] 100, Event.xfer [0, 0, 0, 0] 2000,
        Event.cs 1] ∧
    (SPIFlashReadSector idleHal 1 (sys16 []) 512 0 4 0).1 = some SPIFLASH_SUCCESS ∧
    busBytes (emitted (sys16 []) (SPIFlashReadSector idleHal 1 (sys16 []) 512 0 4 0)) = 8 ∧
    (SPIFlashReadBlock idleHal 1 (sys16 []) 32 0 4 0).1 = some SPIFLASH_SUCCESS ∧
    busBytes (emitted (sys16 []) (SPIFlashReadBlock idleHal 1 (sys16 []) 32 0 4 0)) = 8 := by
  decide

/-! ## Initialisation and identification on test environments -/

/-- C14 (failing input): fresh handle, non-null arguments, every transfer
returning `HAL_OK`.  With the JEDEC answer `AA 40 18` (unknown manufacturer),
`EF 40 21` (unsupported capacity code) or `AA 40 21` (both), `SPIFlashInit`
returns `SPIFLASH_SUCCESS`, with the manufacturer field resp. the size field
set to the error value 0; with the capacity code unsupported the geometry stays
zero.  This holds with and without debug output. -/
theorem C14_init_succeeds_on_unknown_chip :
    ∀ debug : Bool,
      (SPIFlashInit (jedecHal [0xAA, 0x40, 0x18]) debug 30 sysFresh 1 1 1 16).1
        = some SPIFLASH_SUCCESS ∧
      (SPIFlashInit (jedecHal [0xAA, 0x40, 0x18]) debug 30 sysFresh 1 1 1 16).2.dev.manufacturer
        = 0 ∧
      (SPIFlashInit (jedecHal [0xEF, 0x40, 0x21]) debug 30 sysFresh 1 1 1 16).1
        = some SPIFLASH_SUCCESS ∧
      (SPIFlashInit (jedecHal [0xEF, 0x40, 0x21]) debug 30 sysFresh 1 1 1 16).2.dev.size = 0 ∧
      (SPIFlashInit (jedecHal [0xEF, 0x40, 0x21]) debug 30 sysFresh 1 1 1 16).2.dev.blockNum
        = 0 ∧
      (SPIFlashInit (jedecHal [0xAA, 0x40, 0x21]) debug 30 sysFresh 1 1 1 16).1
        = some SPIFLASH_SUCCESS := by
  decide

/-- C15 (failing input): a bus on which every `HAL_SPI_TransmitReceive` call
fails.  `SPIFlashReadAddress (0, 4 bytes)` on the probed 16 Mbit handle returns
`SPIFLASH_SUCCESS` although the command phase and the data phase both failed
(`SPIFlashTransmitReceive` reports `SPIFLASH_TIMEOUT` for each), and
`SPIFlashInit` on a fresh handle returns `SPIFLASH_SUCCESS` although the JEDEC ID
transfer failed. -/
theorem C15_failed_transfer_is_not_reported :
    (SPIFlashTransmitReceive deadHal (sys16 []) [0x03, 0, 0, 0] 100).1 = SPIFLASH_TIMEOUT ∧
    (SPIFlashReadAddress deadHal 1 (sys16 []) 0 0 4).1 = some SPIFLASH_SUCCESS ∧
    emitted (sys16 []) (SPIFlashReadAddress deadHal 1 (sys16 []) 0 0 4) =
      [Event.cs 0, Event.xfer [0x03, 0, 0, 0] 100, Event.xfer [0, 0, 0, 0] 2000, Event.cs 1] ∧
    (∀ debug : Bool,
      (SPIFlashInit deadHal debug 30 sysFresh 1 1 1 16).1 = some SPIFLASH_SUCCESS) := by
  decide

/-- C17 (failing input): the JEDEC answer `1F 40 15` (Atmel).  After
`SPIFlashFindChip`, and after `SPIFlashInit` on a fresh handle, the manufacturer
field is the error value 0, not `0x1F`: the `switch` has no `case` for
`SPIFLASH_MANUFACTURER_ATMEL`.  The other sixteen listed identifiers are kept. -/
theorem C17_atmel_is_not_recognised :
    (∀ debug : Bool,
      (SPIFlashFindChip (jedecHal [0x1F, 0x40, 0x15]) debug sysFresh).2.dev.manufacturer = 0 ∧
      (SPIFlashInit (jedecHal [0x1F, 0x40, 0x15]) debug 30 sysFresh 1 1 1 16).1
        = some SPIFLASH_SUCCESS ∧
      (SPIFlashInit (jedecHal [0x1F, 0x40, 0x15]) debug 30 sysFresh 1 1 1 16).2.dev.manufacturer
        = 0) ∧
    (SPIFlashFindChip.manufacturer { devFresh with manufacturer := 0x1F }).manufacturer = 0 ∧
    (∀ m ∈ [0xEF, 0x01, 0x20, 0xC2, 0xD5, 0xC8, 0x37, 0xBF, 0xAD, 0xA1, 0x8C, 0x89, 0x62,
        0x04, 0x1C, 0x85],
      (SPIFlashFindChip (jedecHal [m, 0x40, 0x15]) false sysFresh).2.dev.manufacturer = m) := by
  decide

/-! ## Address width and capacity code -/

theorem Probed_size_blockNum (d : SPIFlash_t) (h : Probed d) :
    (d.size = 0x11 ∧ d.blockNum = 2) ∨ (d.size = 0x12 ∧ d.blockNum = 4) ∨
    (d.size = 0x13 ∧ d.blockNum = 8) ∨ (d.size = 0x14 ∧ d.blockNum = 16) ∨
    (d.size = 0x15 ∧ d.blockNum = 32) ∨ (d.size = 0x16 ∧ d.blockNum = 64) ∨
    (d.size = 0x17 ∧ d.blockNum = 128) ∨ (d.size = 0x18 ∧ d.blockNum = 256) ∨
    (d.size = 0x19 ∧ d.blockNum = 512) ∨ (d.size = 0x20 ∧ d.blockNum = 1024) := by
  obtain ⟨h0, h1, -, -⟩ := h
  unfold SPIFlashFindChip.size at h1
  split at h1
  · rename_i hs
    exact Or.inl ⟨hs, (congrArg SPIFlash_t.blockNum h1).symm⟩
  split at h1
  · rename_i hs
    exact Or.inr (Or.inl ⟨hs, (congrArg SPIFlash_t.blockNum h1).symm⟩)
  split at h1
  · rename_i hs
    exact Or.inr (Or.inr (Or.inl ⟨hs, (congrArg SPIFlash_t.blockNum h1).symm⟩))
  split at h1
  · rename_i hs
    exact Or.inr (Or.inr (Or.inr (Or.inl ⟨hs, (congrArg SPIFlash_t.blockNum h1).symm⟩)))
  split at h1
  · rename_i hs
    exact Or.inr (Or.inr (Or.inr (Or.inr (Or.inl ⟨hs, (congrArg SPIFlash_t.blockNum h1).symm⟩))))
  split at h1
  · rename_i hs
    exact Or.inr (Or.inr (Or.inr (Or.inr (Or.inr (Or.inl ⟨hs, (congrArg SPIFlash_t.blockNum h1).symm⟩)))))
  split at h1
  · rename_i hs
    exact Or.inr (Or.inr (Or.inr (Or.inr (Or.inr (Or.inr (Or.inl ⟨hs, (congrArg SPIFlash_t.blockNum h1).symm⟩))))))
  split at h1
  · rename_i hs
    exact Or.inr (Or.inr (Or.inr (Or.inr (Or.inr (Or.inr (Or.inr (Or.inl ⟨hs, (congrArg SPIFlash_t.blockNum h1).symm⟩)))))))
  split at h1
  · rename_i hs
    exact Or.inr (Or.inr (Or.inr (Or.inr (Or.inr (Or.inr (Or.inr (Or.inr (Or.inl ⟨hs, (congrArg SPIFlash_t.blockNum h1).symm⟩))))))))
  split at h1
  · rename_i hs
    exact Or.inr (Or.inr (Or.inr (Or.inr (Or.inr (Or.inr (Or.inr (Or.inr (Or.inr (⟨hs, (congrArg SPIFlash_t.blockNum h1).symm⟩)))))))))
  exact absurd (congrArg SPIFlash_t.size h1).symm h0

theorem Probed_wide_iff (d : SPIFlash_t) (h : Probed d) :
    512 ≤ d.blockNum ↔ (d.size = 0x19 ∨ d.size = 0x20) := by
  rcases Probed_size_blockNum d h with h | h | h | h | h | h | h | h | h | h <;>
    obtain ⟨h1, h2⟩ := h <;> rw [h1, h2] <;> decide

theorem programCmd_head (b a : Nat) :
    (programCmd b a).head? = some (if 512 ≤ b then 0x12 else 0x02) := by
  unfold programCmd; split <;> rfl

theorem readCmd_head (b a : Nat) :
    (readCmd b a).head? = some (if 512 ≤ b then 0x13 else 0x03) := by
  unfold readCmd; split <;> rfl

theorem sectorEraseCmd_head (b n : Nat) :
    (sectorEraseCmd b n).head? = some (if 512 ≤ b then 0x21 else 0x20) := by
  unfold sectorEraseCmd; split <;> rfl

theorem blockEraseCmd_head (b n : Nat) :
    (blockEraseCmd b n).head? = some (if 512 ≤ b then 0xDC else 0xD8) := by
  unfold blockEraseCmd; split <;> rfl

/-- What a call has emitted once the operation frame is out, whether or not the
busy-wait that follows has finished. -/
theorem emitted_after_wait (hal : Hal σ) (fuel : Nat) (s s0 : Sys σ) (T : Nat)
    (pre : List Event) (ht : s0.trace = s.trace ++ pre)
    (fin : Sys σ → Sys σ) (hfin : ∀ x : Sys σ, (fin x).trace = x.trace) :
    ∃ rest, emitted s (andThen (SPIFlashWaitForWriting hal fuel s0 T) fun w s3 =>
        (some (if w.toNat ≠ 0 then SPIFLASH_SUCCESS else SPIFLASH_ERROR),
          fin (SPIFlashWriteDisable hal s3).2)) = pre ++ rest := by
  obtain ⟨k, -, hk, -, -⟩ := WaitForWriting_frame hal fuel s0 T
  generalize SPIFlashWaitForWriting hal fuel s0 T = r at hk
  obtain ⟨o, s3⟩ := r
  simp only [] at hk
  cases o with
  | none =>
    refine ⟨polls k, emitted_eq s _ _ ?_⟩
    simp only [andThen_none, hk, ht, List.append_assoc]
  | some w =>
    refine ⟨polls k ++ wrdiFrame, emitted_eq s _ _ ?_⟩
    simp only [andThen_some, hfin, WriteDisable_trace, hk, ht, List.append_assoc]

/-- C16 (counterexample): on the handle probed with capacity code `0x19`
(256 Mbit, 512 blocks) page program, read, sector erase and block erase are sent
with the 4-byte-address opcodes `12`, `13`, `21` and `DC`. -/
theorem C16_code_0x19_uses_four_byte_opcodes :
    Probed dev256 ∧ dev256.size = 0x19 ∧
    (programFrames (emitted (sys256 [1, 2])
      (SPIFlashWritePage idleHal 5 (sys256 [1, 2]) 0 0 2 0))).map (fun f => f.cmd)
      = [[0x12, 0, 0, 0, 0]] ∧
    (readFrames (emitted (sys256 [])
      (SPIFlashReadAddress idleHal 5 (sys256 []) 0 0 2))).map (fun f => f.cmd)
      = [[0x13, 0, 0, 0, 0]] ∧
    emitted (sys256 []) (SPIFlashEraseSector idleHal 5 (sys256 []) 1) =
      cycle (window [Event.xfer [0x21, 0, 0, 0x10, 0] 100]) 1 ∧
    emitted (sys256 []) (SPIFlashEraseBlock idleHal 5 (sys256 []) 1) =
      cycle (window [Event.xfer [0xDC, 0, 1, 0, 0] 100]) 1 := by
  decide

/-- C16 (amended): on a probed handle (supported capacity code in the size
field) with the lock clear, page program, read, sector erase and block erase
send the 4-byte-address opcodes `12`, `13`, `21`, `DC` if and only if the
capacity code is `0x19` or `0x20` (the codes with at least 512 blocks), and the
3-byte-address opcodes `02`, `03`, `20`, `D8` for the codes `0x11` to `0x18`. -/
theorem C16_opcodes_by_capacity_code (hal : Hal σ) (fuel : Nat) (s : Sys σ)
    (page data size offset address sector block : Nat)
    (hp : Probed s.dev) (hl : s.dev.lock = 0) (hf : 0 < fuel)
    (hpage : page < s.dev.pageNum) (hoff : offset < 256)
    (hsec : sector < s.dev.sectorNum) (hblk : block < s.dev.blockNum) :
    (programFrames (emitted s (SPIFlashWritePage hal fuel s page data size offset))).map
        (fun f => f.cmd.head?)
      = [some (if s.dev.size = 0x19 ∨ s.dev.size = 0x20 then 0x12 else 0x02)] ∧
    (readFrames (emitted s (SPIFlashReadAddress hal fuel s address data size))).map
        (fun f => f.cmd.head?)
      = [some (if s.dev.size = 0x19 ∨ s.dev.size = 0x20 then 0x13 else 0x03)] ∧
    (∃ cmd rest, emitted s (SPIFlashEraseSector hal fuel s sector) =
        wrenFrame ++ window [Event.xfer cmd 100] ++ rest ∧
      cmd.head? = some (if s.dev.size = 0x19 ∨ s.dev.size = 0x20 then 0x21 else 0x20)) ∧
    (∃ cmd rest, emitted s (SPIFlashEraseBlock hal fuel s block) =
        wrenFrame ++ window [Event.xfer cmd 100] ++ rest ∧
      cmd.head? = some (if s.dev.size = 0x19 ∨ s.dev.size = 0x20 then 0xDC else 0xD8)) := by
  obtain ⟨f, rfl⟩ : ∃ f, fuel = f + 1 := ⟨fuel - 1, by omega⟩
  have hw := Probed_wide_iff s.dev hp
  refine ⟨?_, ?_, ?_, ?_⟩
  · rw [WritePage_frames hal f s page data size offset hl]
    simp only [WriteFn.frames, hpage, hoff, and_self, if_true, List.map_cons, List.map_nil,
      programCmd_head]
    by_cases h : 512 ≤ s.dev.blockNum
    · rw [if_pos h, if_pos (hw.mp h)]
    · rw [if_neg h, if_neg (fun hh => h (hw.mpr hh))]
  · unfold SPIFlashReadAddress
    obtain ⟨-, h2⟩ := read_spec hal f s address data size hl
    rw [h2, readFrames_readWindow]
    simp only [List.map_cons, List.map_nil, readCmd_head]
    by_cases h : 512 ≤ s.dev.blockNum
    · rw [if_pos h, if_pos (hw.mp h)]
    · rw [if_neg h, if_neg (fun hh => h (hw.mpr hh))]
  · rw [EraseSector_eq hal f s sector hl hsec]
    obtain ⟨rest, hr⟩ := emitted_after_wait hal (f + 1) s
      (afterCommand hal (locked s) (sectorEraseCmd s.dev.blockNum sector)) 1000
      (wrenFrame ++ window [Event.xfer (sectorEraseCmd s.dev.blockNum sector) 100])
      (by simp) SPIFlashUnLock (fun _ => rfl)
    refine ⟨_, rest, hr, ?_⟩
    rw [sectorEraseCmd_head]
    by_cases h : 512 ≤ s.dev.blockNum
    · rw [if_pos h, if_pos (hw.mp h)]
    · rw [if_neg h, if_neg (fun hh => h (hw.mpr hh))]
  · rw [EraseBlock_eq hal f s block hl hblk]
    obtain ⟨rest, hr⟩ := emitted_after_wait hal (f + 1) s
      (afterCommand hal (locked s) (blockEraseCmd s.dev.blockNum block)) 3000
      (wrenFrame ++ window [Event.xfer (blockEraseCmd s.dev.blockNum block) 100])
      (by simp) SPIFlashUnLock (fun _ => rfl)
    refine ⟨_, rest, hr, ?_⟩
    rw [blockEraseCmd_head]
    by_cases h : 512 ≤ s.dev.blockNum
    · rw [if_pos h, if_pos (hw.mp h)]
    · rw [if_neg h, if_neg (fun hh => h (hw.mpr hh))]

/-- Instance of C16 (amended): the handle probed with capacity code `0x19`. -/
theorem C16_opcodes_by_capacity_code_witness :
    Probed (sys256 [1, 2]).dev ∧ (sys256 [1, 2]).dev.lock = 0 ∧ 0 < 5 ∧
    0 < (sys256 [1, 2]).dev.pageNum ∧ 0 < 256 ∧ 1 < (sys256 [1, 2]).dev.sectorNum ∧
    1 < (sys256 [1, 2]).dev.blockNum ∧
    ((programFrames (emitted (sys256 [1, 2])
        (SPIFlashWritePage idleHal 5 (sys256 [1, 2]) 0 0 2 0))).map (fun f => f.cmd.head?)
      = [some (if (sys256 [1, 2]).dev.size = 0x19 ∨ (sys256 [1, 2]).dev.size = 0x20
          then 0x12 else 0x02)] ∧
    (readFrames (emitted (sys256 [1, 2])
        (SPIFlashReadAddress idleHal 5 (sys256 [1, 2]) 0 0 2))).map (fun f => f.cmd.head?)
      = [some (if (sys256 [1, 2]).dev.size = 0x19 ∨ (sys256 [1, 2]).dev.size = 0x20
          then 0x13 else 0x03)] ∧
    (∃ cmd rest, emitted (sys256 [1, 2]) (SPIFlashEraseSector idleHal 5 (sys256 [1, 2]) 1) =
        wrenFrame ++ window [Event.xfer cmd 100] ++ rest ∧
      cmd.head? = some (if (sys256 [1, 2]).dev.size = 0x19 ∨ (sys256 [1, 2]).dev.size = 0x20
          then 0x21 else 0x20)) ∧
    (∃ cmd rest, emitted (sys256 [1, 2]) (SPIFlashEraseBlock idleHal 5 (sys256 [1, 2]) 1) =
        wrenFrame ++ window [Event.xfer cmd 100] ++ rest ∧
      cmd.head? = some (if (sys256 [1, 2]).dev.size = 0x19 ∨ (sys256 [1, 2]).dev.size = 0x20
          then 0xDC else 0xD8))) :=
  ⟨by decide, by decide, by decide, by decide, by decide, by decide, by decide,
    C16_opcodes_by_capacity_code idleHal 5 (sys256 [1, 2]) 0 0 2 0 0 1 1
      (by decide) (by decide) (by decide) (by decide) (by decide) (by decide) (by decide)⟩

/-! ## Geometry set by the probe -/

theorem FindChip_manufacturer_size (d : SPIFlash_t) :
    (SPIFlashFindChip.manufacturer d).size = d.size := by
  unfold SPIFlashFindChip.manufacturer; split <;> rfl

theorem FindChip_manufacturer_blockNum (d : SPIFlash_t) :
    (SPIFlashFindChip.manufacturer d).blockNum = d.blockNum := by
  unfold SPIFlashFindChip.manufacturer; split <;> rfl

@[simp] theorem ReadReg2_dev (hal : Hal σ) (s : Sys σ) :
    (SPIFlashReadReg2 hal s).2.dev = s.dev := rfl

@[simp] theorem ReadReg3_dev (hal : Hal σ) (s : Sys σ) :
    (SPIFlashReadReg3 hal s).2.dev = s.dev := rfl

/-- The block count `SPIFlashFindChip` stores is the one its `switch` picks for
the capacity byte of the JEDEC answer. -/
theorem FindChip_blockNum (hal : Hal σ) (debug : Bool) (s : Sys σ) :
    (SPIFlashFindChip hal debug s).2.dev.blockNum =
      (SPIFlashFindChip.size
        { s.dev with
          manufacturer := (jedecRx hal s).getD 1 0 % 256
          memType := (jedecRx hal s).getD 2 0 % 256
          size := (jedecRx hal s).getD 3 0 % 256 }).blockNum := by
  have hs : ∀ d : SPIFlash_t, (SPIFlashFindChip.size (SPIFlashFindChip.manufacturer d)).blockNum
      = (SPIFlashFindChip.size d).blockNum := by
    intro d
    unfold SPIFlashFindChip.size
    simp only [apply_ite SPIFlash_t.blockNum, FindChip_manufacturer_size,
      FindChip_manufacturer_blockNum]
  unfold SPIFlashFindChip
  cases debug <;> simp [jedecRx, hs]

theorem size_switch_blockNum (d : SPIFlash_t)
    (h : d.size ∈ [0x11, 0x12, 0x13, 0x14, 0x15, 0x16, 0x17, 0x18, 0x19, 0x20]) :
    (d.size = 0x11 ∧ (SPIFlashFindChip.size d).blockNum = 2) ∨
    (d.size = 0x12 ∧ (SPIFlashFindChip.size d).blockNum = 4) ∨
    (d.size = 0x13 ∧ (SPIFlashFindChip.size d).blockNum = 8) ∨
    (d.size = 0x14 ∧ (SPIFlashFindChip.size d).blockNum = 16) ∨
    (d.size = 0x15 ∧ (SPIFlashFindChip.size d).blockNum = 32) ∨
    (d.size = 0x16 ∧ (SPIFlashFindChip.size d).blockNum = 64) ∨
    (d.size = 0x17 ∧ (SPIFlashFindChip.size d).blockNum = 128) ∨
    (d.size = 0x18 ∧ (SPIFlashFindChip.size d).blockNum = 256) ∨
    (d.size = 0x19 ∧ (SPIFlashFindChip.size d).blockNum = 512) ∨
    (d.size = 0x20 ∧ (SPIFlashFindChip.size d).blockNum = 1024) := by
  simp only [List.mem_cons, List.mem_singleton, List.not_mem_nil, or_false] at h
  rcases h with h | h | h | h | h | h | h | h | h | h <;>
    simp [SPIFlashFindChip.size, h]

/-- C18 (counterexample): with the JEDEC answer `EF 40 20` (512 Mbit) the probe
sets 1024 blocks, which is not `2 ^ (0x20 - 0x10) = 65536`. -/
theorem C18_code_0x20_gives_1024_blocks :
    (SPIFlashFindChip (jedecHal [0xEF, 0x40, 0x20]) false sysFresh).2.dev.size = 0x20 ∧
    (SPIFlashFindChip (jedecHal [0xEF, 0x40, 0x20]) false sysFresh).2.dev.blockNum = 1024 ∧
    (SPIFlashFindChip (jedecHal [0xEF, 0x40, 0x20]) false sysFresh).2.dev.blockNum
      ≠ 2 ^ (0x20 - 0x10) := by
  decide

/-- C18 (amended): for every environment and state, if the capacity byte `c`
of the JEDEC answer is a supported code, `SPIFlashFindChip` sets `blockNum` to
`2 ^ (c - 0x10)` for `c` in `0x11 .. 0x19` and to `1024` for `c = 0x20`; in
every case `2 ≤ blockNum ≤ 1024`. -/
theorem C18_block_count_is_power_of_two (hal : Hal σ) (debug : Bool) (s : Sys σ) (c : Nat)
    (hc : (jedecRx hal s).getD 3 0 % 256 = c)
    (hsup : c ∈ [0x11, 0x12, 0x13, 0x14, 0x15, 0x16, 0x17, 0x18, 0x19, 0x20]) :
    (SPIFlashFindChip hal debug s).2.dev.blockNum =
      (if c = 0x20 then 1024 else 2 ^ (c - 0x10)) ∧
    2 ≤ (SPIFlashFindChip hal debug s).2.dev.blockNum ∧
    (SPIFlashFindChip hal debug s).2.dev.blockNum ≤ 1024 := by
  rw [FindChip_blockNum]
  have hsz : ({ s.dev with
      manufacturer := (jedecRx hal s).getD 1 0 % 256
      memType := (jedecRx hal s).getD 2 0 % 256
      size := (jedecRx hal s).getD 3 0 % 256 } : SPIFlash_t).size = c := hc
  generalize ({ s.dev with
      manufacturer := (jedecRx hal s).getD 1 0 % 256
      memType := (jedecRx hal s).getD 2 0 % 256
      size := (jedecRx hal s).getD 3 0 % 256 } : SPIFlash_t) = d at hsz
  subst hsz
  rcases size_switch_blockNum d hsup with h | h | h | h | h | h | h | h | h | h <;>
    obtain ⟨h1, h2⟩ := h <;> rw [h1, h2] <;> decide

/-- Instance of C18 (amended): the JEDEC answer `EF 40 18` gives manufacturer
Winbond (`0xEF`), capacity code `0x18` (128 Mbit), 256 blocks and 3-byte
addressing (fewer than 512 blocks, program opcode `02`). -/
theorem C18_block_count_is_power_of_two_witness :
    (jedecRx (jedecHal [0xEF, 0x40, 0x18]) sysFresh).getD 3 0 % 256 = 0x18 ∧
    0x18 ∈ [0x11, 0x12, 0x13, 0x14, 0x15, 0x16, 0x17, 0x18, 0x19, 0x20] ∧
    ((SPIFlashFindChip (jedecHal [0xEF, 0x40, 0x18]) true sysFresh).2.dev.blockNum =
      (if 0x18 = 0x20 then 1024 else 2 ^ (0x18 - 0x10)) ∧
    2 ≤ (SPIFlashFindChip (jedecHal [0xEF, 0x40, 0x18]) true sysFresh).2.dev.blockNum ∧
    (SPIFlashFindChip (jedecHal [0xEF, 0x40, 0x18]) true sysFresh).2.dev.blockNum ≤ 1024) ∧
    (SPIFlashInit (jedecHal [0xEF, 0x40, 0x18]) true 30 sysFresh 1 1 1 16).1
      = some SPIFLASH_SUCCESS ∧
    (SPIFlashInit (jedecHal [0xEF, 0x40, 0x18]) true 30 sysFresh 1 1 1 16).2.dev =
      { hSPI := 1, GPIO := 1, manufacturer := 0xEF, size := 0x18, memType := 0x40, lock := 0,
        pin := 16, pageNum := 65536, sectorNum := 4096, blockNum := 256 } ∧
    programCmd 256 0 = [0x02, 0, 0, 0] :=
  ⟨by decide, by decide,
    C18_block_count_is_power_of_two (jedecHal [0xEF, 0x40, 0x18]) true sysFresh 0x18
      (by decide) (by decide),
    by decide, by decide, by decide⟩

/-- C19 (counterexample): with the JEDEC answer `EF 40 11` (1 Mbit) the probe
sets 2 blocks, which is not `1 << ((0x11 & 0x0F) + 1) = 4`. -/
theorem C19_code_0x11_gives_2_blocks :
    (SPIFlashFindChip (jedecHal [0xEF, 0x40, 0x11]) false sysFresh).2.dev.size = 0x11 ∧
    (SPIFlashFindChip (jedecHal [0xEF, 0x40, 0x11]) false sysFresh).2.dev.blockNum = 2 ∧
    (SPIFlashFindChip (jedecHal [0xEF, 0x40, 0x11]) false sysFresh).2.dev.blockNum
      ≠ 1 <<< ((0x11 &&& 0x0F) + 1) := by
  decide

/-- C19 (amended): for every environment and state, if the capacity byte `c`
of the JEDEC answer is in `0x11 .. 0x19`, `SPIFlashFindChip` sets `blockNum` to
`1 << (c & 0x0F)`, and for `c = 0x20` it sets `blockNum` to `1024`. -/
theorem C19_block_count_by_low_nibble (hal : Hal σ) (debug : Bool) (s : Sys σ) (c : Nat)
    (hc : (jedecRx hal s).getD 3 0 % 256 = c)
    (hsup : c ∈ [0x11, 0x12, 0x13, 0x14, 0x15, 0x16, 0x17, 0x18, 0x19, 0x20]) :
    (SPIFlashFindChip hal debug s).2.dev.blockNum =
      (if c = 0x20 then 1024 else 1 <<< (c &&& 0x0F)) := by
  rw [FindChip_blockNum]
  have hsz : ({ s.dev with
      manufacturer := (jedecRx hal s).getD 1 0 % 256
      memType := (jedecRx hal s).getD 2 0 % 256
      size := (jedecRx hal s).getD 3 0 % 256 } : SPIFlash_t).size = c := hc
  generalize ({ s.dev with
      manufacturer := (jedecRx hal s).getD 1 0 % 256
      memType := (jedecRx hal s).getD 2 0 % 256
      size := (jedecRx hal s).getD 3 0 % 256 } : SPIFlash_t) = d at hsz
  subst hsz
  rcases size_switch_blockNum d hsup with h | h | h | h | h | h | h | h | h | h <;>
    obtain ⟨h1, h2⟩ := h <;> rw [h1, h2] <;> decide

/-- Instance of C19 (amended): the JEDEC answer `EF 40 11`. -/
theorem C19_block_count_by_low_nibble_witness :
    (jedecRx (jedecHal [0xEF, 0x40, 0x11]) sysFresh).getD 3 0 % 256 = 0x11 ∧
    0x11 ∈ [0x11, 0x12, 0x13, 0x14, 0x15, 0x16, 0x17, 0x18, 0x19, 0x20] ∧
    (SPIFlashFindChip (jedecHal [0xEF, 0x40, 0x11]) false sysFresh).2.dev.blockNum =
      (if 0x11 = 0x20 then 1024 else 1 <<< (0x11 &&& 0x0F)) :=
  ⟨by decide, by decide,
    C19_block_count_by_low_nibble (jedecHal [0xEF, 0x40, 0x11]) false sysFresh 0x11
      (by decide) (by decide)⟩

/-! ## The lock flag during bus calls -/

theorem Held.refl (s : Sys σ) : Held s s :=
  ⟨rfl, [], by simp, by simp, by simp⟩

theorem Held.trans {s t u : Sys σ} (h1 : Held s t) (h2 : Held t u) : Held s u := by
  obtain ⟨d1, e1, l1, m1, t1⟩ := h1
  obtain ⟨d2, e2, l2, m2, t2⟩ := h2
  refine ⟨d2.trans d1, e1 ++ e2, by rw [l2, l1, List.append_assoc], ?_, ?_⟩
  · intro x hx
    rcases List.mem_append.mp hx with h | h
    · exact m1 x h
    · rw [← d1]; exact m2 x h
  · rw [t2, t1, List.length_append]; omega

theorem Held_CSPin (hal : Hal σ) (s : Sys σ) (l : Nat) : Held s (SPIFlashCSPin hal s l) :=
  ⟨rfl, [s.dev.lock], rfl, by simp, by simp⟩

theorem Held_TransmitReceive (hal : Hal σ) (s : Sys σ) (tx : List Nat) (t : Nat) :
    Held s (SPIFlashTransmitReceive hal s tx t).2.2 :=
  ⟨rfl, [s.dev.lock], rfl, by simp, by simp⟩

theorem Held_Delay (hal : Hal σ) (s : Sys σ) (x : Nat) : Held s (SPIFlashDelay hal s x) :=
  ⟨rfl, [], by simp [SPIFlashDelay], by simp, by simp⟩

theorem Held_ram (s : Sys σ) (ram : Nat → Nat) : Held s { s with ram := ram } :=
  ⟨rfl, [], by simp, by simp, by simp⟩

theorem Held_WriteEnable (hal : Hal σ) (s : Sys σ) : Held s (SPIFlashWriteEnable hal s).2 :=
  ((Held_CSPin hal s 0).trans (Held_TransmitReceive hal _ _ _)).trans (Held_CSPin hal _ 1)

theorem Held_WriteDisable (hal : Hal σ) (s : Sys σ) : Held s (SPIFlashWriteDisable hal s).2 :=
  ((Held_CSPin hal s 0).trans (Held_TransmitReceive hal _ _ _)).trans (Held_CSPin hal _ 1)

theorem Held_ReadReg1 (hal : Hal σ) (s : Sys σ) : Held s (SPIFlashReadReg1 hal s).2 :=
  ((Held_CSPin hal s 0).trans (Held_TransmitReceive hal _ _ _)).trans (Held_CSPin hal _ 1)

theorem Held_WaitForWriting_loop (hal : Hal σ) (t0 T : Nat) (fuel : Nat) (s : Sys σ) :
    Held s (SPIFlashWaitForWriting.loop hal t0 T fuel s).2 := by
  induction fuel generalizing s with
  | zero => exact Held.refl s
  | succ n ih =>
    unfold SPIFlashWaitForWriting.loop
    split
    · exact Held.refl s
    · dsimp only
      split
      · exact Held_ReadReg1 hal s
      · exact ((Held_ReadReg1 hal s).trans (Held_Delay hal _ 1)).trans (ih _)

theorem Held_WaitForWriting (hal : Hal σ) (fuel : Nat) (s : Sys σ) (T : Nat) :
    Held s (SPIFlashWaitForWriting hal fuel s T).2 :=
  Held_WaitForWriting_loop hal _ T fuel s

theorem Held_afterCommand (hal : Hal σ) (s : Sys σ) (cmd : List Nat) :
    Held s (afterCommand hal s cmd) :=
  (((Held_WriteEnable hal s).trans (Held_CSPin hal _ 0)).trans
    (Held_TransmitReceive hal _ _ _)).trans (Held_CSPin hal _ 1)

theorem Held_afterProgram (hal : Hal σ) (s : Sys σ) (pageNumber data size offset : Nat) :
    Held s (afterProgram hal s pageNumber data size offset) :=
  (((((Held_WriteEnable hal s).trans (Held_CSPin hal _ 0)).trans
    (Held_TransmitReceive hal _ _ _)).trans (Held_TransmitReceive hal _ _ _)).trans
    (Held_ram _ _)).trans (Held_CSPin hal _ 1)

/-- The busy-wait followed by WRDI keeps the lock as it was. -/
theorem Held_wait_then_wrdi (hal : Hal σ) (fuel : Nat) (s s0 : Sys σ) (T : Nat)
    (f : SPIFlashStatus_t → SPIFlashStatus_t) (h0 : Held s s0) :
    Held s (andThen (SPIFlashWaitForWriting hal fuel s0 T) fun w s3 =>
      (some (f w), (SPIFlashWriteDisable hal s3).2)).2 := by
  have hw := Held_WaitForWriting hal fuel s0 T
  generalize SPIFlashWaitForWriting hal fuel s0 T = r at hw
  obtain ⟨o, s3⟩ := r
  cases o with
  | none => exact h0.trans hw
  | some w => exact (h0.trans hw).trans (Held_WriteDisable hal s3)

theorem Held_WriteFn (hal : Hal σ) (fuel : Nat) (s : Sys σ) (pageNumber data size offset : Nat) :
    Held s (SPIFlashWriteFn hal fuel s pageNumber data size offset).2 := by
  by_cases hacc : pageNumber < s.dev.pageNum ∧ offset < 256
  · rw [WriteFn_accepted hal fuel s pageNumber data size offset hacc.1 hacc.2]
    exact Held_wait_then_wrdi hal fuel s _ 100 _ (Held_afterProgram hal s _ _ _ _)
  · have hrej : s.dev.pageNum ≤ pageNumber ∨ 256 ≤ offset := by omega
    rw [WriteFn_rejected hal fuel s pageNumber data size offset hrej]
    exact Held_WriteDisable hal s

theorem Held_ReadFn (hal : Hal σ) (s : Sys σ) (address data size : Nat) :
    Held s (SPIFlashReadFn hal s address data size).2 := by
  have h : ∀ cmd : List Nat, Held s (SPIFlashCSPin hal
      { (SPIFlashTransmitReceive hal
          (SPIFlashTransmitReceive hal (SPIFlashCSPin hal s 0) cmd 100).2.2
          (ramRead s.ram data size) 2000).2.2 with
        ram := ramWrite s.ram data size
          (SPIFlashTransmitReceive hal
            (SPIFlashTransmitReceive hal (SPIFlashCSPin hal s 0) cmd 100).2.2
            (ramRead s.ram data size) 2000).2.1 } 1) := fun cmd =>
    ((((Held_CSPin hal s 0).trans (Held_TransmitReceive hal _ _ _)).trans
      (Held_TransmitReceive hal _ _ _)).trans (Held_ram _ _)).trans (Held_CSPin hal _ 1)
  unfold SPIFlashReadFn
  by_cases hb : 512 ≤ s.dev.blockNum
  · simpa [hb] using h (SPIFLASH_CMD_READDATA4ADD :: addrBytes4 address)
  · simpa [hb] using h (SPIFLASH_CMD_READDATA3ADD :: addrBytes3 address)

theorem Held_WriteAddress_loop (hal : Hal σ) (fuel data : Nat) (n : Nat) (s : Sys σ)
    (add index remaining : Nat) :
    Held s (SPIFlashWriteAddress.loop hal fuel data n s add index remaining).2 := by
  induction n generalizing s add index remaining with
  | zero => exact Held.refl s
  | succ n ih =>
    unfold SPIFlashWriteAddress.loop
    dsimp only
    generalize (if remaining ≤ SPIFLASH_PAGE_SIZE then remaining
      else sub32 SPIFLASH_PAGE_SIZE (add % SPIFLASH_PAGE_SIZE)) = length
    have hw := Held_WriteFn hal fuel s (SPIFLASH_ADDRESS2PAGE add) (data + index) length
      (add % SPIFLASH_PAGE_SIZE)
    generalize SPIFlashWriteFn hal fuel s (SPIFLASH_ADDRESS2PAGE add) (data + index) length
      (add % SPIFLASH_PAGE_SIZE) = r at hw
    obtain ⟨o, s1⟩ := r
    cases o with
    | none => exact hw
    | some st =>
      simp only [andThen_some]
      split
      · exact hw
      · split
        · exact hw
        · split
          · exact hw.trans (ih _ _ _ _)
          · exact hw

theorem Held_WriteRegion_loop (hal : Hal σ) (fuel data limit : Nat) (n : Nat) (s : Sys σ)
    (bytesWritten pageNumber remainingBytes pageOffset : Nat) :
    Held s (SPIFlashWriteRegion.loop hal fuel data limit n s bytesWritten pageNumber
      remainingBytes pageOffset).2 := by
  induction n generalizing s bytesWritten pageNumber remainingBytes pageOffset with
  | zero => exact Held.refl s
  | succ n ih =>
    unfold SPIFlashWriteRegion.loop
    split
    · dsimp only
      generalize (if remainingBytes > SPIFLASH_PAGE_SIZE then SPIFLASH_PAGE_SIZE
        else remainingBytes) = bytesToWrite
      have hw := Held_WriteFn hal fuel s pageNumber (data + bytesWritten) bytesToWrite pageOffset
      generalize SPIFlashWriteFn hal fuel s pageNumber (data + bytesWritten) bytesToWrite
        pageOffset = r at hw
      obtain ⟨o, s1⟩ := r
      cases o with
      | none => exact hw
      | some st =>
        simp only [andThen_some]
        split
        · exact hw
        · exact hw.trans (ih _ _ _ _ _)
    · exact Held.refl s

theorem locked_lock (s : Sys σ) : (locked s).dev.lock = 1 := rfl

/-- A public operation that got the lock, kept it as it was up to the state
`r.2`, and unlocks when it has a result, satisfies `LockOK`. -/
theorem LockOK_of_Held {α β : Type} (s : Sys σ) (r : Option α × Sys σ) (f : α → β)
    (h : Held (locked s) r.2) :
    LockOK s (andThen r fun a s1 => (some (f a), SPIFlashUnLock s1)) := by
  obtain ⟨hd, ext, hl, hm, ht⟩ := h
  obtain ⟨o, s1⟩ := r
  simp only [] at hd hl hm ht
  have hlog : (andThen (o, s1) fun a s1 => (some (f a), SPIFlashUnLock s1)).2.lockLog
      = s.lockLog ++ ext := by
    cases o <;> exact hl
  have htr : (andThen (o, s1) fun a s1 => (some (f a), SPIFlashUnLock s1)).2.trace.length
      = s.trace.length + ext.length := by
    cases o <;> exact ht
  have hseen : lockSeen s (andThen (o, s1) fun a s1 => (some (f a), SPIFlashUnLock s1)) = ext := by
    simp [lockSeen, hlog]
  refine ⟨?_, ?_, ?_⟩
  · rw [hseen]; exact hm
  · rw [hseen]; simp only [emitted, List.length_drop, htr]; omega
  · intro a ha
    cases o with
    | none => simp at ha
    | some b => rfl

theorem LockOK_wait_then_wrdi (hal : Hal σ) (fuel : Nat) (s s0 : Sys σ) (T : Nat)
    (f : SPIFlashStatus_t → SPIFlashStatus_t) (h0 : Held (locked s) s0) :
    LockOK s (andThen (SPIFlashWaitForWriting hal fuel s0 T) fun w s3 =>
      (some (f w), SPIFlashUnLock (SPIFlashWriteDisable hal s3).2)) := by
  have h := LockOK_of_Held s (andThen (SPIFlashWaitForWriting hal fuel s0 T) fun w s3 =>
      (some (f w), (SPIFlashWriteDisable hal s3).2)) id
    (Held_wait_then_wrdi hal fuel (locked s) s0 T f h0)
  rw [andThen_assoc] at h
  exact h

theorem LockOK_direct {α : Type} (s t : Sys σ) (a : α) (h : Held (locked s) t) :
    LockOK s (some a, SPIFlashUnLock t) :=
  LockOK_of_Held s (some a, t) id h

theorem LockOK_unentered {α : Type} (s : Sys σ) : LockOK s ((none, s) : Option α × Sys σ) :=
  ⟨by simp [lockSeen], by simp [lockSeen, emitted], by intro a ha; simp at ha⟩

theorem LockOK_EraseChip (hal : Hal σ) (fuel : Nat) (s : Sys σ) (hl : s.dev.lock = 0) :
    LockOK s (SPIFlashEraseChip hal fuel s) := by
  cases fuel with
  | zero => exact LockOK_unentered s
  | succ f =>
    rw [EraseChip_eq hal f s hl]
    exact LockOK_wait_then_wrdi hal (f + 1) s _ _ _ (Held_afterCommand hal (locked s) _)

theorem LockOK_EraseSector (hal : Hal σ) (fuel : Nat) (s : Sys σ) (sector : Nat)
    (hl : s.dev.lock = 0) : LockOK s (SPIFlashEraseSector hal fuel s sector) := by
  cases fuel with
  | zero => exact LockOK_unentered s
  | succ f =>
    by_cases h : sector < s.dev.sectorNum
    · rw [EraseSector_eq hal f s sector hl h]
      exact LockOK_wait_then_wrdi hal (f + 1) s _ _ _ (Held_afterCommand hal (locked s) _)
    · rw [EraseSector_rejected hal f s sector hl (by omega)]
      exact LockOK_direct s _ _ (Held_WriteDisable hal (locked s))

theorem LockOK_EraseBlock (hal : Hal σ) (fuel : Nat) (s : Sys σ) (block : Nat)
    (hl : s.dev.lock = 0) : LockOK s (SPIFlashEraseBlock hal fuel s block) := by
  cases fuel with
  | zero => exact LockOK_unentered s
  | succ f =>
    by_cases h : block < s.dev.blockNum
    · rw [EraseBlock_eq hal f s block hl h]
      exact LockOK_wait_then_wrdi hal (f + 1) s _ _ _ (Held_afterCommand hal (locked s) _)
    · rw [EraseBlock_rejected hal f s block hl (by omega)]
      exact LockOK_direct s _ _ (Held_WriteDisable hal (locked s))

theorem LockOK_WriteAddress (hal : Hal σ) (fuel : Nat) (s : Sys σ) (address data size : Nat)
    (hl : s.dev.lock = 0) : LockOK s (SPIFlashWriteAddress hal fuel s address data size) := by
  cases fuel with
  | zero => exact LockOK_unentered s
  | succ f =>
    unfold SPIFlashWriteAddress
    rw [Lock_locked hal f s hl]
    simp only [andThen_some]
    exact LockOK_of_Held s _ id (Held_WriteAddress_loop hal _ _ _ _ _ _ _)

theorem LockOK_WritePage (hal : Hal σ) (fuel : Nat) (s : Sys σ)
    (pageNumber data size offset : Nat) (hl : s.dev.lock = 0) :
    LockOK s (SPIFlashWritePage hal fuel s pageNumber data size offset) := by
  cases fuel with
  | zero => exact LockOK_unentered s
  | succ f =>
    unfold SPIFlashWritePage
    rw [Lock_locked hal f s hl]
    simp only [andThen_some]
    exact LockOK_of_Held s _ id (Held_WriteFn hal _ _ _ _ _ _)

theorem LockOK_WriteSector (hal : Hal σ) (fuel : Nat) (s : Sys σ)
    (sectorNumber data size offset : Nat) (hl : s.dev.lock = 0) :
    LockOK s (SPIFlashWriteSector hal fuel s sectorNumber data size offset) := by
  cases fuel with
  | zero => exact LockOK_unentered s
  | succ f =>
    unfold SPIFlashWriteSector
    rw [Lock_locked hal f s hl]
    simp only [andThen_some]
    refine LockOK_of_Held s _ id ?_
    split
    · exact Held.refl _
    · exact Held_WriteRegion_loop hal _ _ _ _ _ _ _ _ _

theorem LockOK_WriteBlock (hal : Hal σ) (fuel : Nat) (s : Sys σ)
    (blockNumber data size offset : Nat) (hl : s.dev.lock = 0) :
    LockOK s (SPIFlashWriteBlock hal fuel s blockNumber data size offset) := by
  cases fuel with
  | zero => exact LockOK_unentered s
  | succ f =>
    unfold SPIFlashWriteBlock
    rw [Lock_locked hal f s hl]
    simp only [andThen_some]
    refine LockOK_of_Held s _ id ?_
    split
    · exact Held.refl _
    · exact Held_WriteRegion_loop hal _ _ _ _ _ _ _ _ _

theorem LockOK_ReadAddress (hal : Hal σ) (fuel : Nat) (s : Sys σ) (address data size : Nat)
    (hl : s.dev.lock = 0) : LockOK s (SPIFlashReadAddress hal fuel s address data size) := by
  cases fuel with
  | zero => exact LockOK_unentered s
  | succ f =>
    unfold SPIFlashReadAddress
    rw [Lock_locked hal f s hl]
    exact LockOK_direct s _ _ (Held_ReadFn hal (locked s) _ _ _)

theorem LockOK_ReadPage (hal : Hal σ) (fuel : Nat) (s : Sys σ)
    (pageNumber data size offset : Nat) (hl : s.dev.lock = 0) :
    LockOK s (SPIFlashReadPage hal fuel s pageNumber data size offset) := by
  cases fuel with
  | zero => exact LockOK_unentered s
  | succ f =>
    unfold SPIFlashReadPage
    rw [Lock_locked hal f s hl]
    exact LockOK_direct s _ _ (Held_ReadFn hal (locked s) _ _ _)

theorem LockOK_ReadSector (hal : Hal σ) (fuel : Nat) (s : Sys σ)
    (sectorNumber data size offset : Nat) (hl : s.dev.lock = 0) :
    LockOK s (SPIFlashReadSector hal fuel s sectorNumber data size offset) := by
  cases fuel with
  | zero => exact LockOK_unentered s
  | succ f =>
    unfold SPIFlashReadSector
    rw [Lock_locked hal f s hl]
    exact LockOK_direct s _ _ (Held_ReadFn hal (locked s) _ _ _)

theorem LockOK_ReadBlock (hal : Hal σ) (fuel : Nat) (s : Sys σ)
    (blockNumber data size offset : Nat) (hl : s.dev.lock = 0) :
    LockOK s (SPIFlashReadBlock hal fuel s blockNumber data size offset) := by
  cases fuel with
  | zero => exact LockOK_unentered s
  | succ f =>
    unfold SPIFlashReadBlock
    rw [Lock_locked hal f s hl]
    exact LockOK_direct s _ _ (Held_ReadFn hal (locked s) _ _ _)

/-! ## Termination of the public operations -/

theorem Returns_andThen {α β : Type} (r : Option α × Sys σ)
    (k : α → Sys σ → Option β × Sys σ) (hr : Returns r)
    (hk : ∀ a, r.1 = some a → Returns (k a r.2)) : Returns (andThen r k) := by
  obtain ⟨a, ha⟩ := hr
  have h := hk a ha
  obtain ⟨o, t⟩ := r
  simp only [] at ha
  subst ha
  simpa only [andThen_some] using h

theorem ClockRuns_locked (hal : Hal σ) (s : Sys σ) (hc : ClockRuns hal s.dev) :
    ClockRuns hal (locked s).dev := hc

theorem Returns_WaitForWriting (hal : Hal σ) (fuel : Nat) (s : Sys σ) (T : Nat)
    (hc : ClockRuns hal s.dev) (hT : T ≤ 2147483648) (hf : T < fuel) :
    Returns (SPIFlashWaitForWriting hal fuel s T) :=
  WaitForWriting_returns hal fuel s T hc hT hf

theorem Returns_WriteFn (hal : Hal σ) (fuel : Nat) (s : Sys σ) (pageNumber data size offset : Nat)
    (hc : ClockRuns hal s.dev) (hf : 100 < fuel) :
    Returns (SPIFlashWriteFn hal fuel s pageNumber data size offset) := by
  by_cases hacc : pageNumber < s.dev.pageNum ∧ offset < 256
  · rw [WriteFn_accepted hal fuel s pageNumber data size offset hacc.1 hacc.2]
    exact Returns_andThen _ _
      (Returns_WaitForWriting hal fuel _ 100 hc (by omega) hf) (fun a _ => ⟨_, rfl⟩)
  · have hrej : s.dev.pageNum ≤ pageNumber ∨ 256 ≤ offset := by omega
    rw [WriteFn_rejected hal fuel s pageNumber data size offset hrej]
    exact ⟨_, rfl⟩

theorem Returns_WriteAddress_loop (hal : Hal σ) (fuel data : Nat) (d : SPIFlash_t)
    (hc : ClockRuns hal d) (hf : 100 < fuel) :
    ∀ (n : Nat) (s : Sys σ) (add index remaining : Nat), s.dev = d → remaining < n →
      Returns (SPIFlashWriteAddress.loop hal fuel data n s add index remaining) := by
  intro n
  induction n with
  | zero => intro s add index remaining _ h; omega
  | succ n ih =>
    intro s add index remaining hd hr
    unfold SPIFlashWriteAddress.loop
    simp only []
    have hL : sub32 remaining (if remaining ≤ SPIFLASH_PAGE_SIZE then remaining
        else sub32 SPIFLASH_PAGE_SIZE (add % SPIFLASH_PAGE_SIZE)) = 0 ∨
        sub32 remaining (if remaining ≤ SPIFLASH_PAGE_SIZE then remaining
        else sub32 SPIFLASH_PAGE_SIZE (add % SPIFLASH_PAGE_SIZE)) < n := by
      rw [PAGE_SIZE_eq]
      have hm : add % 256 < 256 := Nat.mod_lt _ (by decide)
      generalize add % 256 = o at hm
      unfold sub32
      split <;> omega
    generalize (if remaining ≤ SPIFLASH_PAGE_SIZE then remaining
        else sub32 SPIFLASH_PAGE_SIZE (add % SPIFLASH_PAGE_SIZE)) = L at hL
    refine Returns_andThen _ _ (Returns_WriteFn hal fuel s _ _ _ _ (hd ▸ hc) hf) ?_
    intro a _
    have hdev := (Held_WriteFn hal fuel s (SPIFLASH_ADDRESS2PAGE add) (data + index) L
      (add % SPIFLASH_PAGE_SIZE)).1
    by_cases h1 : a = SPIFLASH_ERROR
    · rw [if_pos h1]; exact ⟨_, rfl⟩
    · rw [if_neg h1]
      by_cases h2 : sub32 remaining L = 0
      · rw [if_pos h2]; exact ⟨_, rfl⟩
      · rw [if_neg h2]
        by_cases h3 : sub32 remaining L > 0
        · rw [if_pos h3]
          exact ih _ _ _ _ (hdev.trans hd) (hL.resolve_left h2)
        · rw [if_neg h3]; exact ⟨_, rfl⟩

theorem Returns_WriteRegion_loop (hal : Hal σ) (fuel data limit : Nat) (d : SPIFlash_t)
    (hc : ClockRuns hal d) (hf : 100 < fuel) :
    ∀ (n : Nat) (s : Sys σ) (bytesWritten pageNumber remainingBytes pageOffset : Nat),
      s.dev = d → remainingBytes < n →
      Returns (SPIFlashWriteRegion.loop hal fuel data limit n s bytesWritten pageNumber
        remainingBytes pageOffset) := by
  intro n
  induction n with
  | zero => intro s _ _ remainingBytes _ _ h; omega
  | succ n ih =>
    intro s bytesWritten pageNumber remainingBytes pageOffset hd hr
    unfold SPIFlashWriteRegion.loop
    by_cases hgo : remainingBytes > 0 ∧ pageNumber < limit
    · rw [if_pos hgo]
      simp only []
      have hL : sub32 remainingBytes (if remainingBytes > SPIFLASH_PAGE_SIZE
          then SPIFLASH_PAGE_SIZE else remainingBytes) < n := by
        have h0 : 0 < remainingBytes := hgo.1
        rw [PAGE_SIZE_eq]
        unfold sub32
        split <;> omega
      generalize (if remainingBytes > SPIFLASH_PAGE_SIZE
          then SPIFLASH_PAGE_SIZE else remainingBytes) = L at hL
      refine Returns_andThen _ _ (Returns_WriteFn hal fuel s _ _ _ _ (hd ▸ hc) hf) ?_
      intro a _
      have hdev := (Held_WriteFn hal fuel s pageNumber (data + bytesWritten) L pageOffset).1
      by_cases h1 : a = SPIFLASH_ERROR
      · rw [if_pos h1]; exact ⟨_, rfl⟩
      · rw [if_neg h1]
        exact ih _ _ _ _ _ (hdev.trans hd) hL
    · rw [if_neg hgo]; exact ⟨_, rfl⟩

theorem Returns_wait_then (hal : Hal σ) (fuel : Nat) (s0 : Sys σ) (T : Nat)
    (k : SPIFlashStatus_t → Sys σ → SPIFlashStatus_t × Sys σ)
    (hc : ClockRuns hal s0.dev) (hT : T ≤ 2147483648) (hf : T < fuel) :
    Returns (andThen (SPIFlashWaitForWriting hal fuel s0 T) fun w s3 =>
      (some (k w s3).1, (k w s3).2)) :=
  Returns_andThen _ _ (Returns_WaitForWriting hal fuel s0 T hc hT hf) (fun _ _ => ⟨_, rfl⟩)

theorem Returns_erases (hal : Hal σ) (fuel : Nat) (s : Sys σ) (num : Nat)
    (hl : s.dev.lock = 0) (hc : ClockRuns hal s.dev) (hb : s.dev.blockNum ≤ 1024)
    (hf : 1024000 < fuel) :
    Returns (SPIFlashEraseChip hal fuel s) ∧ Returns (SPIFlashEraseSector hal fuel s num) ∧
      Returns (SPIFlashEraseBlock hal fuel s num) := by
  obtain ⟨f, rfl⟩ : ∃ f, fuel = f + 1 := ⟨fuel - 1, by omega⟩
  have hT : mul32 s.dev.blockNum 1000 ≤ 1024000 := by
    have h : s.dev.blockNum * 1000 < 4294967296 := by omega
    rw [mul32, Nat.mod_eq_of_lt h]
    omega
  refine ⟨?_, ?_, ?_⟩
  · rw [EraseChip_eq hal f s hl]
    exact Returns_andThen _ _
      (Returns_WaitForWriting hal (f + 1) _ _ hc (by omega) (by omega)) (fun _ _ => ⟨_, rfl⟩)
  · by_cases h : num < s.dev.sectorNum
    · rw [EraseSector_eq hal f s num hl h]
      exact Returns_andThen _ _
        (Returns_WaitForWriting hal (f + 1) _ _ hc (by omega) (by omega)) (fun _ _ => ⟨_, rfl⟩)
    · rw [EraseSector_rejected hal f s num hl (by omega)]
      exact ⟨_, rfl⟩
  · by_cases h : num < s.dev.blockNum
    · rw [EraseBlock_eq hal f s num hl h]
      exact Returns_andThen _ _
        (Returns_WaitForWriting hal (f + 1) _ _ hc (by omega) (by omega)) (fun _ _ => ⟨_, rfl⟩)
    · rw [EraseBlock_rejected hal f s num hl (by omega)]
      exact ⟨_, rfl⟩

theorem Returns_writes (hal : Hal σ) (fuel : Nat) (s : Sys σ) (num address data size offset : Nat)
    (hl : s.dev.lock = 0) (hc : ClockRuns hal s.dev) (hf : 100 < fuel) (hs : size < fuel) :
    Returns (SPIFlashWriteAddress hal fuel s address data size) ∧
      Returns (SPIFlashWritePage hal fuel s num data size offset) ∧
      Returns (SPIFlashWriteSector hal fuel s num data size offset) ∧
      Returns (SPIFlashWriteBlock hal fuel s num data size offset) := by
  obtain ⟨f, rfl⟩ : ∃ f, fuel = f + 1 := ⟨fuel - 1, by omega⟩
  refine ⟨?_, ?_, ?_, ?_⟩
  · unfold SPIFlashWriteAddress
    rw [Lock_locked hal f s hl]
    simp only [andThen_some]
    exact Returns_andThen _ _
      (Returns_WriteAddress_loop hal (f + 1) data _ (ClockRuns_locked hal s hc) hf _ _ _ _ _
        rfl hs)
      (fun _ _ => ⟨_, rfl⟩)
  · unfold SPIFlashWritePage
    rw [Lock_locked hal f s hl]
    simp only [andThen_some]
    exact Returns_andThen _ _ (Returns_WriteFn hal (f + 1) _ _ _ _ _ hc hf) (fun _ _ => ⟨_, rfl⟩)
  · unfold SPIFlashWriteSector
    rw [Lock_locked hal f s hl]
    simp only [andThen_some]
    refine Returns_andThen _ _ ?_ (fun _ _ => ⟨_, rfl⟩)
    split
    · exact ⟨_, rfl⟩
    · refine Returns_WriteRegion_loop hal (f + 1) data _ _ (ClockRuns_locked hal s hc) hf
        _ _ _ _ _ _ rfl ?_
      split <;> omega
  · unfold SPIFlashWriteBlock
    rw [Lock_locked hal f s hl]
    simp only [andThen_some]
    refine Returns_andThen _ _ ?_ (fun _ _ => ⟨_, rfl⟩)
    split
    · exact ⟨_, rfl⟩
    · refine Returns_WriteRegion_loop hal (f + 1) data _ _ (ClockRuns_locked hal s hc) hf
        _ _ _ _ _ _ rfl ?_
      split <;> omega

theorem Returns_reads (hal : Hal σ) (fuel : Nat) (s : Sys σ) (num address data size offset : Nat)
    (hl : s.dev.lock = 0) (hf : 0 < fuel) :
    Returns (SPIFlashReadAddress hal fuel s address data size) ∧
      Returns (SPIFlashReadPage hal fuel s num data size offset) ∧
      Returns (SPIFlashReadSector hal fuel s num data size offset) ∧
      Returns (SPIFlashReadBlock hal fuel s num data size offset) := by
  obtain ⟨f, rfl⟩ : ∃ f, fuel = f + 1 := ⟨fuel - 1, by omega⟩
  refine ⟨?_, ?_, ?_, ?_⟩
  · unfold SPIFlashReadAddress
    rw [Lock_locked hal f s hl]
    exact ⟨_, rfl⟩
  · unfold SPIFlashReadPage
    rw [Lock_locked hal f s hl]
    exact ⟨_, rfl⟩
  · unfold SPIFlashReadSector
    rw [Lock_locked hal f s hl]
    exact ⟨_, rfl⟩
  · unfold SPIFlashReadBlock
    rw [Lock_locked hal f s hl]
    exact ⟨_, rfl⟩

/-- C20: serializer.  Take any HAL (transfers may fail at will), any handle
state whose lock flag is clear, and any arguments.  For each of the eleven
public operations other than init (`publicOps`: the three erases, the four
writes, the four reads): at every chip-select change and every SPI transfer the
operation makes, the lock flag of the handle is 1 (the lock log has one entry
per traced call, all equal to 1), and if the operation returns, the lock flag
is 0 in the state it returns, whatever status it returns.  The operations do
return: when the millisecond counter runs, the block count is at most 1024 and
the fuel exceeds the longest busy-wait (1 024 000 ms) and the size, each of the
eleven has a status. -/
theorem C20_lock_held_during_transfers (hal : Hal σ) (fuel : Nat) (s : Sys σ)
    (num address data size offset : Nat) (hl : s.dev.lock = 0) :
    (∀ r ∈ publicOps hal fuel s num address data size offset, LockOK s r) ∧
    (ClockRuns hal s.dev → s.dev.blockNum ≤ 1024 → 1024000 < fuel → size < fuel →
      ∀ r ∈ publicOps hal fuel s num address data size offset, Returns r) := by
  refine ⟨?_, ?_⟩
  · intro r hr
    simp only [publicOps, List.mem_cons, List.mem_singleton, List.not_mem_nil, or_false] at hr
    rcases hr with h | h | h | h | h | h | h | h | h | h | h <;> subst h
    · exact LockOK_EraseChip hal fuel s hl
    · exact LockOK_EraseSector hal fuel s num hl
    · exact LockOK_EraseBlock hal fuel s num hl
    · exact LockOK_WriteAddress hal fuel s address data size hl
    · exact LockOK_WritePage hal fuel s num data size offset hl
    · exact LockOK_WriteSector hal fuel s num data size offset hl
    · exact LockOK_WriteBlock hal fuel s num data size offset hl
    · exact LockOK_ReadAddress hal fuel s address data size hl
    · exact LockOK_ReadPage hal fuel s num data size offset hl
    · exact LockOK_ReadSector hal fuel s num data size offset hl
    · exact LockOK_ReadBlock hal fuel s num data size offset hl
  · intro hc hb hf hs r hr
    obtain ⟨e1, e2, e3⟩ := Returns_erases hal fuel s num hl hc hb hf
    obtain ⟨w1, w2, w3, w4⟩ :=
      Returns_writes hal fuel s num address data size offset hl hc (by omega) hs
    obtain ⟨r1, r2, r3, r4⟩ :=
      Returns_reads hal fuel s num address data size offset hl (by omega)
    simp only [publicOps, List.mem_cons, List.mem_singleton, List.not_mem_nil, or_false] at hr
    rcases hr with h | h | h | h | h | h | h | h | h | h | h <;> subst h
    · exact e1
    · exact e2
    · exact e3
    · exact w1
    · exact w2
    · exact w3
    · exact w4
    · exact r1
    · exact r2
    · exact r3
    · exact r4

/-- Instance of C20: the sixteen-megabit handle on a flash that is never busy,
sector 0, three bytes at offset 0, fuel 1 024 001.  Every hypothesis holds; the
sector erase and the sector write keep the lock flag at 1 while they drive the
bus and return with the lock flag 0; the sector erase makes twelve traced
calls, each of them with the lock flag at 1. -/
theorem C20_lock_held_during_transfers_witness :
    (sys16 [1, 2, 3]).dev.lock = 0 ∧ ClockRuns idleHal (sys16 [1, 2, 3]).dev ∧
    (sys16 [1, 2, 3]).dev.blockNum ≤ 1024 ∧ 1024000 < 1024001 ∧ 3 < 1024001 ∧
    LockOK (sys16 [1, 2, 3]) (SPIFlashEraseSector idleHal 1024001 (sys16 [1, 2, 3]) 0) ∧
    Returns (SPIFlashEraseSector idleHal 1024001 (sys16 [1, 2, 3]) 0) ∧
    LockOK (sys16 [1, 2, 3]) (SPIFlashWriteSector idleHal 1024001 (sys16 [1, 2, 3]) 0 0 3 0) ∧
    Returns (SPIFlashWriteSector idleHal 1024001 (sys16 [1, 2, 3]) 0 0 3 0) ∧
    lockSeen (sys16 [1, 2, 3]) (SPIFlashEraseSector idleHal 1024001 (sys16 [1, 2, 3]) 0)
      = List.replicate 12 1 :=
  ⟨by decide, idleHal_clockRuns _, by decide, by decide, by decide,
    (C20_lock_held_during_transfers idleHal 1024001 (sys16 [1, 2, 3]) 0 0 0 3 0
      (by decide)).1 _ (by simp [publicOps]),
    (C20_lock_held_during_transfers idleHal 1024001 (sys16 [1, 2, 3]) 0 0 0 3 0
      (by decide)).2 (idleHal_clockRuns _) (by decide) (by decide) (by decide) _
      (by simp [publicOps]),
    (C20_lock_held_during_transfers idleHal 1024001 (sys16 [1, 2, 3]) 0 0 0 3 0
      (by decide)).1 _ (by simp [publicOps]),
    (C20_lock_held_during_transfers idleHal 1024001 (sys16 [1, 2, 3]) 0 0 0 3 0
      (by decide)).2 (idleHal_clockRuns _) (by decide) (by decide) (by decide) _
      (by simp [publicOps]),
    by decide⟩

/-! ## Address width by block count -/

theorem addrBytes_length (a : Nat) : (addrBytes4 a).length = 4 ∧ (addrBytes3 a).length = 3 :=
  ⟨rfl, rfl⟩

/-- C21: address-width dispatch.  For every environment and every handle state
with the lock clear, a page program on an accepted page and offset, a read, a
sector erase and a block erase on an accepted sector resp. block send as
command, in one transfer, the opcode followed by the address bytes: `12`, `13`,
`21`, `DC` with four address bytes (a 5-byte command) if `blockNum ≥ 512`, and
`02`, `03`, `20`, `D8` with three address bytes (a 4-byte command) otherwise.
`SPIFlashEraseChip` sends the single byte `60`, whatever the block count. -/
theorem C21_address_width_dispatch (hal : Hal σ) (fuel : Nat) (s : Sys σ)
    (page data size offset address sector block : Nat)
    (hl : s.dev.lock = 0) (hf : 0 < fuel)
    (hpage : page < s.dev.pageNum) (hoff : offset < 256)
    (hsec : sector < s.dev.sectorNum) (hblk : block < s.dev.blockNum) :
    (programFrames (emitted s (SPIFlashWritePage hal fuel s page data size offset))).map
        (fun f => f.cmd)
      = [if 512 ≤ s.dev.blockNum
          then 0x12 :: addrBytes4 (add32 (SPIFLASH_PAGE2ADDRESS page) offset)
          else 0x02 :: addrBytes3 (add32 (SPIFLASH_PAGE2ADDRESS page) offset)] ∧
    (readFrames (emitted s (SPIFlashReadAddress hal fuel s address data size))).map
        (fun f => f.cmd)
      = [if 512 ≤ s.dev.blockNum then 0x13 :: addrBytes4 address
          else 0x03 :: addrBytes3 address] ∧
    (∃ rest, emitted s (SPIFlashEraseSector hal fuel s sector) =
        wrenFrame ++ window [Event.xfer
          (if 512 ≤ s.dev.blockNum then 0x21 :: addrBytes4 (mul32 sector SPIFLASH_SECTOR_SIZE)
            else 0x20 :: addrBytes3 (mul32 sector SPIFLASH_SECTOR_SIZE)) 100] ++ rest) ∧
    (∃ rest, emitted s (SPIFlashEraseBlock hal fuel s block) =
        wrenFrame ++ window [Event.xfer
          (if 512 ≤ s.dev.blockNum then 0xDC :: addrBytes4 (mul32 block SPIFLASH_BLOCK_SIZE)
            else 0xD8 :: addrBytes3 (mul32 block SPIFLASH_BLOCK_SIZE)) 100] ++ rest) ∧
    (∃ rest, emitted s (SPIFlashEraseChip hal fuel s) =
        wrenFrame ++ window [Event.xfer [0x60] 100] ++ rest) ∧
    (∀ a, (addrBytes4 a).length = 4 ∧ (addrBytes3 a).length = 3) := by
  obtain ⟨f, rfl⟩ : ∃ f, fuel = f + 1 := ⟨fuel - 1, by omega⟩
  refine ⟨?_, ?_, ?_, ?_, ?_, addrBytes_length⟩
  · rw [WritePage_frames hal f s page data size offset hl]
    simp only [WriteFn.frames, hpage, hoff, and_self, if_true, List.map_cons, List.map_nil]
    rfl
  · unfold SPIFlashReadAddress
    obtain ⟨-, h2⟩ := read_spec hal f s address data size hl
    rw [h2, readFrames_readWindow]
    rfl
  · rw [EraseSector_eq hal f s sector hl hsec]
    exact emitted_after_wait hal (f + 1) s
      (afterCommand hal (locked s) (sectorEraseCmd s.dev.blockNum sector)) 1000
      (wrenFrame ++ window [Event.xfer (sectorEraseCmd s.dev.blockNum sector) 100])
      (by simp) SPIFlashUnLock (fun _ => rfl)
  · rw [EraseBlock_eq hal f s block hl hblk]
    exact emitted_after_wait hal (f + 1) s
      (afterCommand hal (locked s) (blockEraseCmd s.dev.blockNum block)) 3000
      (wrenFrame ++ window [Event.xfer (blockEraseCmd s.dev.blockNum block) 100])
      (by simp) SPIFlashUnLock (fun _ => rfl)
  · rw [EraseChip_eq hal f s hl]
    exact emitted_after_wait hal (f + 1) s
      (afterCommand hal (locked s) [SPIFLASH_CMD_CHIPERASE1]) (mul32 s.dev.blockNum 1000)
      (wrenFrame ++ window [Event.xfer [SPIFLASH_CMD_CHIPERASE1] 100])
      (by simp) SPIFlashUnLock (fun _ => rfl)

set_option maxRecDepth 100000 in
/-- Instance of C21: the 16 Mbit handle (32 blocks) sends the 4-byte commands
`02 00 01 04`, `03 00 00 07`, `20 00 10 00`, `D8 01 00 00`; the 256 Mbit handle
(512 blocks) sends the 5-byte commands `12 00 00 01 04` and `DC 00 01 00 00`. -/
theorem C21_address_width_dispatch_witness :
    (sys16 [1, 2]).dev.lock = 0 ∧ 0 < 5 ∧ 1 < (sys16 [1, 2]).dev.pageNum ∧ 4 < 256 ∧
    1 < (sys16 [1, 2]).dev.sectorNum ∧ 1 < (sys16 [1, 2]).dev.blockNum ∧
    (programFrames (emitted (sys16 [1, 2])
        (SPIFlashWritePage idleHal 5 (sys16 [1, 2]) 1 0 2 4))).map (fun f => f.cmd)
      = [[0x02, 0x00, 0x01, 0x04]] ∧
    (readFrames (emitted (sys16 [1, 2])
        (SPIFlashReadAddress idleHal 5 (sys16 [1, 2]) 7 0 2))).map (fun f => f.cmd)
      = [[0x03, 0x00, 0x00, 0x07]] ∧
    (∃ rest, emitted (sys16 [1, 2]) (SPIFlashEraseSector idleHal 5 (sys16 [1, 2]) 1) =
        wrenFrame ++ window [Event.xfer [0x20, 0x00, 0x10, 0x00] 100] ++ rest) ∧
    (∃ rest, emitted (sys16 [1, 2]) (SPIFlashEraseBlock idleHal 5 (sys16 [1, 2]) 1) =
        wrenFrame ++ window [Event.xfer [0xD8, 0x01, 0x00, 0x00] 100] ++ rest) ∧
    (∃ rest, emitted (sys16 [1, 2]) (SPIFlashEraseChip idleHal 5 (sys16 [1, 2])) =
        wrenFrame ++ window [Event.xfer [0x60] 100] ++ rest) ∧
    (programFrames (emitted (sys256 [1, 2])
        (SPIFlashWritePage idleHal 5 (sys256 [1, 2]) 1 0 2 4))).map (fun f => f.cmd)
      = [[0x12, 0x00, 0x00, 0x01, 0x04]] ∧
    (∃ rest, emitted (sys256 [1, 2]) (SPIFlashEraseBlock idleHal 5 (sys256 [1, 2]) 1) =
        wrenFrame ++ window [Event.xfer [0xDC, 0x00, 0x01, 0x00, 0x00] 100] ++ rest) :=
  ⟨by decide, by decide, by decide, by decide, by decide, by decide,
    (C21_address_width_dispatch idleHal 5 (sys16 [1, 2]) 1 0 2 4 7 1 1
      (by decide) (by decide) (by decide) (by decide) (by decide) (by decide)).1,
    (C21_address_width_dispatch idleHal 5 (sys16 [1, 2]) 1 0 2 4 7 1 1
      (by decide) (by decide) (by decide) (by decide) (by decide) (by decide)).2.1,
    (C21_address_width_dispatch idleHal 5 (sys16 [1, 2]) 1 0 2 4 7 1 1
      (by decide) (by decide) (by decide) (by decide) (by decide) (by decide)).2.2.1,
    (C21_address_width_dispatch idleHal 5 (sys16 [1, 2]) 1 0 2 4 7 1 1
      (by decide) (by decide) (by decide) (by decide) (by decide) (by decide)).2.2.2.1,
    (C21_address_width_dispatch idleHal 5 (sys16 [1, 2]) 1 0 2 4 7 1 1
      (by decide) (by decide) (by decide) (by decide) (by decide) (by decide)).2.2.2.2.1,
    (C21_address_width_dispatch idleHal 5 (sys256 [1, 2]) 1 0 2 4 7 1 1
      (by decide) (by decide) (by decide) (by decide) (by decide) (by decide)).1,
    (C21_address_width_dispatch idleHal 5 (sys256 [1, 2]) 1 0 2 4 7 1 1
      (by decide) (by decide) (by decide) (by decide) (by decide) (by decide)).2.2.2.1⟩

/-! ## Address bytes of the accepted operations -/

theorem frameAddress_addrBytes4 (op a : Nat) (h : a < 4294967296) :
    frameAddress (op :: addrBytes4 a) = a := by
  simp only [frameAddress, addrBytes4_eq, List.tail_cons, List.foldl_cons, List.foldl_nil]
  omega

theorem frameAddress_addrBytes3 (op a : Nat) (h : a < 16777216) :
    frameAddress (op :: addrBytes3 a) = a := by
  simp only [frameAddress, addrBytes3_eq, List.tail_cons, List.foldl_cons, List.foldl_nil]
  omega

theorem frameAddress_sectorEraseCmd (b n : Nat) (h4 : n * 4096 < 4294967296)
    (h3 : b < 512 → n * 4096 < 16777216) :
    frameAddress (sectorEraseCmd b n) = n * 4096 := by
  have hm : mul32 n SPIFLASH_SECTOR_SIZE = n * 4096 := by
    rw [SECTOR_SIZE_eq, mul32, Nat.mod_eq_of_lt h4]
  unfold sectorEraseCmd
  rw [hm]
  split
  · exact frameAddress_addrBytes4 _ _ h4
  · exact frameAddress_addrBytes3 _ _ (h3 (by omega))

theorem frameAddress_blockEraseCmd (b n : Nat) (h4 : n * 65536 < 4294967296)
    (h3 : b < 512 → n * 65536 < 16777216) :
    frameAddress (blockEraseCmd b n) = n * 65536 := by
  have hm : mul32 n SPIFLASH_BLOCK_SIZE = n * 65536 := by
    rw [BLOCK_SIZE_eq, mul32, Nat.mod_eq_of_lt h4]
  unfold blockEraseCmd
  rw [hm]
  split
  · exact frameAddress_addrBytes4 _ _ h4
  · exact frameAddress_addrBytes3 _ _ (h3 (by omega))

/-- C22: the address encoding loses nothing on accepted operations.  On a
probed handle (supported capacity code) with the lock clear, for a page below
`pageNum` and an offset below 256, a sector below `sectorNum` and a block below
`blockNum`: the one program frame of `SPIFlashWritePage` carries, read most
significant byte first, the byte address `page * 256 + offset`; the erase
command of `SPIFlashEraseSector` carries `sector * 4096` and the one of
`SPIFlashEraseBlock` carries `block * 65536`, computed in the natural numbers:
no high address bit is dropped in 3-byte mode or in 4-byte mode, and nothing
wraps around modulo `2 ^ 32`. -/
theorem C22_address_encoding_lossless (hal : Hal σ) (fuel : Nat) (s : Sys σ)
    (page data size offset sector block : Nat)
    (hp : Probed s.dev) (hl : s.dev.lock = 0) (hf : 0 < fuel)
    (hpage : page < s.dev.pageNum) (hoff : offset < 256)
    (hsec : sector < s.dev.sectorNum) (hblk : block < s.dev.blockNum) :
    (programFrames (emitted s (SPIFlashWritePage hal fuel s page data size offset))).map
        (fun f => frameAddress f.cmd) = [page * 256 + offset] ∧
    (∃ cmd rest, emitted s (SPIFlashEraseSector hal fuel s sector) =
        wrenFrame ++ window [Event.xfer cmd 100] ++ rest ∧
      frameAddress cmd = sector * 4096) ∧
    (∃ cmd rest, emitted s (SPIFlashEraseBlock hal fuel s block) =
        wrenFrame ++ window [Event.xfer cmd 100] ++ rest ∧
      frameAddress cmd = block * 65536) := by
  obtain ⟨f, rfl⟩ : ∃ f, fuel = f + 1 := ⟨fuel - 1, by omega⟩
  obtain ⟨hb, hsn, hpn⟩ := Probed_geometry s.dev hp
  have hb1 : s.dev.blockNum ≤ 1024 := by omega
  have hb2 : s.dev.blockNum < 512 → s.dev.blockNum ≤ 256 := by omega
  clear hb
  refine ⟨?_, ?_, ?_⟩
  · rw [WritePage_frames hal f s page data size offset hl]
    simp only [WriteFn.frames, hpage, hoff, and_self, if_true, List.map_cons, List.map_nil]
    have ha : add32 (SPIFLASH_PAGE2ADDRESS page) offset = page * 256 + offset := by
      simp only [add32, SPIFLASH_PAGE2ADDRESS, shl32, Nat.shiftLeft_eq]
      omega
    rw [ha, frameAddress_programCmd _ _ (by omega) (fun h => by have := hb2 h; omega)]
  · rw [EraseSector_eq hal f s sector hl hsec]
    obtain ⟨rest, hr⟩ := emitted_after_wait hal (f + 1) s
      (afterCommand hal (locked s) (sectorEraseCmd s.dev.blockNum sector)) 1000
      (wrenFrame ++ window [Event.xfer (sectorEraseCmd s.dev.blockNum sector) 100])
      (by simp) SPIFlashUnLock (fun _ => rfl)
    exact ⟨_, rest, hr, frameAddress_sectorEraseCmd _ _ (by omega)
      (fun h => by have := hb2 h; omega)⟩
  · rw [EraseBlock_eq hal f s block hl hblk]
    obtain ⟨rest, hr⟩ := emitted_after_wait hal (f + 1) s
      (afterCommand hal (locked s) (blockEraseCmd s.dev.blockNum block)) 3000
      (wrenFrame ++ window [Event.xfer (blockEraseCmd s.dev.blockNum block) 100])
      (by simp) SPIFlashUnLock (fun _ => rfl)
    exact ⟨_, rest, hr, frameAddress_blockEraseCmd _ _ (by omega)
      (fun h => by have := hb2 h; omega)⟩

set_option maxRecDepth 100000 in
/-- Instance of C22: the handle probed with capacity code `0x20` (1024 blocks).
Page `0x010203` at offset 4 is byte address `0x01020304`; and
`SPIFlashWriteAddress (0x01020304, one byte 0x00)` sends the program command
`12 01 02 03 04`. -/
theorem C22_address_encoding_lossless_witness :
    Probed (sys512 [0]).dev ∧ (sys512 [0]).dev.lock = 0 ∧ 0 < 5 ∧
    0x010203 < (sys512 [0]).dev.pageNum ∧ 4 < 256 ∧ 0x1020 < (sys512 [0]).dev.sectorNum ∧
    0x102 < (sys512 [0]).dev.blockNum ∧
    ((programFrames (emitted (sys512 [0])
        (SPIFlashWritePage idleHal 5 (sys512 [0]) 0x010203 0 1 4))).map
        (fun f => frameAddress f.cmd) = [0x010203 * 256 + 4] ∧
    (∃ cmd rest, emitted (sys512 [0]) (SPIFlashEraseSector idleHal 5 (sys512 [0]) 0x1020) =
        wrenFrame ++ window [Event.xfer cmd 100] ++ rest ∧
      frameAddress cmd = 0x1020 * 4096) ∧
    (∃ cmd rest, emitted (sys512 [0]) (SPIFlashEraseBlock idleHal 5 (sys512 [0]) 0x102) =
        wrenFrame ++ window [Event.xfer cmd 100] ++ rest ∧
      frameAddress cmd = 0x102 * 65536)) ∧
    programFrames (emitted (sys512 [0])
        (SPIFlashWriteAddress idleHal 5 (sys512 [0]) 0x01020304 0 1))
      = [DataFrame.mk [0x12, 0x01, 0x02, 0x03, 0x04] [0x00]] :=
  ⟨by decide, by decide, by decide, by decide, by decide, by decide, by decide,
    C22_address_encoding_lossless idleHal 5 (sys512 [0]) 0x010203 0 1 4 0x1020 0x102
      (by decide) (by decide) (by decide) (by decide) (by decide) (by decide) (by decide),
    by decide⟩

/-! ## The busy-wait, iteration by iteration -/

theorem WaitForWriting_loop_iter (hal : Hal σ) (t0 T : Nat) :
    ∀ (k fuel : Nat) (s : Sys σ), k < fuel →
      (∀ j, j < k → sub32 (SPIFlashGetTick hal (waitIter hal j s)) t0 < T ∧
        (SPIFlashReadReg1 hal (waitIter hal j s)).1 &&& SPIFlashSTATUS1_BUSY ≠ 0) →
      SPIFlashWaitForWriting.loop hal t0 T fuel s =
        if T ≤ sub32 (SPIFlashGetTick hal (waitIter hal k s)) t0
          then (some SPIFLASH_TIMEOUT, waitIter hal k s)
        else if (SPIFlashReadReg1 hal (waitIter hal k s)).1 &&& SPIFlashSTATUS1_BUSY = 0
          then (some SPIFLASH_SUCCESS, (SPIFlashReadReg1 hal (waitIter hal k s)).2)
        else SPIFlashWaitForWriting.loop hal t0 T (fuel - k - 1) (waitIter hal (k + 1) s) := by
  intro k
  induction k with
  | zero =>
    intro fuel s hk _
    obtain ⟨f, rfl⟩ : ∃ f, fuel = f + 1 := ⟨fuel - 1, by omega⟩
    rfl
  | succ k ih =>
    intro fuel s hk hpre
    obtain ⟨f, rfl⟩ : ∃ f, fuel = f + 1 := ⟨fuel - 1, by omega⟩
    obtain ⟨h1, h2⟩ := hpre 0 (by omega)
    have hstep : SPIFlashWaitForWriting.loop hal t0 T (f + 1) s =
        SPIFlashWaitForWriting.loop hal t0 T f
          (SPIFlashDelay hal (SPIFlashReadReg1 hal s).2 1) := by
      have h1n : ¬ (sub32 (SPIFlashGetTick hal s) t0 ≥ T) := by
        have : sub32 (SPIFlashGetTick hal s) t0 < T := h1
        omega
      have h2n : (SPIFlashReadReg1 hal s).1 &&& SPIFlashSTATUS1_BUSY ≠ 0 := h2
      conv_lhs => unfold SPIFlashWaitForWriting.loop
      simp only [h1n, h2n, if_false]
    rw [hstep, ih f (SPIFlashDelay hal (SPIFlashReadReg1 hal s).2 1) (by omega)
      (fun j hj => hpre (j + 1) (by omega))]
    have hf : f + 1 - (k + 1) - 1 = f - k - 1 := by omega
    rw [hf]
    rfl

theorem WaitForWriting_loop_result (hal : Hal σ) (t0 T : Nat) :
    ∀ (fuel : Nat) (s : Sys σ) (st : SPIFlashStatus_t),
      (SPIFlashWaitForWriting.loop hal t0 T fuel s).1 = some st →
      ∃ k, k < fuel ∧
        (∀ j, j < k → sub32 (SPIFlashGetTick hal (waitIter hal j s)) t0 < T ∧
          (SPIFlashReadReg1 hal (waitIter hal j s)).1 &&& SPIFlashSTATUS1_BUSY ≠ 0) ∧
        ((st = SPIFLASH_TIMEOUT ∧ T ≤ sub32 (SPIFlashGetTick hal (waitIter hal k s)) t0) ∨
          (st = SPIFLASH_SUCCESS ∧ sub32 (SPIFlashGetTick hal (waitIter hal k s)) t0 < T ∧
            (SPIFlashReadReg1 hal (waitIter hal k s)).1 &&& SPIFlashSTATUS1_BUSY = 0)) := by
  intro fuel
  induction fuel with
  | zero =>
    intro s st h
    simp [SPIFlashWaitForWriting.loop] at h
  | succ f ih =>
    intro s st h
    unfold SPIFlashWaitForWriting.loop at h
    by_cases h1 : sub32 (SPIFlashGetTick hal s) t0 ≥ T
    · rw [if_pos h1] at h
      refine ⟨0, by omega, fun j hj => absurd hj (Nat.not_lt_zero j), Or.inl ⟨?_, h1⟩⟩
      exact (Option.some.inj h).symm
    · rw [if_neg h1] at h
      simp only [] at h
      by_cases h2 : (SPIFlashReadReg1 hal s).1 &&& SPIFlashSTATUS1_BUSY = 0
      · rw [if_pos h2] at h
        refine ⟨0, by omega, fun j hj => absurd hj (Nat.not_lt_zero j),
          Or.inr ⟨(Option.some.inj h).symm, ?_, h2⟩⟩
        show sub32 (SPIFlashGetTick hal s) t0 < T
        omega
      · rw [if_neg h2] at h
        obtain ⟨k, hk, hpre, hres⟩ := ih _ st h
        refine ⟨k + 1, by omega, ?_, hres⟩
        intro j hj
        cases j with
        | zero =>
          refine ⟨?_, h2⟩
          show sub32 (SPIFlashGetTick hal s) t0 < T
          omega
        | succ j => exact hpre j (by omega)

theorem sub32_int (a b : Nat) :
    (sub32 a b : Int) = ((a : Int) - (b : Int)) % 4294967296 := by
  unfold sub32
  omega

theorem sub32_wrap (t0 e : Nat) (he : e < 4294967296) :
    sub32 ((t0 + e) % 4294967296) t0 = e := by
  unfold sub32
  omega

/-- C23: the busy-wait over the 32-bit millisecond counter.  For a wait entered
in `s` with timeout `T`, let iteration `k` be reached when every earlier
iteration found the elapsed time below `T` and STATUS1 busy.  Then, with fuel
for more than `k` iterations: if the timeout check of iteration `k` finds
`(now - t0) mod 2 ^ 32 ≥ T` the wait returns `SPIFLASH_TIMEOUT` there (without
a further status read), and if it finds less and the STATUS1 read of iteration
`k` has bit 0 clear the wait returns `SPIFLASH_SUCCESS` there.  Conversely
every status the wait returns arises in one of these two ways, so it is never
`SPIFLASH_ERROR`.  The value compared with `T` is `(now - t0) mod 2 ^ 32`, and
when the counter reads `(t0 + e) mod 2 ^ 32` after a true elapsed time
`e < 2 ^ 32`, wrapped or not, the value compared is `e` itself: with `e < T`
the check does not fire. -/
theorem C23_busy_wait_wraparound (hal : Hal σ) (fuel : Nat) (s : Sys σ) (T : Nat) :
    (∀ k, k < fuel → (∀ j, j < k → waitElapsed hal s j < T ∧ waitBusy hal s j) →
      (T ≤ waitElapsed hal s k →
        SPIFlashWaitForWriting hal fuel s T = (some SPIFLASH_TIMEOUT, waitIter hal k s)) ∧
      (waitElapsed hal s k < T → ¬ waitBusy hal s k →
        SPIFlashWaitForWriting hal fuel s T =
          (some SPIFLASH_SUCCESS, (SPIFlashReadReg1 hal (waitIter hal k s)).2))) ∧
    (∀ st, (SPIFlashWaitForWriting hal fuel s T).1 = some st →
      ∃ k, k < fuel ∧ (∀ j, j < k → waitElapsed hal s j < T ∧ waitBusy hal s j) ∧
        ((st = SPIFLASH_TIMEOUT ∧ T ≤ waitElapsed hal s k) ∨
          (st = SPIFLASH_SUCCESS ∧ waitElapsed hal s k < T ∧ ¬ waitBusy hal s k))) ∧
    (∀ k, (waitElapsed hal s k : Int) =
      ((SPIFlashGetTick hal (waitIter hal k s) : Int) - (SPIFlashGetTick hal s : Int))
        % 4294967296) ∧
    (∀ k e, e < 4294967296 →
      SPIFlashGetTick hal (waitIter hal k s) = (SPIFlashGetTick hal s + e) % 4294967296 →
      waitElapsed hal s k = e) := by
  refine ⟨?_, ?_, ?_, ?_⟩
  · intro k hk hpre
    have h := WaitForWriting_loop_iter hal (SPIFlashGetTick hal s) T k fuel s hk hpre
    refine ⟨fun hT => ?_, fun hT hb => ?_⟩
    · have hT1 : T ≤ sub32 (SPIFlashGetTick hal (waitIter hal k s)) (SPIFlashGetTick hal s) :=
        hT
      unfold SPIFlashWaitForWriting
      rw [h, if_pos hT1]
    · have hT2 : ¬ T ≤ sub32 (SPIFlashGetTick hal (waitIter hal k s)) (SPIFlashGetTick hal s) := by
        unfold waitElapsed at hT
        omega
      have hb2 : (SPIFlashReadReg1 hal (waitIter hal k s)).1 &&& SPIFlashSTATUS1_BUSY = 0 :=
        not_not.mp hb
      unfold SPIFlashWaitForWriting
      rw [h, if_neg hT2, if_pos hb2]
  · intro st hst
    obtain ⟨k, hk, hpre, hres⟩ :=
      WaitForWriting_loop_result hal (SPIFlashGetTick hal s) T fuel s st hst
    refine ⟨k, hk, hpre, ?_⟩
    rcases hres with ⟨h1, h2⟩ | ⟨h1, h2, h3⟩
    · exact Or.inl ⟨h1, h2⟩
    · exact Or.inr ⟨h1, h2, not_not.mpr h3⟩
  · intro k
    exact sub32_int _ _
  · intro k e he hnow
    unfold waitElapsed
    rw [hnow]
    exact sub32_wrap _ _ he

set_option maxRecDepth 100000 in
/-- Instance of C23: the wait is entered at tick `2 ^ 32 - 5` with timeout 100
on a flash that is busy until the counter has wrapped.  Iterations 0 to 4 find
the flash busy; at iteration 5 the counter reads 0, numerically below the start
tick, the computed elapsed time is 5, and the wait returns `SPIFLASH_SUCCESS`. -/
theorem C23_busy_wait_wraparound_witness :
    5 < 200 ∧
    waitBusy wrapHal sysWrap 0 ∧ waitBusy wrapHal sysWrap 1 ∧ waitBusy wrapHal sysWrap 2 ∧
    waitBusy wrapHal sysWrap 3 ∧ waitBusy wrapHal sysWrap 4 ∧
    waitElapsed wrapHal sysWrap 4 = 4 ∧
    SPIFlashGetTick wrapHal sysWrap = 4294967291 ∧
    SPIFlashGetTick wrapHal (waitIter wrapHal 5 sysWrap) = 0 ∧
    waitElapsed wrapHal sysWrap 5 = 5 ∧ ¬ waitBusy wrapHal sysWrap 5 ∧
    SPIFlashWaitForWriting wrapHal 200 sysWrap 100 =
      (some SPIFLASH_SUCCESS, (SPIFlashReadReg1 wrapHal (waitIter wrapHal 5 sysWrap)).2) :=
  ⟨by decide, by decide, by decide, by decide, by decide, by decide, by decide, by decide,
    by decide, by decide, by decide,
    ((C23_busy_wait_wraparound wrapHal 200 sysWrap 100).1 5 (by decide) (by decide)).2
      (by decide) (by decide)⟩

/-! ## Closed chip-select windows -/

theorem csRun_append (q : CsState) (a b : List Event) :
    csRun q (a ++ b) = (csRun q a).bind fun q1 => csRun q1 b := by
  induction a generalizing q with
  | nil => rfl
  | cons e a ih =>
    simp only [List.cons_append, csRun]
    cases csStep q e with
    | none => rfl
    | some q1 => exact ih q1

theorem Disciplined_nil : Disciplined [] := rfl

theorem Disciplined_append {a b : List Event} (ha : Disciplined a) (hb : Disciplined b) :
    Disciplined (a ++ b) := by
  unfold Disciplined at *
  rw [csRun_append, ha]
  exact hb

theorem Disciplined_command (cmd : List Nat) (h : cmd ≠ []) :
    Disciplined (window [Event.xfer cmd 100]) := by
  simp [Disciplined, window, csRun, csStep, h]

theorem Disciplined_data (cmd payload : List Nat) (t : Nat) (h : cmd ≠ [])
    (ht : t = 1000 ∨ t = 2000) :
    Disciplined (window [Event.xfer cmd 100, Event.xfer payload t]) := by
  simp [Disciplined, window, csRun, csStep, h, ht]

theorem Disciplined_wren : Disciplined wrenFrame := by decide

theorem Disciplined_wrdi : Disciplined wrdiFrame := by decide

theorem Disciplined_poll : Disciplined pollFrame := by decide

theorem Disciplined_polls (k : Nat) : Disciplined (polls k) := by
  induction k with
  | zero => exact Disciplined_nil
  | succ k ih => exact Disciplined_append Disciplined_poll ih

theorem programCmd_ne_nil (b a : Nat) : programCmd b a ≠ [] := by
  unfold programCmd; split <;> simp

theorem readCmd_ne_nil (b a : Nat) : readCmd b a ≠ [] := by
  unfold readCmd; split <;> simp

theorem sectorEraseCmd_ne_nil (b n : Nat) : sectorEraseCmd b n ≠ [] := by
  unfold sectorEraseCmd; split <;> simp

theorem blockEraseCmd_ne_nil (b n : Nat) : blockEraseCmd b n ≠ [] := by
  unfold blockEraseCmd; split <;> simp

theorem Closed_refl (s : Sys σ) : Closed s s := ⟨rfl, [], by simp, Disciplined_nil⟩

theorem Closed_trans {s t u : Sys σ} (h1 : Closed s t) (h2 : Closed t u) : Closed s u := by
  obtain ⟨hd1, e1, ht1, hc1⟩ := h1
  obtain ⟨hd2, e2, ht2, hc2⟩ := h2
  exact ⟨hd2.trans hd1, e1 ++ e2, by rw [ht2, ht1, List.append_assoc],
    Disciplined_append hc1 hc2⟩

theorem Closed_of (s t : Sys σ) (ext : List Event) (hd : t.dev = s.dev)
    (ht : t.trace = s.trace ++ ext) (hc : Disciplined ext) : Closed s t :=
  ⟨hd, ext, ht, hc⟩

theorem Closed_WriteDisable (hal : Hal σ) (s : Sys σ) :
    Closed s (SPIFlashWriteDisable hal s).2 :=
  Closed_of _ _ wrdiFrame rfl (WriteDisable_trace hal s) Disciplined_wrdi

theorem Closed_afterCommand (hal : Hal σ) (s : Sys σ) (cmd : List Nat)
    (h : cmd.take (halSize cmd.length) ≠ []) :
    Closed s (afterCommand hal s cmd) :=
  Closed_of _ _ _ rfl (afterCommand_trace hal s cmd)
    (Disciplined_append Disciplined_wren (Disciplined_command _ h))

theorem Closed_afterProgram (hal : Hal σ) (s : Sys σ) (pageNumber data size offset : Nat) :
    Closed s (afterProgram hal s pageNumber data size offset) :=
  Closed_of _ _ _ rfl (afterProgram_trace hal s pageNumber data size offset)
    (Disciplined_append Disciplined_wren
      (Disciplined_data _ _ 1000 (programCmd_ne_nil _ _) (Or.inl rfl)))

theorem Closed_WaitForWriting (hal : Hal σ) (fuel : Nat) (s : Sys σ) (T : Nat) :
    Closed s (SPIFlashWaitForWriting hal fuel s T).2 := by
  obtain ⟨k, -, ht, hd, -⟩ := WaitForWriting_frame hal fuel s T
  exact Closed_of _ _ (polls k) hd ht (Disciplined_polls k)

theorem Closed_wait_then_wrdi (hal : Hal σ) (fuel : Nat) (s s0 : Sys σ) (T : Nat)
    (f : SPIFlashStatus_t → SPIFlashStatus_t) (h0 : Closed s s0) :
    Closed s (andThen (SPIFlashWaitForWriting hal fuel s0 T) fun w s3 =>
      (some (f w), (SPIFlashWriteDisable hal s3).2)).2 := by
  have hw := Closed_WaitForWriting hal fuel s0 T
  generalize SPIFlashWaitForWriting hal fuel s0 T = r at hw
  obtain ⟨o, s3⟩ := r
  cases o with
  | none => exact Closed_trans h0 hw
  | some w => exact Closed_trans (Closed_trans h0 hw) (Closed_WriteDisable hal s3)

theorem Closed_WriteFn (hal : Hal σ) (fuel : Nat) (s : Sys σ) (pageNumber data size offset : Nat) :
    Closed s (SPIFlashWriteFn hal fuel s pageNumber data size offset).2 := by
  by_cases hacc : pageNumber < s.dev.pageNum ∧ offset < 256
  · rw [WriteFn_accepted hal fuel s pageNumber data size offset hacc.1 hacc.2]
    exact Closed_wait_then_wrdi hal fuel s _ 100 _ (Closed_afterProgram hal s _ _ _ _)
  · have hrej : s.dev.pageNum ≤ pageNumber ∨ 256 ≤ offset := by omega
    rw [WriteFn_rejected hal fuel s pageNumber data size offset hrej]
    exact Closed_WriteDisable hal s

theorem Closed_ReadFn (hal : Hal σ) (s : Sys σ) (address data size : Nat) :
    Closed s (SPIFlashReadFn hal s address data size).2 := by
  obtain ⟨-, ht, hd⟩ := ReadFn_spec hal s address data size
  exact Closed_of _ _ _ hd ht (Disciplined_data _ _ 2000 (readCmd_ne_nil _ _) (Or.inr rfl))

/-! ## Frame, discipline and status of the public operations -/

theorem NoTimeout_none : NoTimeout none := fun _ h => by simp at h

theorem NoTimeout_ERROR : NoTimeout (some SPIFLASH_ERROR) :=
  fun _ h => Or.inr (Option.some.inj h).symm

theorem NoTimeout_SUCCESS : NoTimeout (some SPIFLASH_SUCCESS) :=
  fun _ h => Or.inl (Option.some.inj h).symm

theorem NoTimeout_wait (w : SPIFlashStatus_t) :
    NoTimeout (some (if w.toNat ≠ 0 then SPIFLASH_SUCCESS else SPIFLASH_ERROR)) := by
  intro st h
  have := status_of_wait w
  rw [Option.some.inj h] at this
  exact this

theorem NoTimeout_andThen {α : Type} (r : Option α × Sys σ)
    (k : α → Sys σ → Option SPIFlashStatus_t × Sys σ)
    (hk : ∀ a t, NoTimeout (k a t).1) : NoTimeout (andThen r k).1 := by
  obtain ⟨o, t⟩ := r
  cases o with
  | none => exact NoTimeout_none
  | some a => exact hk a t

theorem NoTimeout_WriteFn (hal : Hal σ) (fuel : Nat) (s : Sys σ)
    (pageNumber data size offset : Nat) :
    NoTimeout (SPIFlashWriteFn hal fuel s pageNumber data size offset).1 := by
  by_cases hacc : pageNumber < s.dev.pageNum ∧ offset < 256
  · rw [WriteFn_accepted hal fuel s pageNumber data size offset hacc.1 hacc.2]
    exact NoTimeout_andThen _ _ (fun w _ => NoTimeout_wait w)
  · have hrej : s.dev.pageNum ≤ pageNumber ∨ 256 ≤ offset := by omega
    rw [WriteFn_rejected hal fuel s pageNumber data size offset hrej]
    exact NoTimeout_ERROR

theorem WriteAddress_loop_inv (hal : Hal σ) (fuel data : Nat) (n : Nat) (s : Sys σ)
    (add index remaining : Nat) :
    Closed s (SPIFlashWriteAddress.loop hal fuel data n s add index remaining).2 ∧
      NoTimeout (SPIFlashWriteAddress.loop hal fuel data n s add index remaining).1 := by
  induction n generalizing s add index remaining with
  | zero => exact ⟨Closed_refl s, NoTimeout_none⟩
  | succ n ih =>
    unfold SPIFlashWriteAddress.loop
    simp only []
    generalize (if remaining ≤ SPIFLASH_PAGE_SIZE then remaining
        else sub32 SPIFLASH_PAGE_SIZE (add % SPIFLASH_PAGE_SIZE)) = L
    have hw := Closed_WriteFn hal fuel s (SPIFLASH_ADDRESS2PAGE add) (data + index) L
      (add % SPIFLASH_PAGE_SIZE)
    generalize SPIFlashWriteFn hal fuel s (SPIFLASH_ADDRESS2PAGE add) (data + index) L
      (add % SPIFLASH_PAGE_SIZE) = r at hw
    obtain ⟨o, s1⟩ := r
    cases o with
    | none => exact ⟨hw, NoTimeout_none⟩
    | some a =>
      simp only [andThen_some]
      by_cases h1 : a = SPIFLASH_ERROR
      · rw [if_pos h1]; exact ⟨hw, NoTimeout_ERROR⟩
      · rw [if_neg h1]
        by_cases h2 : sub32 remaining L = 0
        · rw [if_pos h2]; exact ⟨hw, NoTimeout_SUCCESS⟩
        · rw [if_neg h2]
          by_cases h3 : sub32 remaining L > 0
          · rw [if_pos h3]
            obtain ⟨hc, hn⟩ := ih s1 (add32 add L) (add32 index L) (sub32 remaining L)
            exact ⟨Closed_trans hw hc, hn⟩
          · rw [if_neg h3]; exact ⟨hw, NoTimeout_ERROR⟩

theorem WriteRegion_loop_inv (hal : Hal σ) (fuel data limit : Nat) (n : Nat) (s : Sys σ)
    (bytesWritten pageNumber remainingBytes pageOffset : Nat) :
    Closed s (SPIFlashWriteRegion.loop hal fuel data limit n s bytesWritten pageNumber
        remainingBytes pageOffset).2 ∧
      NoTimeout (SPIFlashWriteRegion.loop hal fuel data limit n s bytesWritten pageNumber
        remainingBytes pageOffset).1 := by
  induction n generalizing s bytesWritten pageNumber remainingBytes pageOffset with
  | zero => exact ⟨Closed_refl s, NoTimeout_none⟩
  | succ n ih =>
    unfold SPIFlashWriteRegion.loop
    by_cases hgo : remainingBytes > 0 ∧ pageNumber < limit
    · rw [if_pos hgo]
      simp only []
      generalize (if remainingBytes > SPIFLASH_PAGE_SIZE
          then SPIFLASH_PAGE_SIZE else remainingBytes) = L
      have hw := Closed_WriteFn hal fuel s pageNumber (data + bytesWritten) L pageOffset
      generalize SPIFlashWriteFn hal fuel s pageNumber (data + bytesWritten) L pageOffset = r at hw
      obtain ⟨o, s1⟩ := r
      cases o with
      | none => exact ⟨hw, NoTimeout_none⟩
      | some a =>
        simp only [andThen_some]
        by_cases h1 : a = SPIFLASH_ERROR
        · rw [if_pos h1]; exact ⟨hw, NoTimeout_ERROR⟩
        · rw [if_neg h1]
          obtain ⟨hc, hn⟩ := ih s1 (add32 bytesWritten L) (add32 pageNumber 1)
            (sub32 remainingBytes L) 0
          exact ⟨Closed_trans hw hc, hn⟩
    · rw [if_neg hgo]; exact ⟨Closed_refl s, NoTimeout_SUCCESS⟩

/-- `SPIFlashLock` either takes the free lock at once or is still spinning when
the fuel runs out, the handle and the trace being as before. -/
theorem Lock_cases (hal : Hal σ) (fuel : Nat) (s : Sys σ) :
    (∃ f, fuel = f + 1 ∧ s.dev.lock = 0) ∨
    (∃ t, SPIFlashLock hal fuel s = (none, t) ∧ t.dev = s.dev ∧ t.trace = s.trace) := by
  induction fuel generalizing s with
  | zero => exact Or.inr ⟨s, rfl, rfl, rfl⟩
  | succ n ih =>
    by_cases h : s.dev.lock = 0
    · exact Or.inl ⟨n, rfl, h⟩
    · right
      have hs : SPIFlashLock hal (n + 1) s = SPIFlashLock hal n (SPIFlashDelay hal s 1) := by
        conv_lhs => unfold SPIFlashLock
        rw [if_pos h]
      rw [hs]
      rcases ih (SPIFlashDelay hal s 1) with ⟨f, -, h0⟩ | ⟨t, h1, h2, h3⟩
      · exact absurd h0 h
      · exact ⟨t, h1, h2, h3⟩

theorem SameButLock_of_eq (d e : SPIFlash_t) (h : e = d) : SameButLock d e := by
  subst h
  exact ⟨rfl, rfl, rfl, rfl, rfl, rfl, rfl, rfl, rfl⟩

theorem OpInv_stuck (s t : Sys σ) (hd : t.dev = s.dev) (ht : t.trace = s.trace) :
    OpInv s (none, t) :=
  ⟨SameButLock_of_eq _ _ hd, by rw [emitted_eq s _ [] (by simp [ht])]; exact Disciplined_nil,
    NoTimeout_none⟩

theorem OpInv_none (s t : Sys σ) (h : Closed (locked s) t) : OpInv s (none, t) := by
  obtain ⟨hd, ext, ht, hc⟩ := h
  refine ⟨?_, ?_, NoTimeout_none⟩
  · simp only [hd]
    exact ⟨rfl, rfl, rfl, rfl, rfl, rfl, rfl, rfl, rfl⟩
  · rw [emitted_eq s _ ext (by simpa using ht)]
    exact hc

theorem OpInv_direct (s t : Sys σ) (a : SPIFlashStatus_t) (h : Closed (locked s) t)
    (ha : NoTimeout (some a)) : OpInv s (some a, SPIFlashUnLock t) := by
  obtain ⟨hd, ext, ht, hc⟩ := h
  refine ⟨?_, ?_, ha⟩
  · simp only [SPIFlashUnLock, hd]
    exact ⟨rfl, rfl, rfl, rfl, rfl, rfl, rfl, rfl, rfl⟩
  · rw [emitted_eq s _ ext (by simpa using ht)]
    exact hc

theorem OpInv_finish (s : Sys σ) (b : Option SPIFlashStatus_t × Sys σ)
    (h : Closed (locked s) b.2) (hn : NoTimeout b.1) :
    OpInv s (andThen b fun a s1 => (some a, SPIFlashUnLock s1)) := by
  obtain ⟨o, t⟩ := b
  cases o with
  | none => exact OpInv_none s t h
  | some a => exact OpInv_direct s t a h hn

theorem OpInv_wait_then_wrdi (hal : Hal σ) (fuel : Nat) (s s0 : Sys σ) (T : Nat)
    (h0 : Closed (locked s) s0) :
    OpInv s (andThen (SPIFlashWaitForWriting hal fuel s0 T) fun w s3 =>
      (some (if w.toNat ≠ 0 then SPIFLASH_SUCCESS else SPIFLASH_ERROR),
        SPIFlashUnLock (SPIFlashWriteDisable hal s3).2)) := by
  have hw := Closed_WaitForWriting hal fuel s0 T
  generalize SPIFlashWaitForWriting hal fuel s0 T = r at hw
  obtain ⟨o, s3⟩ := r
  cases o with
  | none => exact OpInv_none s s3 (Closed_trans h0 hw)
  | some w =>
    exact OpInv_direct s _ _ (Closed_trans (Closed_trans h0 hw) (Closed_WriteDisable hal s3))
      (NoTimeout_wait w)

theorem OpInv_EraseChip (hal : Hal σ) (fuel : Nat) (s : Sys σ) :
    OpInv s (SPIFlashEraseChip hal fuel s) := by
  rcases Lock_cases hal fuel s with ⟨f, rfl, hl⟩ | ⟨t, h1, h2, h3⟩
  · rw [EraseChip_eq hal f s hl]
    exact OpInv_wait_then_wrdi hal (f + 1) s _ _
      (Closed_afterCommand hal (locked s) _ (by decide))
  · unfold SPIFlashEraseChip
    rw [h1]
    exact OpInv_stuck s t h2 h3

theorem OpInv_EraseSector (hal : Hal σ) (fuel : Nat) (s : Sys σ) (sector : Nat) :
    OpInv s (SPIFlashEraseSector hal fuel s sector) := by
  rcases Lock_cases hal fuel s with ⟨f, rfl, hl⟩ | ⟨t, h1, h2, h3⟩
  · by_cases h : sector < s.dev.sectorNum
    · rw [EraseSector_eq hal f s sector hl h]
      exact OpInv_wait_then_wrdi hal (f + 1) s _ _
        (Closed_afterCommand hal (locked s) _
          (by rw [take_halSize_sectorEraseCmd]; exact sectorEraseCmd_ne_nil _ _))
    · rw [EraseSector_rejected hal f s sector hl (by omega)]
      exact OpInv_direct s _ _ (Closed_WriteDisable hal (locked s)) NoTimeout_ERROR
  · unfold SPIFlashEraseSector
    rw [h1]
    exact OpInv_stuck s t h2 h3

theorem OpInv_EraseBlock (hal : Hal σ) (fuel : Nat) (s : Sys σ) (block : Nat) :
    OpInv s (SPIFlashEraseBlock hal fuel s block) := by
  rcases Lock_cases hal fuel s with ⟨f, rfl, hl⟩ | ⟨t, h1, h2, h3⟩
  · by_cases h : block < s.dev.blockNum
    · rw [EraseBlock_eq hal f s block hl h]
      exact OpInv_wait_then_wrdi hal (f + 1) s _ _
        (Closed_afterCommand hal (locked s) _
          (by rw [take_halSize_blockEraseCmd]; exact blockEraseCmd_ne_nil _ _))
    · rw [EraseBlock_rejected hal f s block hl (by omega)]
      exact OpInv_direct s _ _ (Closed_WriteDisable hal (locked s)) NoTimeout_ERROR
  · unfold SPIFlashEraseBlock
    rw [h1]
    exact OpInv_stuck s t h2 h3

theorem OpInv_WriteAddress (hal : Hal σ) (fuel : Nat) (s : Sys σ) (address data size : Nat) :
    OpInv s (SPIFlashWriteAddress hal fuel s address data size) := by
  rcases Lock_cases hal fuel s with ⟨f, rfl, hl⟩ | ⟨t, h1, h2, h3⟩
  · unfold SPIFlashWriteAddress
    rw [Lock_locked hal f s hl]
    simp only [andThen_some]
    exact OpInv_finish s _ (WriteAddress_loop_inv hal _ _ _ _ _ _ _).1
      (WriteAddress_loop_inv hal _ _ _ _ _ _ _).2
  · unfold SPIFlashWriteAddress
    rw [h1]
    exact OpInv_stuck s t h2 h3

theorem OpInv_WritePage (hal : Hal σ) (fuel : Nat) (s : Sys σ) (pageNumber data size offset : Nat) :
    OpInv s (SPIFlashWritePage hal fuel s pageNumber data size offset) := by
  rcases Lock_cases hal fuel s with ⟨f, rfl, hl⟩ | ⟨t, h1, h2, h3⟩
  · unfold SPIFlashWritePage
    rw [Lock_locked hal f s hl]
    simp only [andThen_some]
    exact OpInv_finish s _ (Closed_WriteFn hal _ _ _ _ _ _) (NoTimeout_WriteFn hal _ _ _ _ _ _)
  · unfold SPIFlashWritePage
    rw [h1]
    exact OpInv_stuck s t h2 h3

theorem OpInv_WriteSector (hal : Hal σ) (fuel : Nat) (s : Sys σ) (sectorNumber data size offset : Nat) :
    OpInv s (SPIFlashWriteSector hal fuel s sectorNumber data size offset) := by
  rcases Lock_cases hal fuel s with ⟨f, rfl, hl⟩ | ⟨t, h1, h2, h3⟩
  · unfold SPIFlashWriteSector
    rw [Lock_locked hal f s hl]
    simp only [andThen_some]
    refine OpInv_finish s _ ?_ ?_
    · split
      · exact Closed_refl _
      · exact (WriteRegion_loop_inv hal _ _ _ _ _ _ _ _ _).1
    · split
      · exact NoTimeout_ERROR
      · exact (WriteRegion_loop_inv hal _ _ _ _ _ _ _ _ _).2
  · unfold SPIFlashWriteSector
    rw [h1]
    exact OpInv_stuck s t h2 h3

theorem OpInv_WriteBlock (hal : Hal σ) (fuel : Nat) (s : Sys σ) (blockNumber data size offset : Nat) :
    OpInv s (SPIFlashWriteBlock hal fuel s blockNumber data size offset) := by
  rcases Lock_cases hal fuel s with ⟨f, rfl, hl⟩ | ⟨t, h1, h2, h3⟩
  · unfold SPIFlashWriteBlock
    rw [Lock_locked hal f s hl]
    simp only [andThen_some]
    refine OpInv_finish s _ ?_ ?_
    · split
      · exact Closed_refl _
      · exact (WriteRegion_loop_inv hal _ _ _ _ _ _ _ _ _).1
    · split
      · exact NoTimeout_ERROR
      · exact (WriteRegion_loop_inv hal _ _ _ _ _ _ _ _ _).2
  · unfold SPIFlashWriteBlock
    rw [h1]
    exact OpInv_stuck s t h2 h3

theorem OpInv_ReadAddress (hal : Hal σ) (fuel : Nat) (s : Sys σ) (address data size : Nat) :
    OpInv s (SPIFlashReadAddress hal fuel s address data size) := by
  rcases Lock_cases hal fuel s with ⟨f, rfl, hl⟩ | ⟨t, h1, h2, h3⟩
  · unfold SPIFlashReadAddress
    rw [Lock_locked hal f s hl]
    exact OpInv_direct s _ _ (Closed_ReadFn hal (locked s) _ _ _)
      (by rw [(ReadFn_spec hal (locked s) _ _ _).1]; exact NoTimeout_SUCCESS)
  · unfold SPIFlashReadAddress
    rw [h1]
    exact OpInv_stuck s t h2 h3

theorem OpInv_ReadPage (hal : Hal σ) (fuel : Nat) (s : Sys σ) (pageNumber data size offset : Nat) :
    OpInv s (SPIFlashReadPage hal fuel s pageNumber data size offset) := by
  rcases Lock_cases hal fuel s with ⟨f, rfl, hl⟩ | ⟨t, h1, h2, h3⟩
  · unfold SPIFlashReadPage
    rw [Lock_locked hal f s hl]
    exact OpInv_direct s _ _ (Closed_ReadFn hal (locked s) _ _ _)
      (by rw [(ReadFn_spec hal (locked s) _ _ _).1]; exact NoTimeout_SUCCESS)
  · unfold SPIFlashReadPage
    rw [h1]
    exact OpInv_stuck s t h2 h3

theorem OpInv_ReadSector (hal : Hal σ) (fuel : Nat) (s : Sys σ) (sectorNumber data size offset : Nat) :
    OpInv s (SPIFlashReadSector hal fuel s sectorNumber data size offset) := by
  rcases Lock_cases hal fuel s with ⟨f, rfl, hl⟩ | ⟨t, h1, h2, h3⟩
  · unfold SPIFlashReadSector
    rw [Lock_locked hal f s hl]
    exact OpInv_direct s _ _ (Closed_ReadFn hal (locked s) _ _ _)
      (by rw [(ReadFn_spec hal (locked s) _ _ _).1]; exact NoTimeout_SUCCESS)
  · unfold SPIFlashReadSector
    rw [h1]
    exact OpInv_stuck s t h2 h3

theorem OpInv_ReadBlock (hal : Hal σ) (fuel : Nat) (s : Sys σ) (blockNumber data size offset : Nat) :
    OpInv s (SPIFlashReadBlock hal fuel s blockNumber data size offset) := by
  rcases Lock_cases hal fuel s with ⟨f, rfl, hl⟩ | ⟨t, h1, h2, h3⟩
  · unfold SPIFlashReadBlock
    rw [Lock_locked hal f s hl]
    exact OpInv_direct s _ _ (Closed_ReadFn hal (locked s) _ _ _)
      (by rw [(ReadFn_spec hal (locked s) _ _ _).1]; exact NoTimeout_SUCCESS)
  · unfold SPIFlashReadBlock
    rw [h1]
    exact OpInv_stuck s t h2 h3

/-- Each of the eleven public operations other than init, entered in any
state: frame, bus discipline and status. -/
theorem publicOps_inv (hal : Hal σ) (fuel : Nat) (s : Sys σ)
    (num address data size offset : Nat) :
    ∀ r ∈ publicOps hal fuel s num address data size offset, OpInv s r := by
  intro r hr
  simp only [publicOps, List.mem_cons, List.mem_singleton, List.not_mem_nil, or_false] at hr
  rcases hr with h | h | h | h | h | h | h | h | h | h | h <;> subst h
  · exact OpInv_EraseChip hal fuel s
  · exact OpInv_EraseSector hal fuel s num
  · exact OpInv_EraseBlock hal fuel s num
  · exact OpInv_WriteAddress hal fuel s address data size
  · exact OpInv_WritePage hal fuel s num data size offset
  · exact OpInv_WriteSector hal fuel s num data size offset
  · exact OpInv_WriteBlock hal fuel s num data size offset
  · exact OpInv_ReadAddress hal fuel s address data size
  · exact OpInv_ReadPage hal fuel s num data size offset
  · exact OpInv_ReadSector hal fuel s num data size offset
  · exact OpInv_ReadBlock hal fuel s num data size offset

/-! ## Initialisation in general -/

@[simp] theorem WriteDisable_status (hal : Hal σ) (s : Sys σ) :
    (SPIFlashWriteDisable hal s).1 = SPIFLASH_SUCCESS := by
  simp [SPIFlashWriteDisable]

theorem FindChip_status (hal : Hal σ) (debug : Bool) (s : Sys σ) :
    (SPIFlashFindChip hal debug s).1 = SPIFLASH_SUCCESS := by
  unfold SPIFlashFindChip
  cases debug <;> simp

theorem FindChip_trace (hal : Hal σ) (debug : Bool) (s : Sys σ) :
    (SPIFlashFindChip hal debug s).2.trace = s.trace ++ probeFrames debug := by
  unfold SPIFlashFindChip
  cases debug <;>
    simp [probeFrames, window, pollFrame, SPIFlashReadReg1, SPIFlashReadReg2, SPIFlashReadReg3]

theorem Disciplined_probeFrames (debug : Bool) : Disciplined (probeFrames debug) := by
  cases debug <;> decide

theorem FindChip_sector_page (hal : Hal σ) (debug : Bool) (s : Sys σ) :
    (SPIFlashFindChip hal debug s).2.dev.sectorNum =
        SPIFLASH_BLOCK2SECTOR (SPIFlashFindChip hal debug s).2.dev.blockNum ∧
      (SPIFlashFindChip hal debug s).2.dev.pageNum =
        SPIFLASH_SECTOR2PAGE (SPIFlashFindChip hal debug s).2.dev.sectorNum := by
  unfold SPIFlashFindChip
  cases debug <;> simp

theorem size_switch_blockNum_range (d : SPIFlash_t) :
    (SPIFlashFindChip.size d).blockNum = d.blockNum ∨
      (2 ≤ (SPIFlashFindChip.size d).blockNum ∧ (SPIFlashFindChip.size d).blockNum ≤ 1024) := by
  unfold SPIFlashFindChip.size
  simp only [apply_ite SPIFlash_t.blockNum]
  split_ifs <;> simp

/-- Whatever the JEDEC answer, the probe leaves a handle with the geometry
relation, provided the block count it found in the handle was at most 1024. -/
theorem FindChip_geometry (hal : Hal σ) (debug : Bool) (s : Sys σ)
    (hb : s.dev.blockNum ≤ 1024) : Geometry (SPIFlashFindChip hal debug s).2.dev := by
  obtain ⟨h1, h2⟩ := FindChip_sector_page hal debug s
  have h3 := FindChip_blockNum hal debug s
  have h4 := size_switch_blockNum_range { s.dev with
    manufacturer := (jedecRx hal s).getD 1 0 % 256
    memType := (jedecRx hal s).getD 2 0 % 256
    size := (jedecRx hal s).getD 3 0 % 256 }
  rw [← h3] at h4
  have h5 : (SPIFlashFindChip hal debug s).2.dev.blockNum ≤ 1024 := by
    rcases h4 with h | h
    · rw [h]; exact hb
    · exact h.2
  clear h3 h4
  unfold Geometry
  rw [h2, h1]
  simp only [SPIFLASH_BLOCK2SECTOR, SPIFLASH_SECTOR2PAGE, shl32, Nat.shiftLeft_eq]
  omega

theorem vccWait_frame (hal : Hal σ) (fuel : Nat) (s : Sys σ) :
    (SPIFlashInit.vccWait hal fuel s).2.dev = s.dev ∧
      (SPIFlashInit.vccWait hal fuel s).2.trace = s.trace ∧
      (SPIFlashInit.vccWait hal fuel s).2.ram = s.ram := by
  induction fuel generalizing s with
  | zero => exact ⟨rfl, rfl, rfl⟩
  | succ n ih =>
    unfold SPIFlashInit.vccWait
    split
    · exact ih (SPIFlashDelay hal s 1)
    · exact ⟨rfl, rfl, rfl⟩

theorem vccWait_returns (hal : Hal σ) (ha : TickAdvances hal) :
    ∀ (fuel : Nat) (s : Sys σ), 20 - SPIFlashGetTick hal s < fuel →
      (SPIFlashInit.vccWait hal fuel s).1 = some () := by
  intro fuel
  induction fuel with
  | zero => intro s h; omega
  | succ n ih =>
    intro s h
    unfold SPIFlashInit.vccWait
    by_cases ht : SPIFlashGetTick hal s < 20
    · rw [if_pos ht]
      refine ih _ ?_
      have h1 := ha s.env ht
      have h2 : SPIFlashGetTick hal (SPIFlashDelay hal s 1) =
          hal.HAL_GetTick (hal.HAL_Delay s.env 1) % 4294967296 := rfl
      have h3 : SPIFlashGetTick hal s = hal.HAL_GetTick s.env % 4294967296 := rfl
      omega
    · rw [if_neg ht]

theorem Init_rejected (hal : Hal σ) (debug : Bool) (fuel : Nat) (s : Sys σ)
    (SPIFlash hSPI GPIO pin : Nat)
    (h : SPIFlash = 0 ∨ hSPI = 0 ∨ GPIO = 0 ∨ s.dev.size ≠ 0) :
    SPIFlashInit hal debug fuel s SPIFlash hSPI GPIO pin = (some SPIFLASH_ERROR, s) := by
  unfold SPIFlashInit
  rw [if_pos h]

theorem Init_accepted (hal : Hal σ) (debug : Bool) (fuel : Nat) (s : Sys σ)
    (SPIFlash hSPI GPIO pin : Nat)
    (hH : SPIFlash ≠ 0) (hS : hSPI ≠ 0) (hG : GPIO ≠ 0) (h0 : s.dev.size = 0) :
    SPIFlashInit hal debug fuel s SPIFlash hSPI GPIO pin =
      andThen (SPIFlashInit.vccWait hal fuel (SPIFlashCSPin hal { s with dev :=
          { hSPI := hSPI, GPIO := GPIO, manufacturer := 0, size := 0, memType := 0, lock := 0,
            pin := pin % 65536, pageNum := 0, sectorNum := 0, blockNum := 0 } } 1))
        fun _ s2 => (some SPIFLASH_SUCCESS,
          (SPIFlashFindChip hal debug (SPIFlashWriteDisable hal s2).2).2) := by
  unfold SPIFlashInit
  have h : ¬ (SPIFlash = 0 ∨ hSPI = 0 ∨ GPIO = 0 ∨ s.dev.size ≠ 0) := by
    simp [hH, hS, hG, h0]
  rw [if_neg h]
  simp [FindChip_status]

/-- An accepted `SPIFlashInit`, finished or not: geometry of the handle, status,
and the trace, which starts with the chip-select line being parked high. -/
theorem Init_inv (hal : Hal σ) (debug : Bool) (fuel : Nat) (s : Sys σ)
    (SPIFlash hSPI GPIO pin : Nat)
    (hH : SPIFlash ≠ 0) (hS : hSPI ≠ 0) (hG : GPIO ≠ 0) (h0 : s.dev.size = 0) :
    Geometry (SPIFlashInit hal debug fuel s SPIFlash hSPI GPIO pin).2.dev ∧
    NoTimeout (SPIFlashInit hal debug fuel s SPIFlash hSPI GPIO pin).1 ∧
    ∃ rest, emitted s (SPIFlashInit hal debug fuel s SPIFlash hSPI GPIO pin) =
        Event.cs 1 :: rest ∧ Disciplined rest ∧
      ((SPIFlashInit hal debug fuel s SPIFlash hSPI GPIO pin).1 ≠ none →
        rest = wrdiFrame ++ probeFrames debug) := by
  rw [Init_accepted hal debug fuel s SPIFlash hSPI GPIO pin hH hS hG h0]
  obtain ⟨hd, ht, -⟩ := vccWait_frame hal fuel (SPIFlashCSPin hal { s with dev :=
    { hSPI := hSPI, GPIO := GPIO, manufacturer := 0, size := 0, memType := 0, lock := 0,
      pin := pin % 65536, pageNum := 0, sectorNum := 0, blockNum := 0 } } 1)
  generalize SPIFlashInit.vccWait hal fuel (SPIFlashCSPin hal { s with dev :=
    { hSPI := hSPI, GPIO := GPIO, manufacturer := 0, size := 0, memType := 0, lock := 0,
      pin := pin % 65536, pageNum := 0, sectorNum := 0, blockNum := 0 } } 1) = r at hd ht
  obtain ⟨o, s2⟩ := r
  simp only [CSPin_dev, CSPin_trace] at hd ht
  cases o with
  | none =>
    simp only [andThen_none]
    refine ⟨?_, NoTimeout_none, [], emitted_eq s _ _ ht, Disciplined_nil, fun h => absurd rfl h⟩
    rw [hd]
    simp [Geometry]
  | some u =>
    simp only [andThen_some]
    refine ⟨?_, NoTimeout_SUCCESS, wrdiFrame ++ probeFrames debug, emitted_eq s _ _ ?_,
      Disciplined_append Disciplined_wrdi (Disciplined_probeFrames debug), fun _ => rfl⟩
    · refine FindChip_geometry hal debug _ ?_
      rw [WriteDisable_dev, hd]
      exact Nat.zero_le _
    · rw [FindChip_trace, WriteDisable_trace, ht]
      simp

theorem Init_returns (hal : Hal σ) (debug : Bool) (fuel : Nat) (s : Sys σ)
    (SPIFlash hSPI GPIO pin : Nat) (ha : TickAdvances hal) (hf : 20 < fuel) :
    Returns (SPIFlashInit hal debug fuel s SPIFlash hSPI GPIO pin) := by
  by_cases h : SPIFlash = 0 ∨ hSPI = 0 ∨ GPIO = 0 ∨ s.dev.size ≠ 0
  · rw [Init_rejected hal debug fuel s SPIFlash hSPI GPIO pin h]
    exact ⟨_, rfl⟩
  · have hH : SPIFlash ≠ 0 := fun e => h (Or.inl e)
    have hS : hSPI ≠ 0 := fun e => h (Or.inr (Or.inl e))
    have hG : GPIO ≠ 0 := fun e => h (Or.inr (Or.inr (Or.inl e)))
    have h0 : s.dev.size = 0 := not_not.mp fun e => h (Or.inr (Or.inr (Or.inr e)))
    rw [Init_accepted hal debug fuel s SPIFlash hSPI GPIO pin hH hS hG h0]
    exact Returns_andThen _ _ ⟨(), vccWait_returns hal ha fuel _ (by omega)⟩
      (fun _ _ => ⟨_, rfl⟩)

theorem Geometry_of_sameButLock (d e : SPIFlash_t) (h : SameButLock d e) (hg : Geometry d) :
    Geometry e := by
  obtain ⟨-, -, -, -, -, -, hb, hs, hp⟩ := h
  unfold Geometry at *
  rw [hb, hs, hp]
  exact hg

theorem Init_geometry (hal : Hal σ) (debug : Bool) (fuel : Nat) (s : Sys σ)
    (SPIFlash hSPI GPIO pin : Nat) (hg : Geometry s.dev) :
    Geometry (SPIFlashInit hal debug fuel s SPIFlash hSPI GPIO pin).2.dev := by
  by_cases h : SPIFlash = 0 ∨ hSPI = 0 ∨ GPIO = 0 ∨ s.dev.size ≠ 0
  · rw [Init_rejected hal debug fuel s SPIFlash hSPI GPIO pin h]
    exact hg
  · have hH : SPIFlash ≠ 0 := fun e => h (Or.inl e)
    have hS : hSPI ≠ 0 := fun e => h (Or.inr (Or.inl e))
    have hG : GPIO ≠ 0 := fun e => h (Or.inr (Or.inr (Or.inl e)))
    have h0 : s.dev.size = 0 := not_not.mp fun e => h (Or.inr (Or.inr (Or.inr e)))
    exact (Init_inv hal debug fuel s SPIFlash hSPI GPIO pin hH hS hG h0).1

theorem Reach_geometry (hal : Hal σ) (s t : Sys σ) (h : Reach hal s t)
    (hg : Geometry s.dev) : Geometry t.dev := by
  induction h with
  | refl => exact hg
  | op fuel num address data size offset r _ hr ih =>
    exact Geometry_of_sameButLock _ _
      (publicOps_inv hal fuel _ num address data size offset r hr).1 ih
  | init debug fuel SPIFlash hSPI GPIO pin _ ih =>
    exact Init_geometry hal debug fuel _ SPIFlash hSPI GPIO pin ih

theorem jedecHal_tickAdvances (id : List Nat) : TickAdvances (jedecHal id) := by
  intro e h
  show e % 4294967296 < (e + 1) % 4294967296 % 4294967296
  have h1 : e % 4294967296 < 20 := h
  omega

/-- C24: geometry relation.  For every environment (so for every JEDEC answer,
supported or not), `SPIFlashInit` called with non-null arguments on a handle
whose size field is zero leaves a handle with `sectorNum = blockNum * 16` and
`pageNum = blockNum * 256 = sectorNum * 16`, and the relation holds in every
state reachable from there through calls of the public functions, with any
arguments.  The call returns when the tick advances during the VCC wait and
there is fuel for its 20 iterations. -/
theorem C24_geometry_relation (hal : Hal σ) (debug : Bool) (fuel : Nat) (s : Sys σ)
    (SPIFlash hSPI GPIO pin : Nat)
    (hH : SPIFlash ≠ 0) (hS : hSPI ≠ 0) (hG : GPIO ≠ 0) (h0 : s.dev.size = 0) :
    Geometry (SPIFlashInit hal debug fuel s SPIFlash hSPI GPIO pin).2.dev ∧
    (∀ t, Reach hal (SPIFlashInit hal debug fuel s SPIFlash hSPI GPIO pin).2 t →
      Geometry t.dev) ∧
    (TickAdvances hal → 20 < fuel →
      Returns (SPIFlashInit hal debug fuel s SPIFlash hSPI GPIO pin)) := by
  have hg := (Init_inv hal debug fuel s SPIFlash hSPI GPIO pin hH hS hG h0).1
  exact ⟨hg, fun t ht => Reach_geometry hal _ t ht hg,
    fun ha hf => Init_returns hal debug fuel s SPIFlash hSPI GPIO pin ha hf⟩

set_option maxRecDepth 100000 in
/-- Instance of C24: a fresh handle and the JEDEC answer `EF 40 15` give 32
blocks, 512 sectors and 8192 pages; the unsupported answer `EF 40 21` gives
0 blocks, 0 sectors and 0 pages; the relation still holds after a sector erase
on the initialised handle. -/
theorem C24_geometry_relation_witness :
    (1 : Nat) ≠ 0 ∧ sysFresh.dev.size = 0 ∧ TickAdvances (jedecHal [0xEF, 0x40, 0x15]) ∧
    20 < 30 ∧
    Geometry (SPIFlashInit (jedecHal [0xEF, 0x40, 0x15]) false 30 sysFresh 1 1 1 16).2.dev ∧
    Returns (SPIFlashInit (jedecHal [0xEF, 0x40, 0x15]) false 30 sysFresh 1 1 1 16) ∧
    Geometry (SPIFlashEraseSector (jedecHal [0xEF, 0x40, 0x15]) 30
      (SPIFlashInit (jedecHal [0xEF, 0x40, 0x15]) false 30 sysFresh 1 1 1 16).2 3).2.dev ∧
    (SPIFlashInit (jedecHal [0xEF, 0x40, 0x15]) false 30 sysFresh 1 1 1 16).2.dev.blockNum
      = 32 ∧
    (SPIFlashInit (jedecHal [0xEF, 0x40, 0x15]) false 30 sysFresh 1 1 1 16).2.dev.sectorNum
      = 512 ∧
    (SPIFlashInit (jedecHal [0xEF, 0x40, 0x15]) false 30 sysFresh 1 1 1 16).2.dev.pageNum
      = 8192 ∧
    (SPIFlashInit (jedecHal [0xEF, 0x40, 0x21]) false 30 sysFresh 1 1 1 16).2.dev.blockNum
      = 0 ∧
    (SPIFlashInit (jedecHal [0xEF, 0x40, 0x21]) false 30 sysFresh 1 1 1 16).2.dev.pageNum
      = 0 :=
  ⟨by decide, by decide, jedecHal_tickAdvances _, by decide,
    (C24_geometry_relation (jedecHal [0xEF, 0x40, 0x15]) false 30 sysFresh 1 1 1 16
      (by decide) (by decide) (by decide) (by decide)).1,
    (C24_geometry_relation (jedecHal [0xEF, 0x40, 0x15]) false 30 sysFresh 1 1 1 16
      (by decide) (by decide) (by decide) (by decide)).2.2 (jedecHal_tickAdvances _)
      (by decide),
    (C24_geometry_relation (jedecHal [0xEF, 0x40, 0x15]) false 30 sysFresh 1 1 1 16
      (by decide) (by decide) (by decide) (by decide)).2.1 _
      (Reach.op 30 3 0 0 0 0 _ (Reach.refl _) (by simp [publicOps])),
    by decide, by decide, by decide, by decide, by decide⟩

/-- The eleven operations return: lock clear, running clock, at most 1024
blocks, fuel above the longest busy-wait and above the size. -/
theorem publicOps_returns (hal : Hal σ) (fuel : Nat) (s : Sys σ)
    (num address data size offset : Nat) (hl : s.dev.lock = 0) (hc : ClockRuns hal s.dev)
    (hb : s.dev.blockNum ≤ 1024) (hf : 1024000 < fuel) (hs : size < fuel) :
    ∀ r ∈ publicOps hal fuel s num address data size offset, Returns r := by
  intro r hr
  obtain ⟨e1, e2, e3⟩ := Returns_erases hal fuel s num hl hc hb hf
  obtain ⟨w1, w2, w3, w4⟩ :=
    Returns_writes hal fuel s num address data size offset hl hc (by omega) hs
  obtain ⟨r1, r2, r3, r4⟩ :=
    Returns_reads hal fuel s num address data size offset hl (by omega)
  simp only [publicOps, List.mem_cons, List.mem_singleton, List.not_mem_nil, or_false] at hr
  rcases hr with h | h | h | h | h | h | h | h | h | h | h <;> subst h
  · exact e1
  · exact e2
  · exact e3
  · exact w1
  · exact w2
  · exact w3
  · exact w4
  · exact r1
  · exact r2
  · exact r3
  · exact r4

/-- C25: frame condition.  For every environment (transfers may fail at will),
every handle state and all arguments, each of the eleven public operations
other than `SPIFlashInit` leaves `hSPI`, `GPIO`, `pin`, `manufacturer`,
`memType`, `size`, `blockNum`, `sectorNum` and `pageNum` as they were before
the call (`SameButLock`); this holds for the state the call has reached
whether or not it has finished.  Entered with the lock clear, the operations
do return when the millisecond counter runs, the block count is at most 1024
and the fuel exceeds the longest busy-wait and the size. -/
theorem C25_frame_condition (hal : Hal σ) (fuel : Nat) (s : Sys σ)
    (num address data size offset : Nat) :
    (∀ r ∈ publicOps hal fuel s num address data size offset, SameButLock s.dev r.2.dev) ∧
    (s.dev.lock = 0 → ClockRuns hal s.dev → s.dev.blockNum ≤ 1024 → 1024000 < fuel →
      size < fuel → ∀ r ∈ publicOps hal fuel s num address data size offset, Returns r) :=
  ⟨fun r hr => (publicOps_inv hal fuel s num address data size offset r hr).1,
    fun hl hc hb hf hs =>
      publicOps_returns hal fuel s num address data size offset hl hc hb hf hs⟩

set_option maxRecDepth 100000 in
/-- Instance of C25: on the 16 Mbit handle the block write and the chip erase
return and leave the nine fields alone; here the whole handle is as before,
the lock flag being clear again. -/
theorem C25_frame_condition_witness :
    (sys16 [1, 2, 3]).dev.lock = 0 ∧ ClockRuns idleHal (sys16 [1, 2, 3]).dev ∧
    (sys16 [1, 2, 3]).dev.blockNum ≤ 1024 ∧ 1024000 < 1024001 ∧ 3 < 1024001 ∧
    SameButLock (sys16 [1, 2, 3]).dev
      (SPIFlashWriteBlock idleHal 1024001 (sys16 [1, 2, 3]) 0 0 3 0).2.dev ∧
    Returns (SPIFlashWriteBlock idleHal 1024001 (sys16 [1, 2, 3]) 0 0 3 0) ∧
    SameButLock (sys16 [1, 2, 3]).dev (SPIFlashEraseChip idleHal 1024001 (sys16 [1, 2, 3])).2.dev ∧
    (SPIFlashEraseChip idleHal 1024001 (sys16 [1, 2, 3])).2.dev = dev16 :=
  ⟨by decide, idleHal_clockRuns _, by decide, by decide, by decide,
    (C25_frame_condition idleHal 1024001 (sys16 [1, 2, 3]) 0 0 0 3 0).1 _
      (by simp [publicOps]),
    (C25_frame_condition idleHal 1024001 (sys16 [1, 2, 3]) 0 0 0 3 0).2 (by decide)
      (idleHal_clockRuns _) (by decide) (by decide) (by decide) _ (by simp [publicOps]),
    (C25_frame_condition idleHal 1024001 (sys16 [1, 2, 3]) 0 0 0 3 0).1 _
      (by simp [publicOps]),
    by decide⟩

/-! ## Chip-select discipline of the public functions -/

set_option maxRecDepth 100000 in
/-- C26 (counterexample): `SPIFlashInit` on a fresh handle.  The first traced
call is chip-select high, a deassert that no assert precedes; the trace is
that call followed by the WRDI window and the JEDEC ID window. -/
theorem C26_init_starts_with_deassert :
    emitted sysFresh (SPIFlashInit (jedecHal [0xEF, 0x40, 0x15]) false 30 sysFresh 1 1 1 16) =
      [Event.cs 1,
        Event.cs 0, Event.xfer [0x04] 100, Event.cs 1,
        Event.cs 0, Event.xfer [0x9F, 0xFF, 0xFF, 0xFF] 100, Event.cs 1] ∧
    (emitted sysFresh
      (SPIFlashInit (jedecHal [0xEF, 0x40, 0x15]) false 30 sysFresh 1 1 1 16)).head?
      = some (Event.cs 1) ∧
    ¬ Disciplined (emitted sysFresh
      (SPIFlashInit (jedecHal [0xEF, 0x40, 0x15]) false 30 sysFresh 1 1 1 16)) := by
  decide

/-- C26 (amended): chip-select discipline.  For every environment, handle
state and arguments, the calls traced by each of the eleven public operations
other than `SPIFlashInit`, finished or not, form closed chip-select windows
(`Disciplined`): assert and deassert alternate starting with assert, every
transfer lies inside a window, a window holds one command transfer (opcode and
address) followed or not by the one data-phase transfer of that command, and
chip-select is high at the end.  `SPIFlashInit` either traces nothing (rejected
arguments) or first drives chip-select high once and then keeps the same
discipline.  Entered with the lock clear, the eleven operations return when
the millisecond counter runs, the block count is at most 1024 and the fuel
exceeds the longest busy-wait and the size. -/
theorem C26_chip_select_discipline (hal : Hal σ) (debug : Bool) (fuel : Nat) (s : Sys σ)
    (num address data size offset SPIFlash hSPI GPIO pin : Nat) :
    (∀ r ∈ publicOps hal fuel s num address data size offset, Disciplined (emitted s r)) ∧
    (emitted s (SPIFlashInit hal debug fuel s SPIFlash hSPI GPIO pin) = [] ∨
      ∃ rest, emitted s (SPIFlashInit hal debug fuel s SPIFlash hSPI GPIO pin) =
        Event.cs 1 :: rest ∧ Disciplined rest) ∧
    (s.dev.lock = 0 → ClockRuns hal s.dev → s.dev.blockNum ≤ 1024 → 1024000 < fuel →
      size < fuel → ∀ r ∈ publicOps hal fuel s num address data size offset, Returns r) := by
  refine ⟨fun r hr => (publicOps_inv hal fuel s num address data size offset r hr).2.1, ?_,
    fun hl hc hb hf hs =>
      publicOps_returns hal fuel s num address data size offset hl hc hb hf hs⟩
  by_cases h : SPIFlash = 0 ∨ hSPI = 0 ∨ GPIO = 0 ∨ s.dev.size ≠ 0
  · left
    rw [Init_rejected hal debug fuel s SPIFlash hSPI GPIO pin h]
    exact emitted_eq s _ [] (by simp)
  · right
    have hH : SPIFlash ≠ 0 := fun e => h (Or.inl e)
    have hS : hSPI ≠ 0 := fun e => h (Or.inr (Or.inl e))
    have hG : GPIO ≠ 0 := fun e => h (Or.inr (Or.inr (Or.inl e)))
    have h0 : s.dev.size = 0 := not_not.mp fun e => h (Or.inr (Or.inr (Or.inr e)))
    obtain ⟨-, -, rest, h1, h2, -⟩ := Init_inv hal debug fuel s SPIFlash hSPI GPIO pin hH hS hG h0
    exact ⟨rest, h1, h2⟩

set_option maxRecDepth 100000 in
/-- Instance of C26 (amended): on the 16 Mbit handle the page write traces the
WREN window, the program window with command and data phase together, one
status read and the WRDI window, and returns; the trace of the page read is the
one window with command and data phase. -/
theorem C26_chip_select_discipline_witness :
    (sys16 [1, 2, 3]).dev.lock = 0 ∧ ClockRuns idleHal (sys16 [1, 2, 3]).dev ∧
    (sys16 [1, 2, 3]).dev.blockNum ≤ 1024 ∧ 1024000 < 1024001 ∧ 3 < 1024001 ∧
    Disciplined (emitted (sys16 [1, 2, 3])
      (SPIFlashWritePage idleHal 1024001 (sys16 [1, 2, 3]) 0 0 3 0)) ∧
    Returns (SPIFlashWritePage idleHal 1024001 (sys16 [1, 2, 3]) 0 0 3 0) ∧
    Disciplined (emitted (sys16 [1, 2, 3])
      (SPIFlashReadPage idleHal 1024001 (sys16 [1, 2, 3]) 0 0 3 0)) ∧
    emitted (sys16 [1, 2, 3]) (SPIFlashWritePage idleHal 1024001 (sys16 [1, 2, 3]) 0 0 3 0) =
      [Event.cs 0, Event.xfer [0x06] 100, Event.cs 1,
        Event.cs 0, Event.xfer [0x02, 0, 0, 0] 100, Event.xfer [1, 2, 3] 1000, Event.cs 1,
        Event.cs 0, Event.xfer [0x05, 0xA5] 100, Event.cs 1,
        Event.cs 0, Event.xfer [0x04] 100, Event.cs 1] ∧
    emitted (sys16 [1, 2, 3]) (SPIFlashReadPage idleHal 1024001 (sys16 [1, 2, 3]) 0 0 3 0) =
      [Event.cs 0, Event.xfer [0x03, 0, 0, 0] 100, Event.xfer [1, 2, 3] 2000, Event.cs 1] :=
  ⟨by decide, idleHal_clockRuns _, by decide, by decide, by decide,
    (C26_chip_select_discipline idleHal false 1024001 (sys16 [1, 2, 3]) 0 0 0 3 0 1 1 1 16).1 _
      (by simp [publicOps]),
    (C26_chip_select_discipline idleHal false 1024001 (sys16 [1, 2, 3]) 0 0 0 3 0 1 1 1 16).2.2
      (by decide) (idleHal_clockRuns _) (by decide) (by decide) (by decide) _
      (by simp [publicOps]),
    (C26_chip_select_discipline idleHal false 1024001 (sys16 [1, 2, 3]) 0 0 0 3 0 1 1 1 16).1 _
      (by simp [publicOps]),
    by decide, by decide⟩

/-! ## Statuses of the public functions -/

theorem NoTimeout_Init (hal : Hal σ) (debug : Bool) (fuel : Nat) (s : Sys σ)
    (SPIFlash hSPI GPIO pin : Nat) :
    NoTimeout (SPIFlashInit hal debug fuel s SPIFlash hSPI GPIO pin).1 := by
  by_cases h : SPIFlash = 0 ∨ hSPI = 0 ∨ GPIO = 0 ∨ s.dev.size ≠ 0
  · rw [Init_rejected hal debug fuel s SPIFlash hSPI GPIO pin h]
    exact NoTimeout_ERROR
  · have hH : SPIFlash ≠ 0 := fun e => h (Or.inl e)
    have hS : hSPI ≠ 0 := fun e => h (Or.inr (Or.inl e))
    have hG : GPIO ≠ 0 := fun e => h (Or.inr (Or.inr (Or.inl e)))
    have h0 : s.dev.size = 0 := not_not.mp fun e => h (Or.inr (Or.inr (Or.inr e)))
    exact (Init_inv hal debug fuel s SPIFlash hSPI GPIO pin hH hS hG h0).2.1

/-- C27: no public function returns `SPIFLASH_TIMEOUT`.  For every environment
(whatever the transfers and the tick do), every handle state and all
arguments, a status returned by `SPIFlashInit` or by one of the eleven other
public operations is `SPIFLASH_SUCCESS` or `SPIFLASH_ERROR`.  The functions do
return: the eleven when entered with the lock clear, the millisecond counter
running, at most 1024 blocks and fuel above the longest busy-wait and the
size; `SPIFlashInit` when the tick advances during the VCC wait and there is
fuel for its 20 iterations. -/
theorem C27_never_returns_timeout (hal : Hal σ) (debug : Bool) (fuel : Nat) (s : Sys σ)
    (num address data size offset SPIFlash hSPI GPIO pin : Nat) :
    (∀ r ∈ publicOps hal fuel s num address data size offset,
      ∀ st, r.1 = some st → st = SPIFLASH_SUCCESS ∨ st = SPIFLASH_ERROR) ∧
    (∀ st, (SPIFlashInit hal debug fuel s SPIFlash hSPI GPIO pin).1 = some st →
      st = SPIFLASH_SUCCESS ∨ st = SPIFLASH_ERROR) ∧
    (s.dev.lock = 0 → ClockRuns hal s.dev → s.dev.blockNum ≤ 1024 → 1024000 < fuel →
      size < fuel → ∀ r ∈ publicOps hal fuel s num address data size offset, Returns r) ∧
    (TickAdvances hal → 20 < fuel →
      Returns (SPIFlashInit hal debug fuel s SPIFlash hSPI GPIO pin)) :=
  ⟨fun r hr => (publicOps_inv hal fuel s num address data size offset r hr).2.2,
    NoTimeout_Init hal debug fuel s SPIFlash hSPI GPIO pin,
    fun hl hc hb hf hs =>
      publicOps_returns hal fuel s num address data size offset hl hc hb hf hs,
    fun ha hf => Init_returns hal debug fuel s SPIFlash hSPI GPIO pin ha hf⟩

theorem busyHal_tickAdvances : TickAdvances busyHal := by
  intro e h
  show e % 4294967296 < (e + 1) % 4294967296 % 4294967296
  have h1 : e % 4294967296 < 20 := h
  omega

set_option maxRecDepth 100000 in
/-- Instance of C27: a flash that stays busy.  The busy-wait of the page write
ends with `SPIFLASH_TIMEOUT` after 100 ms, and the page write returns
`SPIFLASH_SUCCESS`; `SPIFlashInit` on a fresh handle returns `SPIFLASH_SUCCESS`
as well. -/
theorem C27_never_returns_timeout_witness :
    (sys16 [1, 2, 3]).dev.lock = 0 ∧ ClockRuns busyHal (sys16 [1, 2, 3]).dev ∧
    (sys16 [1, 2, 3]).dev.blockNum ≤ 1024 ∧ 1024000 < 1024001 ∧ 3 < 1024001 ∧
    TickAdvances busyHal ∧ 20 < 1024001 ∧
    (SPIFlashWaitForWriting busyHal 1024001
      (afterProgram busyHal (locked (sys16 [1, 2, 3])) 0 0 3 0) 100).1
        = some SPIFLASH_TIMEOUT ∧
    (SPIFlashWritePage busyHal 1024001 (sys16 [1, 2, 3]) 0 0 3 0).1 = some SPIFLASH_SUCCESS ∧
    (SPIFLASH_SUCCESS = SPIFLASH_SUCCESS ∨ SPIFLASH_SUCCESS = SPIFLASH_ERROR) ∧
    Returns (SPIFlashWritePage busyHal 1024001 (sys16 [1, 2, 3]) 0 0 3 0) ∧
    (SPIFlashInit busyHal false 1024001 sysFresh 1 1 1 16).1 = some SPIFLASH_SUCCESS ∧
    Returns (SPIFlashInit busyHal false 1024001 sysFresh 1 1 1 16) :=
  ⟨by decide, busyHal_clockRuns _, by decide, by decide, by decide, busyHal_tickAdvances,
    by decide, by decide, by decide,
    (C27_never_returns_timeout busyHal false 1024001 (sys16 [1, 2, 3]) 0 0 0 3 0 1 1 1 16).1
      (SPIFlashWritePage busyHal 1024001 (sys16 [1, 2, 3]) 0 0 3 0)
      (by simp [publicOps]) SPIFLASH_SUCCESS (by decide),
    (C27_never_returns_timeout busyHal false 1024001 (sys16 [1, 2, 3]) 0 0 0 3 0 1 1 1 16).2.2.1
      (by decide) (busyHal_clockRuns _) (by decide) (by decide) (by decide) _
      (by simp [publicOps]),
    by decide,
    (C27_never_returns_timeout busyHal false 1024001 sysFresh 0 0 0 3 0 1 1 1
      16).2.2.2 busyHal_tickAdvances (by decide)⟩

/-! ## Initialising a handle again -/

/-- C28: initialising again.  `SPIFlashInit` called on a handle whose size field
is not zero (any probed handle) returns `SPIFLASH_ERROR` and changes nothing:
the state after the call is the state before it, so no chip-select change and
no transfer is traced and every handle field is as before.  Called with
non-null arguments on a handle whose size field is zero, as an earlier probe
with an unsupported capacity code leaves it, the call is accepted: it drives
chip-select high and, once the VCC wait is over, sends WRDI and probes the
JEDEC ID again, returning `SPIFLASH_SUCCESS`. -/
theorem C28_reinit_rejected (hal : Hal σ) (debug : Bool) (fuel : Nat) (s t : Sys σ)
    (SPIFlash hSPI GPIO pin : Nat)
    (hs : s.dev.size ≠ 0) (hH : SPIFlash ≠ 0) (hS : hSPI ≠ 0) (hG : GPIO ≠ 0)
    (ht : t.dev.size = 0) :
    (SPIFlashInit hal debug fuel s SPIFlash hSPI GPIO pin = (some SPIFLASH_ERROR, s) ∧
      emitted s (SPIFlashInit hal debug fuel s SPIFlash hSPI GPIO pin) = [] ∧
      (SPIFlashInit hal debug fuel s SPIFlash hSPI GPIO pin).2.dev = s.dev) ∧
    (∃ rest, emitted t (SPIFlashInit hal debug fuel t SPIFlash hSPI GPIO pin) =
        Event.cs 1 :: rest) ∧
    (TickAdvances hal → 20 < fuel →
      (SPIFlashInit hal debug fuel t SPIFlash hSPI GPIO pin).1 = some SPIFLASH_SUCCESS ∧
      emitted t (SPIFlashInit hal debug fuel t SPIFlash hSPI GPIO pin) =
        Event.cs 1 :: (wrdiFrame ++ probeFrames debug)) := by
  have hrej := Init_rejected hal debug fuel s SPIFlash hSPI GPIO pin
    (Or.inr (Or.inr (Or.inr hs)))
  obtain ⟨-, -, rest, h1, -, h3⟩ := Init_inv hal debug fuel t SPIFlash hSPI GPIO pin hH hS hG ht
  refine ⟨⟨hrej, ?_, ?_⟩, ⟨rest, h1⟩, ?_⟩
  · rw [hrej]
    exact emitted_eq s _ [] (by simp)
  · rw [hrej]
  · intro ha hf
    have hst : (SPIFlashInit hal debug fuel t SPIFlash hSPI GPIO pin).1
        = some SPIFLASH_SUCCESS := by
      have hv := vccWait_returns hal ha fuel (SPIFlashCSPin hal { t with dev :=
        { hSPI := hSPI, GPIO := GPIO, manufacturer := 0, size := 0, memType := 0, lock := 0,
          pin := pin % 65536, pageNum := 0, sectorNum := 0, blockNum := 0 } } 1) (by omega)
      rw [Init_accepted hal debug fuel t SPIFlash hSPI GPIO pin hH hS hG ht]
      generalize SPIFlashInit.vccWait hal fuel (SPIFlashCSPin hal { t with dev :=
        { hSPI := hSPI, GPIO := GPIO, manufacturer := 0, size := 0, memType := 0, lock := 0,
          pin := pin % 65536, pageNum := 0, sectorNum := 0, blockNum := 0 } } 1) = r at hv
      obtain ⟨o, s2⟩ := r
      simp only [] at hv
      subst hv
      rfl
    refine ⟨hst, ?_⟩
    rw [h1, h3 (by rw [hst]; simp)]

set_option maxRecDepth 100000 in
/-- Instance of C28: the handle probed with `EF 40 15` is refused; the handle
whose first probe saw the unsupported answer `EF 40 21` has size 0, and a second
`SPIFlashInit`, now answered with `EF 40 18`, probes again and stores capacity
code `0x18` with 256 blocks. -/
theorem C28_reinit_rejected_witness :
    (SPIFlashInit (jedecHal [0xEF, 0x40, 0x15]) false 30 sysFresh 1 1 1 16).2.dev.size ≠ 0 ∧
    (1 : Nat) ≠ 0 ∧
    (SPIFlashInit (jedecHal [0xEF, 0x40, 0x21]) false 30 sysFresh 1 1 1 16).2.dev.size = 0 ∧
    TickAdvances (jedecHal [0xEF, 0x40, 0x18]) ∧ 20 < 30 ∧
    SPIFlashInit (jedecHal [0xEF, 0x40, 0x18]) false 30
        (SPIFlashInit (jedecHal [0xEF, 0x40, 0x15]) false 30 sysFresh 1 1 1 16).2 1 1 1 16 =
      (some SPIFLASH_ERROR,
        (SPIFlashInit (jedecHal [0xEF, 0x40, 0x15]) false 30 sysFresh 1 1 1 16).2) ∧
    (SPIFlashInit (jedecHal [0xEF, 0x40, 0x18]) false 30
        (SPIFlashInit (jedecHal [0xEF, 0x40, 0x21]) false 30 sysFresh 1 1 1 16).2 1 1 1 16).1 =
      some SPIFLASH_SUCCESS ∧
    (SPIFlashInit (jedecHal [0xEF, 0x40, 0x18]) false 30
        (SPIFlashInit (jedecHal [0xEF, 0x40, 0x21]) false 30 sysFresh 1 1 1 16).2
        1 1 1 16).2.dev.size = 0x18 ∧
    (SPIFlashInit (jedecHal [0xEF, 0x40, 0x18]) false 30
        (SPIFlashInit (jedecHal [0xEF, 0x40, 0x21]) false 30 sysFresh 1 1 1 16).2
        1 1 1 16).2.dev.blockNum = 256 :=
  ⟨by decide, by decide, by decide, jedecHal_tickAdvances _, by decide,
    (C28_reinit_rejected (jedecHal [0xEF, 0x40, 0x18]) false 30
      (SPIFlashInit (jedecHal [0xEF, 0x40, 0x15]) false 30 sysFresh 1 1 1 16).2
      (SPIFlashInit (jedecHal [0xEF, 0x40, 0x21]) false 30 sysFresh 1 1 1 16).2 1 1 1 16
      (by decide) (by decide) (by decide) (by decide) (by decide)).1.1,
    ((C28_reinit_rejected (jedecHal [0xEF, 0x40, 0x18]) false 30
      (SPIFlashInit (jedecHal [0xEF, 0x40, 0x15]) false 30 sysFresh 1 1 1 16).2
      (SPIFlashInit (jedecHal [0xEF, 0x40, 0x21]) false 30 sysFresh 1 1 1 16).2 1 1 1 16
      (by decide) (by decide) (by decide) (by decide) (by decide)).2.2
      (jedecHal_tickAdvances _) (by decide)).1,
    by decide, by decide⟩

/-! ## The loop bound of the region writes -/

theorem WriteRegion_loop_done (hal : Hal σ) (fuel data limit n : Nat) (s : Sys σ)
    (bytesWritten pageNumber remainingBytes pageOffset : Nat)
    (h : remainingBytes = 0 ∨ limit ≤ pageNumber) :
    SPIFlashWriteRegion.loop hal fuel data limit (n + 1) s bytesWritten pageNumber
      remainingBytes pageOffset = (some SPIFLASH_SUCCESS, s) := by
  unfold SPIFlashWriteRegion.loop
  have hc : ¬ (remainingBytes > 0 ∧ pageNumber < limit) := by omega
  rw [if_neg hc]

theorem WriteSector_no_loop (hal : Hal σ) (fuel : Nat) (s : Sys σ)
    (sectorNumber data size offset : Nat) (hl : s.dev.lock = 0) (ho : offset < 4096)
    (h : size = 0 ∨ mul32 (add32 sectorNumber 1) (SPIFLASH_SECTOR_SIZE / SPIFLASH_PAGE_SIZE) = 0) :
    SPIFlashWriteSector hal (fuel + 1) s sectorNumber data size offset =
      (some SPIFLASH_SUCCESS, SPIFlashUnLock (locked s)) := by
  unfold SPIFlashWriteSector
  rw [Lock_locked hal fuel s hl]
  have ho1 : ¬ (offset ≥ SPIFLASH_SECTOR_SIZE) := by rw [SECTOR_SIZE_eq]; omega
  simp only [andThen_some, if_neg ho1]
  rw [WriteRegion_loop_done]
  · rfl
  · rcases h with h | h
    · left
      rw [h]
      split
      · omega
      · rfl
    · right
      rw [h]
      exact Nat.zero_le _

theorem WriteBlock_no_loop (hal : Hal σ) (fuel : Nat) (s : Sys σ)
    (blockNumber data size offset : Nat) (hl : s.dev.lock = 0) (ho : offset < 65536)
    (h : size = 0 ∨ mul32 (add32 blockNumber 1) (SPIFLASH_BLOCK_SIZE / SPIFLASH_PAGE_SIZE) = 0) :
    SPIFlashWriteBlock hal (fuel + 1) s blockNumber data size offset =
      (some SPIFLASH_SUCCESS, SPIFlashUnLock (locked s)) := by
  unfold SPIFlashWriteBlock
  rw [Lock_locked hal fuel s hl]
  have ho1 : ¬ (offset ≥ SPIFLASH_BLOCK_SIZE) := by rw [BLOCK_SIZE_eq]; omega
  simp only [andThen_some, if_neg ho1]
  rw [WriteRegion_loop_done]
  · rfl
  · rcases h with h | h
    · left
      rw [h]
      split
      · omega
      · rfl
    · right
      rw [h]
      exact Nat.zero_le _

/-- C29: wraparound of the loop bound of the region writes.  On a handle with
the lock clear, for every buffer, every size and every offset below the region
size: `SPIFlashWriteSector` with sector number `0x0FFFFFFF` and
`SPIFlashWriteBlock` with block number `0x00FFFFFF`, whose loop bounds
`(sectorNumber + 1) * 16` and `(blockNumber + 1) * 256` are 0 modulo `2 ^ 32`,
return `SPIFLASH_SUCCESS` and make no bus call at all; the same holds for every
sector or block number when the size is 0.  These region numbers are out of
range for every probed handle. -/
theorem C29_region_bound_wraps (hal : Hal σ) (fuel : Nat) (s : Sys σ)
    (num data size offS offB : Nat)
    (hl : s.dev.lock = 0) (hf : 0 < fuel) (hoS : offS < 4096) (hoB : offB < 65536) :
    mul32 (add32 0x0FFFFFFF 1) (SPIFLASH_SECTOR_SIZE / SPIFLASH_PAGE_SIZE) = 0 ∧
    mul32 (add32 0x00FFFFFF 1) (SPIFLASH_BLOCK_SIZE / SPIFLASH_PAGE_SIZE) = 0 ∧
    ((SPIFlashWriteSector hal fuel s 0x0FFFFFFF data size offS).1 = some SPIFLASH_SUCCESS ∧
      emitted s (SPIFlashWriteSector hal fuel s 0x0FFFFFFF data size offS) = []) ∧
    ((SPIFlashWriteBlock hal fuel s 0x00FFFFFF data size offB).1 = some SPIFLASH_SUCCESS ∧
      emitted s (SPIFlashWriteBlock hal fuel s 0x00FFFFFF data size offB) = []) ∧
    ((SPIFlashWriteSector hal fuel s num data 0 offS).1 = some SPIFLASH_SUCCESS ∧
      emitted s (SPIFlashWriteSector hal fuel s num data 0 offS) = []) ∧
    ((SPIFlashWriteBlock hal fuel s num data 0 offB).1 = some SPIFLASH_SUCCESS ∧
      emitted s (SPIFlashWriteBlock hal fuel s num data 0 offB) = []) ∧
    (Probed s.dev → s.dev.sectorNum ≤ 0x0FFFFFFF ∧ s.dev.blockNum ≤ 0x00FFFFFF) := by
  obtain ⟨f, rfl⟩ : ∃ f, fuel = f + 1 := ⟨fuel - 1, by omega⟩
  have h1 : mul32 (add32 0x0FFFFFFF 1) (SPIFLASH_SECTOR_SIZE / SPIFLASH_PAGE_SIZE) = 0 := by
    decide
  have h2 : mul32 (add32 0x00FFFFFF 1) (SPIFLASH_BLOCK_SIZE / SPIFLASH_PAGE_SIZE) = 0 := by
    decide
  have he : emitted s ((some SPIFLASH_SUCCESS, SPIFlashUnLock (locked s)) :
      Option SPIFlashStatus_t × Sys σ) = [] :=
    emitted_eq s _ [] (by simp)
  rw [WriteSector_no_loop hal f s 0x0FFFFFFF data size offS hl hoS (Or.inr h1),
    WriteBlock_no_loop hal f s 0x00FFFFFF data size offB hl hoB (Or.inr h2),
    WriteSector_no_loop hal f s num data 0 offS hl hoS (Or.inl rfl),
    WriteBlock_no_loop hal f s num data 0 offB hl hoB (Or.inl rfl), he]
  refine ⟨h1, h2, ⟨rfl, rfl⟩, ⟨rfl, rfl⟩, ⟨rfl, rfl⟩, ⟨rfl, rfl⟩, ?_⟩
  intro hp
  obtain ⟨hb, hsn, -⟩ := Probed_geometry s.dev hp
  omega

set_option maxRecDepth 100000 in
/-- Instance of C29: on the 16 Mbit handle (512 sectors, 32 blocks) a write of
three bytes to sector `0x0FFFFFFF` and to block `0x00FFFFFF` returns
`SPIFLASH_SUCCESS` with an empty trace, and so does a write of size 0 to
sector 7. -/
theorem C29_region_bound_wraps_witness :
    (sys16 [1, 2, 3]).dev.lock = 0 ∧ 0 < 5 ∧ 16 < 4096 ∧ 300 < 65536 ∧
    ((SPIFlashWriteSector idleHal 5 (sys16 [1, 2, 3]) 0x0FFFFFFF 0 3 16).1
        = some SPIFLASH_SUCCESS ∧
      emitted (sys16 [1, 2, 3])
        (SPIFlashWriteSector idleHal 5 (sys16 [1, 2, 3]) 0x0FFFFFFF 0 3 16) = []) ∧
    ((SPIFlashWriteBlock idleHal 5 (sys16 [1, 2, 3]) 0x00FFFFFF 0 3 300).1
        = some SPIFLASH_SUCCESS ∧
      emitted (sys16 [1, 2, 3])
        (SPIFlashWriteBlock idleHal 5 (sys16 [1, 2, 3]) 0x00FFFFFF 0 3 300) = []) ∧
    ((SPIFlashWriteSector idleHal 5 (sys16 [1, 2, 3]) 7 0 0 16).1 = some SPIFLASH_SUCCESS ∧
      emitted (sys16 [1, 2, 3]) (SPIFlashWriteSector idleHal 5 (sys16 [1, 2, 3]) 7 0 0 16)
        = []) ∧
    (sys16 [1, 2, 3]).dev.sectorNum ≤ 0x0FFFFFFF :=
  ⟨by decide, by decide, by decide, by decide,
    (C29_region_bound_wraps idleHal 5 (sys16 [1, 2, 3]) 7 0 3 16 300
      (by decide) (by decide) (by decide) (by decide)).2.2.1,
    (C29_region_bound_wraps idleHal 5 (sys16 [1, 2, 3]) 7 0 3 16 300
      (by decide) (by decide) (by decide) (by decide)).2.2.2.1,
    (C29_region_bound_wraps idleHal 5 (sys16 [1, 2, 3]) 7 0 3 16 300
      (by decide) (by decide) (by decide) (by decide)).2.2.2.2.1,
    by decide⟩

end SPIFlash
